import Mathlib

/-! Dairy_APP, the session / auth client boundary.

A shallow embedding of the browser client's session handling
(`src/utils/axiosInstance.js`, `src/pages/Login.jsx`, `src/pages/Signup.jsx`,
`src/components/GoogleAuthCallback.jsx`, `src/components/ProtectedRoute.jsx`,
`src/App.jsx`, `src/pages/Dashboard.jsx`, `src/pages/JournalEntryForm.jsx`).

JavaScript values are a small inductive type, `localStorage` is an association
list, and every handler is a function from the state of the browser (storage,
location, notices shown, requests put on the wire) to the state after the
handler has run to completion. The backend is a function from the request that
reaches the wire to the outcome axios settles with.
-/

namespace DairyApp

/-! JavaScript values -/

/-- The JavaScript values the handlers inspect: what a JSON body can hold, plus
`undefined` for a missing property. Numbers are the integral ones; strings are
sequences of Unicode scalar values. An array and an object carry a reference
tag, since strict equality of two of them is identity; the objects and arrays
the client builds itself carry tag 0 and are never compared. -/
inductive JSValue where
  | undefined : JSValue
  | null : JSValue
  | bool (b : Bool) : JSValue
  | number (n : Int) : JSValue
  | string (s : String) : JSValue
  | array (ref : Nat) (items : List JSValue) : JSValue
  | object (ref : Nat) (fields : List (String × JSValue)) : JSValue

namespace JSValue

/-- The test `v === undefined || v === null`. -/
def isNullish : JSValue → Bool
  | undefined => true
  | null => true
  | _ => false

/-- ToBoolean: the test of `if (v)`, `!v` and `a || b`. -/
def truthy : JSValue → Bool
  | undefined => false
  | null => false
  | bool b => b
  | number n => n != 0
  | string s => s != ""
  | array _ _ => true
  | object _ _ => true

mutual
/-- ToString: what a template literal, `toString()` and `localStorage.setItem`
make of a value. -/
def toStr : JSValue → String
  | undefined => "undefined"
  | null => "null"
  | bool b => if b then "true" else "false"
  | number n => toString n
  | string s => s
  | array _ items => join items
  | object _ _ => "[object Object]"
termination_by structural v => v
/-- The `join(",")` behind the ToString of an array: `undefined` and `null`
elements give the empty string. -/
def join : List JSValue → String
  | [] => ""
  | x :: rest => (if x.isNullish then "" else toStr x) ++ joinTail rest
termination_by structural l => l
/-- The elements after the first, each behind its comma. -/
def joinTail : List JSValue → String
  | [] => ""
  | x :: rest => "," ++ (if x.isNullish then "" else toStr x) ++ joinTail rest
termination_by structural l => l
end

/-- Own-property lookup in a property list (first binding of the key). -/
def lookup (key : String) : List (String × JSValue) → JSValue
  | [] => undefined
  | (k, v) :: rest => if k = key then v else lookup key rest

/-- Property read `v.key` for the data keys the client reads (`token`,
`message`, `username`, `_id`, `id`, `title`, `content`, `sentiment`): `none`
is the TypeError thrown on `undefined` and `null`; a primitive and an array
have no such property. -/
def getProp (v : JSValue) (key : String) : Option JSValue :=
  match v with
  | undefined => none
  | null => none
  | object _ fields => some (lookup key fields)
  | _ => some undefined

/-- Optional chaining `v?.key`: `undefined` on `undefined` and `null`. -/
def optProp (v : JSValue) (key : String) : JSValue :=
  match v with
  | object _ fields => lookup key fields
  | _ => undefined

/-- Short-circuit `a || b`. -/
def orElse (a b : JSValue) : JSValue :=
  if a.truthy then a else b

/-- The test `typeof v === "object"`. -/
def typeofObject : JSValue → Bool
  | null => true
  | array _ _ => true
  | object _ _ => true
  | _ => false

/-- Strict equality `a === b`. -/
def strictEq : JSValue → JSValue → Bool
  | undefined, undefined => true
  | null, null => true
  | bool a, bool b => a == b
  | number a, number b => a == b
  | string a, string b => a == b
  | array r _, array s _ => r == s
  | object r _, object s _ => r == s
  | _, _ => false

/-- The method call `v.toString()`: `none` is the TypeError on `undefined` and
`null`. -/
def toStringCall (v : JSValue) : Option String :=
  if v.isNullish then none else some v.toStr

end JSValue

/-! Browser state -/

/-- The `localStorage` area: key/value pairs of strings. -/
abbrev Storage := List (String × String)

namespace Storage

/-- Method `localStorage.getItem(key)`: the stored string, `none` for `null`. -/
def getItem (st : Storage) (key : String) : Option String :=
  match st with
  | [] => none
  | (k, v) :: rest => if k = key then some v else getItem rest key

/-- Method `localStorage.removeItem(key)`. -/
def removeItem (st : Storage) (key : String) : Storage :=
  match st with
  | [] => []
  | (k, v) :: rest => if k = key then removeItem rest key else (k, v) :: removeItem rest key

/-- Method `localStorage.setItem(key, value)`. -/
def setItem (st : Storage) (key value : String) : Storage :=
  (key, value) :: removeItem st key

end Storage

/-- Request headers, by name. -/
abbrev Headers := List (String × String)

namespace Headers

/-- Read of the header property `headers[name]`. -/
def get (h : Headers) (name : String) : Option String :=
  match h with
  | [] => none
  | (k, v) :: rest => if k = name then some v else get rest name

/-- Assignment `headers[name] = value`: overwrites the property when it is
there, adds it otherwise. -/
def set (h : Headers) (name value : String) : Headers :=
  match h with
  | [] => [(name, value)]
  | (k, v) :: rest => if k = name then (k, value) :: rest else (k, v) :: set rest name value

end Headers

/-- An axios request configuration. -/
structure RequestConfig where
  method : String
  url : String
  data : JSValue
  headers : Headers

/-- An HTTP response as axios hands it on. -/
structure Response where
  status : Nat
  data : JSValue

/-- The error axios rejects with: `response` is missing on a network failure. -/
structure AxiosError where
  message : String
  response : Option Response

/-- What a `catch` clause can receive: an axios rejection, or a TypeError
thrown by the handler's own code. -/
inductive JSError where
  | axios (e : AxiosError) : JSError
  | typeError : JSError

/-- Kind of a react-hot-toast notice. -/
inductive ToastKind where
  | success : ToastKind
  | error : ToastKind
deriving DecidableEq

/-- One call of `toast.success(m)` or `toast.error(m)`. -/
structure Toast where
  kind : ToastKind
  message : JSValue

/-- The state of the browser the client acts on. -/
structure World where
  storage : Storage
  location : String
  toasts : List Toast
  requests : List RequestConfig

/-- The backend together with the transport: the outcome axios settles with for
the request that reaches the wire. -/
abbrev Backend := RequestConfig → Except AxiosError Response

namespace World

/-- Call `toast.success(m)`. -/
def toastSuccess (w : World) (m : JSValue) : World :=
  { w with toasts := w.toasts ++ [⟨ToastKind.success, m⟩] }

/-- Call `toast.error(m)`. -/
def toastError (w : World) (m : JSValue) : World :=
  { w with toasts := w.toasts ++ [⟨ToastKind.error, m⟩] }

/-- Navigation: `window.location.href = path`, `window.location.assign(path)` and the
router's `navigate(path)`. -/
def navigate (w : World) (path : String) : World :=
  { w with location := path }

/-- Method `localStorage.setItem(key, value)`; the value is converted to a string. -/
def setItem (w : World) (key : String) (value : JSValue) : World :=
  { w with storage := w.storage.setItem key value.toStr }

/-- Method `localStorage.removeItem(key)`. -/
def removeItem (w : World) (key : String) : World :=
  { w with storage := w.storage.removeItem key }

end World

/-! `utils/axiosInstance.js` -/

namespace axiosInstance

/-- Fulfilled handler of `axiosInstance.interceptors.request.use`. -/
def requestInterceptor (st : Storage) (config : RequestConfig) : RequestConfig :=
  match st.getItem "token" with
  | some token =>
    if token ≠ "" then
      { config with headers := config.headers.set "Authorization" ("Bearer " ++ token) }
    else config
  | none => config

/-- Rejected handler of `axiosInstance.interceptors.request.use`:
`(error) => Promise.reject(error)`. -/
def requestErrorHandler (w : World) (error : AxiosError) : World × Except AxiosError Response :=
  (w, Except.error error)

/-- Fulfilled handler of `axiosInstance.interceptors.response.use`:
`(response) => response`. -/
def responseInterceptor (w : World) (response : Response) : World × Except AxiosError Response :=
  (w, Except.ok response)

/-- Rejected handler of `axiosInstance.interceptors.response.use`. -/
def responseErrorHandler (w : World) (error : AxiosError) : World × Except AxiosError Response :=
  let w1 :=
    match error.response with
    | some response =>
      if response.status = 401 then (w.removeItem "token").navigate "/login" else w
    | none => w
  (w1, Except.error error)

/-- One call through the instance: the request interceptor decorates the
configuration, the request goes on the wire, and the outcome passes through the
response interceptor. -/
def request (backend : Backend) (w : World) (config : RequestConfig) :
    World × Except AxiosError Response :=
  let sent := requestInterceptor w.storage config
  let w1 := { w with requests := w.requests ++ [sent] }
  match backend sent with
  | Except.ok response => responseInterceptor w1 response
  | Except.error error => responseErrorHandler w1 error

/-- Call `axiosInstance.get(url)`. -/
def get (backend : Backend) (w : World) (url : String) : World × Except AxiosError Response :=
  request backend w ⟨"get", url, JSValue.undefined, []⟩

/-- Call `axiosInstance.delete(url)`. -/
def delete (backend : Backend) (w : World) (url : String) : World × Except AxiosError Response :=
  request backend w ⟨"delete", url, JSValue.undefined, []⟩

/-- Call `axiosInstance.post(url, data)`. -/
def post (backend : Backend) (w : World) (url : String) (data : JSValue) :
    World × Except AxiosError Response :=
  request backend w ⟨"post", url, data, []⟩

/-- Call `axiosInstance.put(url, data)`. -/
def put (backend : Backend) (w : World) (url : String) (data : JSValue) :
    World × Except AxiosError Response :=
  request backend w ⟨"put", url, data, []⟩

end axiosInstance

/-- The value of `error.response?.data?.message` in a `catch` clause. -/
def JSError.responseMessage : JSError → JSValue
  | JSError.axios e =>
    match e.response with
    | some response => response.data.optProp "message"
    | none => JSValue.undefined
  | JSError.typeError => JSValue.undefined

/-! `pages/Login.jsx` -/

/-- Component state of `Login`. -/
structure LoginState where
  username : String
  password : String
  darkMode : Bool
  isLoading : Bool

namespace Login

/-- The request body `{ username, password }`. -/
def credentials (s : LoginState) : JSValue :=
  JSValue.object 0
    [("username", JSValue.string s.username), ("password", JSValue.string s.password)]

/-- Handler `handleLogin`, run to completion. -/
def handleLogin (backend : Backend) (w : World) (s : LoginState) : World × LoginState :=
  match axiosInstance.post backend w "/public/login" (credentials s) with
  | (w1, Except.ok response) =>
    let token := response.data.optProp "token"
    if !token.truthy then
      (w1.toastError (JSValue.string "Invalid credentials or token not generated."),
        { s with isLoading := false })
    else
      let w2 := w1.setItem "token" token
      let w3 := w2.toastSuccess (JSValue.string "Login successful!")
      (w3.navigate "/dashboard", { s with isLoading := false })
  | (w1, Except.error error) =>
    (w1.toastError
        (JSValue.orElse (JSError.axios error).responseMessage (JSValue.string "Login failed.")),
      { s with isLoading := false })

end Login

/-! `pages/Signup.jsx` -/

/-- Component state of `Signup`. -/
structure SignupState where
  email : String
  username : String
  password : String
  darkMode : Bool
  isLoading : Bool

namespace Signup

/-- The `catch` clause of `handleSignup`, followed by its `finally`. -/
def handleSignupCatch (w : World) (s : SignupState) (error : JSError) : World × SignupState :=
  (w.toastError (JSValue.orElse error.responseMessage (JSValue.string "Signup failed.")),
    { s with isLoading := false })

/-- The sign-up request body `{ email, username, password }`. -/
def account (s : SignupState) : JSValue :=
  JSValue.object 0
    [("email", JSValue.string s.email), ("username", JSValue.string s.username),
      ("password", JSValue.string s.password)]

/-- The login request body `{ username, password }`. -/
def credentials (s : SignupState) : JSValue :=
  JSValue.object 0
    [("username", JSValue.string s.username), ("password", JSValue.string s.password)]

/-- Handler `handleSignup`, run to completion. -/
def handleSignup (backend : Backend) (w : World) (s : SignupState) : World × SignupState :=
  match axiosInstance.post backend w "/public/sign-up" (account s) with
  | (w1, Except.ok _) =>
    let w2 := w1.toastSuccess (JSValue.string "Signup successful!")
    match axiosInstance.post backend w2 "/public/login" (credentials s) with
    | (w3, Except.ok loginResponse) =>
      match loginResponse.data.getProp "token" with
      | some token =>
        let w4 := w3.setItem "token" token
        (w4.navigate "/dashboard", { s with isLoading := false })
      | none => handleSignupCatch w3 s JSError.typeError
    | (w3, Except.error error) => handleSignupCatch w3 s (JSError.axios error)
  | (w1, Except.error error) => handleSignupCatch w1 s (JSError.axios error)

end Signup

/-! `URLSearchParams` (the platform's query-string parser) -/

namespace URLSearchParams

/-- UTF-8 bytes of one character. -/
def utf8EncodeChar (c : Char) : List Nat :=
  let n := c.toNat
  if n < 0x80 then [n]
  else if n < 0x800 then [0xC0 + n / 64, 0x80 + n % 64]
  else if n < 0x10000 then [0xE0 + n / 4096, 0x80 + n / 64 % 64, 0x80 + n % 64]
  else [0xF0 + n / 262144, 0x80 + n / 4096 % 64, 0x80 + n / 64 % 64, 0x80 + n % 64]

/-- UTF-8 bytes of a string. -/
def utf8Encode : List Char → List Nat
  | [] => []
  | c :: rest => utf8EncodeChar c ++ utf8Encode rest

/-- State of the UTF-8 decoder inside a multi-byte sequence. -/
structure Utf8State where
  needed : Nat
  seen : Nat
  codePoint : Nat
  lower : Nat
  upper : Nat

/-- The decoder on a byte that starts a sequence: the character it emits, or
the state it goes to. -/
def utf8Lead (b : Nat) : Option Char × Option Utf8State :=
  if b < 0x80 then (some (Char.ofNat b), none)
  else if 0xC2 ≤ b ∧ b ≤ 0xDF then (none, some ⟨1, 0, b % 32, 0x80, 0xBF⟩)
  else if 0xE0 ≤ b ∧ b ≤ 0xEF then
    (none, some ⟨2, 0, b % 16, if b = 0xE0 then 0xA0 else 0x80, if b = 0xED then 0x9F else 0xBF⟩)
  else if 0xF0 ≤ b ∧ b ≤ 0xF4 then
    (none, some ⟨3, 0, b % 8, if b = 0xF0 then 0x90 else 0x80, if b = 0xF4 then 0x8F else 0xBF⟩)
  else (some (Char.ofNat 0xFFFD), none)

/-- UTF-8 decode without BOM, malformed input giving U+FFFD. -/
def utf8Decode : Option Utf8State → List Nat → List Char
  | none, [] => []
  | some _, [] => [Char.ofNat 0xFFFD]
  | none, b :: rest =>
    match utf8Lead b with
    | (some c, st) => c :: utf8Decode st rest
    | (none, st) => utf8Decode st rest
  | some s, b :: rest =>
    if s.lower ≤ b ∧ b ≤ s.upper then
      let cp := s.codePoint * 64 + b % 64
      if s.seen + 1 = s.needed then Char.ofNat cp :: utf8Decode none rest
      else utf8Decode (some ⟨s.needed, s.seen + 1, cp, 0x80, 0xBF⟩) rest
    else
      match utf8Lead b with
      | (some c, st) => Char.ofNat 0xFFFD :: c :: utf8Decode st rest
      | (none, st) => Char.ofNat 0xFFFD :: utf8Decode st rest

/-- Value of an ASCII hex digit, `none` for any other byte. -/
def hexValue (b : Nat) : Option Nat :=
  if 0x30 ≤ b ∧ b ≤ 0x39 then some (b - 0x30)
  else if 0x41 ≤ b ∧ b ≤ 0x46 then some (b - 0x41 + 10)
  else if 0x61 ≤ b ∧ b ≤ 0x66 then some (b - 0x61 + 10)
  else none

/-- Percent-decode a byte sequence. -/
def percentDecode : List Nat → List Nat
  | [] => []
  | [b] => [b]
  | [b, c] => [b, c]
  | b :: h1 :: h2 :: rest =>
    if b = 0x25 then
      match hexValue h1, hexValue h2 with
      | some x, some y => (16 * x + y) :: percentDecode rest
      | _, _ => b :: percentDecode (h1 :: h2 :: rest)
    else b :: percentDecode (h1 :: h2 :: rest)

/-- Split a byte sequence at every `&`. -/
def splitAmp : List Nat → List (List Nat)
  | [] => [[]]
  | b :: rest =>
    match splitAmp rest with
    | [] => [[b]]
    | piece :: pieces => if b = 0x26 then [] :: piece :: pieces else (b :: piece) :: pieces

/-- Split a byte sequence at its first `=`; the value is empty when there is none. -/
def splitEq : List Nat → List Nat × List Nat
  | [] => ([], [])
  | b :: rest =>
    if b = 0x3D then ([], rest)
    else let (name, value) := splitEq rest; (b :: name, value)

/-- Decoding of a name or a value: `+` is a space, then percent-decoding, then UTF-8. -/
def decodeComponent (bytes : List Nat) : String :=
  String.mk (utf8Decode none (percentDecode (bytes.map fun b => if b = 0x2B then 0x20 else b)))

/-- The constructor `new URLSearchParams(init)` on a string: one leading `?` is
dropped, and the rest is parsed as `application/x-www-form-urlencoded`. -/
def parse (init : String) : List (String × String) :=
  let chars := match init.toList with
    | '?' :: rest => rest
    | cs => cs
  ((splitAmp (utf8Encode chars)).filter fun piece => !piece.isEmpty).map fun piece =>
    let (name, value) := splitEq piece
    (decodeComponent name, decodeComponent value)

/-- Method `get(name)`: the value of the first pair with that name, `none` for `null`. -/
def get (params : List (String × String)) (name : String) : Option String :=
  match params with
  | [] => none
  | (k, v) :: rest => if k = name then some v else get rest name

end URLSearchParams

/-! `components/GoogleAuthCallback.jsx` -/

namespace GoogleAuthCallback

/-- The `useEffect` body of `GoogleAuthCallback`, run to completion with the
router location's `search` string. -/
def effect (backend : Backend) (w : World) (search : String) : World :=
  let queryParams := URLSearchParams.parse search
  match URLSearchParams.get queryParams "code" with
  | some code =>
    if code ≠ "" then
      match axiosInstance.get backend w ("/auth/google/callback?code=" ++ code) with
      | (w1, Except.ok response) =>
        let w2 := w1.toastSuccess (JSValue.string "Google login successful!")
        let token := response.data.optProp "token"
        let w3 := if token.truthy then w2.setItem "token" token else w2
        w3.navigate "/dashboard"
      | (w1, Except.error error) =>
        w1.toastError
          (JSValue.orElse (JSError.axios error).responseMessage
            (JSValue.string "Google login failed."))
    else w.toastError (JSValue.string "Authorization code not found.")
  | none => w.toastError (JSValue.string "Authorization code not found.")

end GoogleAuthCallback

/-! `components/ProtectedRoute.jsx` -/

/-- What `ProtectedRoute` returns: the protected component, or a `Navigate` element. -/
inductive Rendered (α : Type) where
  | component (c : α) : Rendered α
  | navigateTo (path : String) (replace : Bool) : Rendered α

/-- Component `ProtectedRoute`, one render. -/
def ProtectedRoute {α : Type} (w : World) (Component : α) : World × Rendered α :=
  let isAuthenticated :=
    match w.storage.getItem "token" with
    | some token => token != ""
    | none => false
  if !isAuthenticated then
    (w.toastError (JSValue.string "Please log in to access this page."),
      Rendered.navigateTo "/login" true)
  else (w, Rendered.component Component)

/-! `App.jsx` -/

namespace App

/-- The `onClick` handler of the Logout button. -/
def logout (w : World) : World :=
  (w.removeItem "token").navigate "/login"

end App

/-! `pages/Dashboard.jsx` -/

/-- Component state of `Dashboard`. `renderError` records that a state updater
threw: React runs it while rendering, outside the handler's `try`. -/
structure DashboardState where
  entries : JSValue
  username : JSValue
  editingEntryId : JSValue
  editingEntryData : JSValue
  renderError : Bool

namespace Dashboard

/-- Assignment of one property in a property list, as an object literal with a
spread does it: an existing key keeps its place and takes the new value. -/
def setField (fields : List (String × JSValue)) (key : String) (value : JSValue) :
    List (String × JSValue) :=
  match fields with
  | [] => [(key, value)]
  | (k, v) :: rest => if k = key then (k, value) :: rest else (k, v) :: setField rest key value

/-- Own enumerable properties copied by a spread `...v` of an object; the
handlers spread only objects (an entry that has an `_id`, the editing data). -/
def ownProps : JSValue → List (String × JSValue)
  | JSValue.object _ fields => fields
  | _ => []

/-- The object literal `{ ...a, ...b }`. -/
def spread (a b : JSValue) : JSValue :=
  JSValue.object 0 ((ownProps b).foldl (fun acc kv => setField acc kv.1 kv.2) (ownProps a))

/-- The callback of `prevEntries.filter` in `handleDelete` over the items:
`none` is the TypeError of `entry._id` on a nullish item. -/
def filterItems (entryId : JSValue) : List JSValue → Option (List JSValue)
  | [] => some []
  | entry :: rest =>
    match entry.getProp "_id" with
    | none => none
    | some v =>
      match filterItems entryId rest with
      | none => none
      | some kept => some (if !(v.strictEq entryId) then entry :: kept else kept)

/-- The updater `prevEntries => prevEntries.filter(entry => entry._id !== entryId)`;
only an array has `filter`. -/
def filterEntries (entryId : JSValue) : JSValue → Option JSValue
  | JSValue.array _ items => (filterItems entryId items).map (JSValue.array 0)
  | _ => none

/-- The callback of `prevEntries.map` in `handleUpdate` over the items: `none`
is the TypeError of `entry._id` or of `toString()` on a nullish value. -/
def mapItems (entryId : String) (data : JSValue) : List JSValue → Option (List JSValue)
  | [] => some []
  | entry :: rest =>
    match entry.getProp "_id" with
    | none => none
    | some v =>
      match v.toStringCall with
      | none => none
      | some text =>
        match mapItems entryId data rest with
        | none => none
        | some mapped => some ((if text = entryId then spread entry data else entry) :: mapped)

/-- The updater of `setEntries` in `handleUpdate`; only an array has `map`. -/
def mapEntries (entryId : String) (data : JSValue) : JSValue → Option JSValue
  | JSValue.array _ items => (mapItems entryId data items).map (JSValue.array 0)
  | _ => none

/-- Call `setEntries(updater)`. -/
def setEntriesWith (s : DashboardState) (updater : JSValue → Option JSValue) : DashboardState :=
  match updater s.entries with
  | some entries => { s with entries := entries }
  | none => { s with renderError := true }

/-- Callback `fetchUserDetails`, run to completion. -/
def fetchUserDetails (backend : Backend) (w : World) (s : DashboardState) :
    World × DashboardState :=
  match axiosInstance.get backend w "/user/me" with
  | (w1, Except.ok response) =>
    match response.data.getProp "username" with
    | some username => (w1, { s with username := username })
    | none => (w1.toastError (JSValue.string "Failed to fetch user details."), s)
  | (w1, Except.error _) => (w1.toastError (JSValue.string "Failed to fetch user details."), s)

/-- Callback `fetchEntries`, run to completion. -/
def fetchEntries (backend : Backend) (w : World) (s : DashboardState) :
    World × DashboardState :=
  match axiosInstance.get backend w "/journal" with
  | (w1, Except.ok response) => (w1, { s with entries := response.data })
  | (w1, Except.error _) => (w1.toastError (JSValue.string "Failed to fetch entries."), s)

/-- The `catch` clause of `handleDelete`. -/
def handleDeleteCatch (w : World) (error : JSError) : World :=
  let errorMsg := JSValue.orElse error.responseMessage (JSValue.string "Failed to delete entries.")
  w.toastError (JSValue.string ("Error: " ++ errorMsg.toStr))

/-- Handler `handleDelete(id)`, run to completion; `confirmed` is the answer
`window.confirm` returns. A call without argument has `id = undefined`. -/
def handleDelete (backend : Backend) (w : World) (s : DashboardState) (id : JSValue)
    (confirmed : Bool) : World × DashboardState :=
  let entryId :=
    if id.typeofObject && !(id.strictEq JSValue.null) then
      JSValue.orElse (id.optProp "_id") (id.optProp "id")
    else id
  if !(entryId.strictEq JSValue.undefined) then
    if confirmed then
      match axiosInstance.delete backend w
          ("/journal/" ++ s.username.toStr ++ "/" ++ entryId.toStr) with
      | (w1, Except.ok _) =>
        (w1.toastSuccess (JSValue.string "Entry deleted successfully."),
          setEntriesWith s (filterEntries entryId))
      | (w1, Except.error error) => (handleDeleteCatch w1 (JSError.axios error), s)
    else (w, s)
  else
    if confirmed then
      match axiosInstance.delete backend w "/journal/delete-all" with
      | (w1, Except.ok _) =>
        (w1.toastSuccess (JSValue.string "All entries deleted successfully."),
          { s with entries := JSValue.array 0 [] })
      | (w1, Except.error error) => (handleDeleteCatch w1 (JSError.axios error), s)
    else (w, s)

/-- Handler `startEditing(entry)`; on a nullish entry the property read throws
and nothing is set. -/
def startEditing (s : DashboardState) (entry : JSValue) : DashboardState :=
  match entry.getProp "_id", entry.getProp "title", entry.getProp "content",
      entry.getProp "sentiment" with
  | some id, some title, some content, some sentiment =>
    { s with
      editingEntryId := id
      editingEntryData := JSValue.object 0
        [("title", title), ("content", content),
          ("sentiment", JSValue.orElse sentiment (JSValue.string ""))] }
  | _, _, _, _ => s

/-- Handler `handleCancelEdit`. -/
def handleCancelEdit (s : DashboardState) : DashboardState :=
  { s with editingEntryId := JSValue.null, editingEntryData := JSValue.object 0 [] }

/-- The `onChange` handlers of the inline edit fields:
`setEditingEntryData({ ...editingEntryData, [field]: e.target.value })` with
`field` one of `title`, `content`. -/
def editField (s : DashboardState) (field value : String) : DashboardState :=
  { s with editingEntryData :=
      JSValue.object 0 (setField (ownProps s.editingEntryData) field (JSValue.string value)) }

/-- The `catch` clause of `handleUpdate`. -/
def handleUpdateCatch (w : World) (error : JSError) : World :=
  let errorMsg := JSValue.orElse error.responseMessage (JSValue.string "Failed to update entry.")
  w.toastError (JSValue.string ("Error: " ++ errorMsg.toStr))

/-- Handler `handleUpdate`, run to completion. -/
def handleUpdate (backend : Backend) (w : World) (s : DashboardState) : World × DashboardState :=
  if !s.editingEntryId.truthy then
    (w.toastError (JSValue.string "Entry ID is undefined, cannot update."), s)
  else
    let entryIdText :=
      if s.editingEntryId.typeofObject then
        (JSValue.orElse (s.editingEntryId.optProp "_id") (s.editingEntryId.optProp "id")).toStringCall
      else s.editingEntryId.toStringCall
    match entryIdText with
    | none => (handleUpdateCatch w JSError.typeError, s)
    | some entryId =>
      match axiosInstance.put backend w
          ("/journal/" ++ s.username.toStr ++ "/" ++ entryId) s.editingEntryData with
      | (w1, Except.ok _) =>
        let s1 := setEntriesWith s (mapEntries entryId s.editingEntryData)
        (w1.toastSuccess (JSValue.string "Entry updated successfully."),
          { s1 with editingEntryId := JSValue.null, editingEntryData := JSValue.object 0 [] })
      | (w1, Except.error error) => (handleUpdateCatch w1 (JSError.axios error), s)

/-- The `onClick` handler of the New Entry button. -/
def newEntry (w : World) : World :=
  w.navigate "/entry/new"

end Dashboard

/-! `pages/JournalEntryForm.jsx` -/

/-- Component state of `JournalEntryForm`. -/
structure JournalEntryFormState where
  title : JSValue
  content : JSValue
  sentiment : JSValue
  theme : String
  font : String
  layout : String
  isMenuOpen : Bool

namespace JournalEntryForm

/-- The test `if (id)` on the route parameter: `none` is `undefined`. -/
def hasId : Option String → Bool
  | some id => id != ""
  | none => false

/-- The template literal with the route parameter inside. -/
def entryUrl (id : Option String) : String :=
  "/journal/" ++ (match id with
    | some text => text
    | none => "undefined")

/-- Function `fetchEntry`, run to completion. -/
def fetchEntry (backend : Backend) (w : World) (s : JournalEntryFormState)
    (id : Option String) : World × JournalEntryFormState :=
  if hasId id then
    match axiosInstance.get backend w (entryUrl id) with
    | (w1, Except.ok response) =>
      match response.data.getProp "title", response.data.getProp "content",
          response.data.getProp "sentiment" with
      | some title, some content, some sentiment =>
        (w1, { s with title := title, content := content, sentiment := sentiment })
      | _, _, _ => (w1.toastError (JSValue.string "Failed to fetch entry."), s)
    | (w1, Except.error _) => (w1.toastError (JSValue.string "Failed to fetch entry."), s)
  else (w, s)

/-- Handler `handleSubmit`, run to completion. -/
def handleSubmit (backend : Backend) (w : World) (s : JournalEntryFormState)
    (id : Option String) : World :=
  let payload := JSValue.object 0
    [("title", s.title), ("content", s.content), ("sentiment", s.sentiment)]
  let outcome :=
    if hasId id then axiosInstance.put backend w (entryUrl id) payload
    else axiosInstance.post backend w "/journal" payload
  match outcome with
  | (w1, Except.ok _) =>
    let w2 := w1.toastSuccess (JSValue.string
      (if hasId id then "Entry updated successfully." else "Entry created successfully."))
    w2.navigate "/dashboard"
  | (w1, Except.error _) => w1.toastError (JSValue.string "Failed to save entry.")

end JournalEntryForm

/-! `encodeURIComponent` and URL paths (platform functions) -/

namespace URI

/-- The characters `encodeURIComponent` leaves as they are: ASCII letters and
digits and the marks `-`, `_`, `.`, `!`, `~`, `*`, the apostrophe, `(` and `)`. -/
def isUnreserved (c : Char) : Bool :=
  let n := c.toNat
  (0x41 ≤ n && n ≤ 0x5A) || (0x61 ≤ n && n ≤ 0x7A) || (0x30 ≤ n && n ≤ 0x39)
    || n = 0x2D || n = 0x5F || n = 0x2E || n = 0x21 || n = 0x7E || n = 0x2A || n = 0x27
    || n = 0x28 || n = 0x29

/-- Upper-case hexadecimal digit of a value below 16. -/
def hexDigit (n : Nat) : Char :=
  if n < 10 then Char.ofNat (0x30 + n) else Char.ofNat (0x41 + (n - 10))

/-- Percent-escape of one byte. -/
def escapeByte (b : Nat) : List Char :=
  ['%', hexDigit (b / 16), hexDigit (b % 16)]

/-- Escape of every byte of a sequence. -/
def escapeBytes : List Nat → List Char
  | [] => []
  | b :: rest => escapeByte b ++ escapeBytes rest

/-- The function `encodeURIComponent` over the characters of a string. -/
def encodeChars : List Char → List Char
  | [] => []
  | c :: rest =>
    (if isUnreserved c then [c] else escapeBytes (URLSearchParams.utf8EncodeChar c))
      ++ encodeChars rest

/-- The platform function `encodeURIComponent`. -/
def encodeURIComponent (s : String) : String :=
  String.mk (encodeChars s.toList)

/-- The characters of an absolute URL after its scheme and `://`, when it has them. -/
def afterScheme : List Char → Option (List Char)
  | [] => none
  | ':' :: '/' :: '/' :: rest => some rest
  | _ :: rest => afterScheme rest

/-- The characters from the first `/` on. -/
def fromSlash : List Char → List Char
  | [] => []
  | c :: rest => if c = '/' then c :: rest else fromSlash rest

/-- The characters up to the query or fragment mark. -/
def untilQuery : List Char → List Char
  | [] => []
  | c :: rest => if c = '?' ∨ c = '#' then [] else c :: untilQuery rest

/-- The path of an absolute `http` URL: what follows the authority, up to the
query; `none` when the text has no scheme. -/
def pathname (url : String) : Option String :=
  match afterScheme url.toList with
  | some rest => some (String.mk (untilQuery (fromSlash rest)))
  | none => none

end URI

/-! The OAuth initiation of `pages/Login.jsx` and `pages/Signup.jsx` -/

namespace Login

/-- The callback address literal in `initiateGoogleOAuth`. -/
def redirectUri : String := "http://localhost:5173/login/auth/google/callback"

/-- Function `initiateGoogleOAuth`; `clientId` is the value of
`import.meta.env.VITE_GOOGLE_CLIENT_ID`. -/
def initiateGoogleOAuth (w : World) (clientId : JSValue) : World :=
  w.navigate ("https://accounts.google.com/o/oauth2/v2/auth?client_id=" ++ clientId.toStr
    ++ "&redirect_uri=" ++ URI.encodeURIComponent redirectUri
    ++ "&response_type=code&scope=email%20profile&access_type=offline&prompt=consent")

end Login

namespace Signup

/-- The callback address literal in `initiateGoogleOAuth`. -/
def redirectUri : String := "http://localhost:5173/login/auth/google/callback"

/-- Function `initiateGoogleOAuth`; `clientId` is the value of
`import.meta.env.VITE_GOOGLE_CLIENT_ID`. -/
def initiateGoogleOAuth (w : World) (clientId : JSValue) : World :=
  w.navigate ("https://accounts.google.com/o/oauth2/v2/auth?client_id=" ++ clientId.toStr
    ++ "&redirect_uri=" ++ URI.encodeURIComponent redirectUri
    ++ "&response_type=code&scope=email%20profile&access_type=offline&prompt=consent")

end Signup

/-! The route table of `App.jsx` -/

/-- The page components of the application. -/
inductive Page where
  | login : Page
  | signup : Page
  | googleAuthCallback : Page
  | dashboard : Page
  | journalEntryForm : Page
deriving DecidableEq

/-- The `element` of a `Route`: a page, a page wrapped in `ProtectedRoute`, or
a `Navigate`. -/
inductive RouteElement where
  | page (p : Page) : RouteElement
  | protectedPage (p : Page) : RouteElement
  | navigateTo (path : String) (replace : Bool) : RouteElement
deriving DecidableEq

namespace App

/-- The `Routes` of `App`, in source order: path pattern and element. -/
def routes : List (String × RouteElement) :=
  [("/login", RouteElement.page Page.login),
    ("/signup", RouteElement.page Page.signup),
    ("/login/auth/google/callback", RouteElement.page Page.googleAuthCallback),
    ("/dashboard", RouteElement.protectedPage Page.dashboard),
    ("/entry/new", RouteElement.protectedPage Page.journalEntryForm),
    ("/entry/edit/:id", RouteElement.protectedPage Page.journalEntryForm),
    ("*", RouteElement.navigateTo "/login" true)]

/-- The element registered under a path pattern. -/
def routeElement (path : String) : Option RouteElement :=
  routes.lookup path

end App

/-! The request targets of the Dashboard handlers -/

namespace Dashboard

/-- The constant `entryId` of `handleDelete(id)`. -/
def deleteEntryId (id : JSValue) : JSValue :=
  if id.typeofObject && !(id.strictEq JSValue.null) then
    JSValue.orElse (id.optProp "_id") (id.optProp "id")
  else id

/-- The request `handleDelete(id)` issues once confirmed: the bulk delete when
`entryId` is `undefined`, the delete of one entry otherwise. -/
def deleteRequest (s : DashboardState) (id : JSValue) : RequestConfig :=
  if !((deleteEntryId id).strictEq JSValue.undefined) then
    ⟨"delete", "/journal/" ++ s.username.toStr ++ "/" ++ (deleteEntryId id).toStr,
      JSValue.undefined, []⟩
  else ⟨"delete", "/journal/delete-all", JSValue.undefined, []⟩

/-- The constant `entryId` of `handleUpdate`: `none` is the TypeError of
`toString()` on a nullish value. -/
def updateEntryId (s : DashboardState) : Option String :=
  if s.editingEntryId.typeofObject then
    (JSValue.orElse (s.editingEntryId.optProp "_id") (s.editingEntryId.optProp "id")).toStringCall
  else s.editingEntryId.toStringCall

end Dashboard

/-! The query of a request URL (platform function) -/

namespace URI

/-- The characters after the first `?`. -/
def afterQuestion : List Char → List Char
  | [] => []
  | c :: rest => if c = '?' then rest else afterQuestion rest

/-- The characters up to the fragment mark `#`. -/
def untilFragment : List Char → List Char
  | [] => []
  | c :: rest => if c = '#' then [] else c :: untilFragment rest

/-- The query string of a URL as the server receives it: what follows the
first `?`, without the fragment. -/
def query (url : String) : String :=
  String.mk (untilFragment (afterQuestion url.toList))

end URI

/-! The navigation bar and the themes of `App.jsx` -/

/-- The two alternatives of the navigation bar, by the `key` of their element. -/
inductive NavControls where
  | authButtons : NavControls
  | logoutButton : NavControls
deriving DecidableEq

namespace App

/-- The conditional of the navigation bar:
`!localStorage.getItem("token") ? <auth-buttons> : <logout-button>`. -/
def navControls (st : Storage) : NavControls :=
  let present :=
    match st.getItem "token" with
    | some token => token != ""
    | none => false
  if !present then NavControls.authButtons else NavControls.logoutButton

/-- The object `themeStyles` of `App`: theme key, then the class of each property. -/
def themeStyles : List (String × List (String × String)) :=
  [
  ("serene",
    [
      ("background", "bg-gradient-to-br from-blue-50 to-cyan-100"),
      ("text", "text-slate-800"),
      ("accent", "bg-cyan-200/80"),
      ("border", "border-cyan-300"),
      ("paper", "bg-white/90 backdrop-blur-sm"),
      ("button", "bg-gradient-to-r from-cyan-400 to-blue-400"),
      ("shadow", "shadow-lg shadow-cyan-200/50")]),
  ("sunrise",
    [
      ("background", "bg-gradient-to-br from-amber-100 to-orange-50"),
      ("text", "text-orange-900"),
      ("accent", "bg-amber-200/80"),
      ("border", "border-amber-300"),
      ("paper", "bg-orange-50/90 backdrop-blur-sm"),
      ("button", "bg-gradient-to-r from-amber-400 to-orange-400"),
      ("shadow", "shadow-lg shadow-amber-200/50")]),
  ("royal",
    [
      ("background", "bg-gradient-to-br from-violet-50 to-purple-100"),
      ("text", "text-purple-900"),
      ("accent", "bg-violet-200/80"),
      ("border", "border-violet-300"),
      ("paper", "bg-white/90 backdrop-blur-sm"),
      ("button", "bg-gradient-to-r from-violet-400 to-purple-400"),
      ("shadow", "shadow-lg shadow-violet-200/50")]),
  ("botanical",
    [
      ("background", "bg-gradient-to-br from-green-50 to-emerald-100"),
      ("text", "text-emerald-900"),
      ("accent", "bg-green-200/80"),
      ("border", "border-green-300"),
      ("paper", "bg-white/90 backdrop-blur-sm"),
      ("button", "bg-gradient-to-r from-green-400 to-emerald-400"),
      ("shadow", "shadow-lg shadow-green-200/50")]),
  ("midnight",
    [
      ("background", "bg-gradient-to-br from-slate-800 to-slate-900"),
      ("text", "text-slate-100"),
      ("accent", "bg-slate-600/80"),
      ("border", "border-slate-500"),
      ("paper", "bg-slate-700/90 backdrop-blur-sm"),
      ("button", "bg-gradient-to-r from-slate-500 to-slate-600"),
      ("shadow", "shadow-lg shadow-slate-800/50")])]

/-- The initial value of the `theme` state. -/
def initialTheme : String := "serene"

/-- The keys `Object.keys(themeStyles)` the `ThemeSelector` renders a button for. -/
def themeKeys : List String :=
  themeStyles.map Prod.fst

/-- The `onClick` handler of the `ThemeSelector` button at a position:
`setTheme(themeKey)`; there is no button beyond the keys. -/
def selectTheme (theme : String) (button : Nat) : String :=
  match themeKeys.get? button with
  | some themeKey => themeKey
  | none => theme

/-- The `theme` state after a sequence of clicks on `ThemeSelector` buttons. -/
def themeAfter (clicks : List Nat) : String :=
  clicks.foldl selectTheme initialTheme

/-- The lookup `themeStyles[theme]`. -/
def themeStyle (theme : String) : Option (List (String × String)) :=
  themeStyles.lookup theme

/-- The properties of `themeStyles[theme]` that `App` reads when it renders. -/
def usedProperties : List String :=
  ["background", "shadow", "paper", "border", "text", "button"]

/-- The props `App` passes to `ProtectedRoute` on a protected route:
`Component` and `theme={theme}`. -/
def protectedRouteProps (page : Page) (theme : String) : List (String × JSValue) :=
  [("Component", JSValue.string (match page with
      | Page.dashboard => "Dashboard"
      | Page.journalEntryForm => "JournalEntryForm"
      | Page.login => "Login"
      | Page.signup => "Signup"
      | Page.googleAuthCallback => "GoogleAuthCallback")),
    ("theme", JSValue.string theme)]

end App

/-- The props `ProtectedRoute` hands to the component it renders, `<Component />`:
none, whatever props it received itself. -/
def ProtectedRoute.componentProps (_props : List (String × JSValue)) :
    List (String × JSValue) :=
  []

/-! The buttons and the themes of `pages/Dashboard.jsx` -/

namespace Dashboard

/-- The `onClick` handler of the Clear All button: `handleDelete()`. -/
def clearAll (backend : Backend) (w : World) (s : DashboardState) (confirmed : Bool) :
    World × DashboardState :=
  handleDelete backend w s JSValue.undefined confirmed

/-- The `onClick` handler of the delete button of an entry:
`handleDelete(entry._id)`; on a nullish entry the property read throws. -/
def deleteButton (backend : Backend) (w : World) (s : DashboardState) (entry : JSValue)
    (confirmed : Bool) : World × DashboardState :=
  match entry.getProp "_id" with
  | some id => handleDelete backend w s id confirmed
  | none => (w, s)

/-- The object `themeStyles` of `Dashboard`: theme key, then the class of each property. -/
def themeStyles : List (String × List (String × String)) :=
  [
  ("vintage",
    [
      ("background", "bg-[#f5e6d3]"),
      ("text", "text-stone-800"),
      ("accent", "bg-amber-600/20 hover:bg-amber-600/30"),
      ("border", "border-amber-700"),
      ("binding", "bg-[#5d432c]"),
      ("paper", "bg-[#f5e6d3]"),
      ("paperTexture", "repeating-linear-gradient(to bottom, transparent 0px, transparent 23px, #e1c7a9 24px)"),
      ("button", "bg-amber-600/20 hover:bg-amber-600/30")]),
  ("modern",
    [
      ("background", "bg-white"),
      ("text", "text-stone-700"),
      ("accent", "bg-stone-200 hover:bg-stone-300"),
      ("border", "border-stone-300"),
      ("binding", "bg-stone-800"),
      ("paper", "bg-white"),
      ("paperTexture", "repeating-linear-gradient(to bottom, transparent 0px, transparent 23px, #e5e5e5 24px)"),
      ("button", "bg-stone-200 hover:bg-stone-300")]),
  ("moody",
    [
      ("background", "bg-stone-700"),
      ("text", "text-stone-100"),
      ("accent", "bg-stone-600/50 hover:bg-stone-500/50"),
      ("border", "border-stone-500"),
      ("binding", "bg-stone-900"),
      ("paper", "bg-stone-600"),
      ("paperTexture", "repeating-linear-gradient(to bottom, transparent 0px, transparent 23px, #4b5563 24px)"),
      ("button", "bg-stone-600/50 hover:bg-stone-500/50")])]

/-- The parameter `{ theme = "vintage" }` of `Dashboard`: the default applies
when the prop is missing or `undefined`. -/
def themeOf (props : List (String × JSValue)) : JSValue :=
  match JSValue.lookup "theme" props with
  | JSValue.undefined => JSValue.string "vintage"
  | theme => theme

/-- The lookup `themeStyles[theme]`; only a string is a key of the table. -/
def themeStyle (theme : JSValue) : Option (List (String × String)) :=
  match theme with
  | JSValue.string key => themeStyles.lookup key
  | _ => none

/-- The properties of `themeStyles[theme]` that `Dashboard` reads when it renders. -/
def usedProperties : List String :=
  ["background", "binding", "border", "paper", "text", "button", "paperTexture", "accent"]

end Dashboard

/-! The request of `handleSubmit` in `pages/JournalEntryForm.jsx` -/

namespace JournalEntryForm

/-- The constant `payload` of `handleSubmit`: `{ title, content, sentiment }`. -/
def payload (s : JournalEntryFormState) : JSValue :=
  JSValue.object 0 [("title", s.title), ("content", s.content), ("sentiment", s.sentiment)]

/-- The request `handleSubmit` issues: the update of the entry when the route
has an id, the creation of an entry otherwise. -/
def submitRequest (s : JournalEntryFormState) (id : Option String) : RequestConfig :=
  if hasId id then ⟨"put", entryUrl id, payload s, []⟩
  else ⟨"post", "/journal", payload s, []⟩

end JournalEntryForm

/-! Lemmas on storage and headers -/

namespace Storage

theorem getItem_removeItem_self (st : Storage) (key : String) :
    (removeItem st key).getItem key = none := by
  induction st with
  | nil => rfl
  | cons kv rest ih =>
    obtain ⟨k, v⟩ := kv
    by_cases h : k = key
    · simp [removeItem, h, ih]
    · simp [removeItem, getItem, h, ih]

theorem getItem_removeItem_of_ne (st : Storage) {key other : String} (h : other ≠ key) :
    (removeItem st key).getItem other = st.getItem other := by
  have hk : key ≠ other := fun hc => h hc.symm
  induction st with
  | nil => rfl
  | cons kv rest ih =>
    obtain ⟨k, v⟩ := kv
    by_cases hkk : k = key
    · subst hkk
      simp [removeItem, getItem, hk, ih]
    · by_cases ho : k = other
      · subst ho
        simp [removeItem, getItem, hkk]
      · simp [removeItem, getItem, hkk, ho, ih]

theorem removeItem_of_getItem_none (st : Storage) (key : String) (h : st.getItem key = none) :
    removeItem st key = st := by
  induction st with
  | nil => rfl
  | cons kv rest ih =>
    obtain ⟨k, v⟩ := kv
    by_cases hk : k = key
    · simp [getItem, hk] at h
    · simp only [getItem, hk, if_false] at h
      simp [removeItem, hk, ih h]

theorem removeItem_idem (st : Storage) (key : String) :
    removeItem (removeItem st key) key = removeItem st key :=
  removeItem_of_getItem_none _ _ (getItem_removeItem_self st key)

theorem getItem_setItem_self (st : Storage) (key value : String) :
    (setItem st key value).getItem key = some value := by
  simp [setItem, getItem]

theorem getItem_setItem_of_ne (st : Storage) (value : String) {key other : String}
    (h : other ≠ key) : (setItem st key value).getItem other = st.getItem other := by
  have hk : key ≠ other := fun hc => h hc.symm
  simp [setItem, getItem, hk, getItem_removeItem_of_ne st h]

end Storage

namespace Headers

theorem get_set_self (h : Headers) (name value : String) :
    (set h name value).get name = some value := by
  induction h with
  | nil => simp [set, get]
  | cons kv rest ih =>
    obtain ⟨k, v⟩ := kv
    by_cases hk : k = name
    · simp [set, get, hk]
    · simp [set, get, hk, ih]

theorem get_set_of_ne (h : Headers) (value : String) {name other : String} (hne : other ≠ name) :
    (set h name value).get other = h.get other := by
  have hk : name ≠ other := fun hc => hne hc.symm
  induction h with
  | nil => simp [set, get, hk]
  | cons kv rest ih =>
    obtain ⟨k, v⟩ := kv
    by_cases hkk : k = name
    · subst hkk
      simp [set, get, hk]
    · by_cases ho : k = other
      · subst ho
        simp [set, get, hkk]
      · simp [set, get, hkk, ho, ih]

end Headers

/-! The request interceptor -/

/-- C1: with a non-empty credential `t` stored under "token", the request
interceptor returns the configuration with the Authorization header set to
"Bearer " followed by `t`, whatever Authorization header it carried before;
every other header and the rest of the configuration are as they were. -/
theorem C1_requestInterceptor_attaches_bearer (st : Storage) (config : RequestConfig)
    (t : String) (hstored : st.getItem "token" = some t) (hne : t ≠ "") :
    (axiosInstance.requestInterceptor st config).headers.get "Authorization"
        = some ("Bearer " ++ t)
      ∧ (∀ name, name ≠ "Authorization" →
          (axiosInstance.requestInterceptor st config).headers.get name
            = config.headers.get name)
      ∧ (axiosInstance.requestInterceptor st config).method = config.method
      ∧ (axiosInstance.requestInterceptor st config).url = config.url
      ∧ (axiosInstance.requestInterceptor st config).data = config.data := by
  have hrun : axiosInstance.requestInterceptor st config
      = { config with headers := config.headers.set "Authorization" ("Bearer " ++ t) } := by
    simp [axiosInstance.requestInterceptor, hstored, hne]
  rw [hrun]
  refine ⟨Headers.get_set_self _ _ _, ?_, rfl, rfl, rfl⟩
  intro name hname
  exact Headers.get_set_of_ne _ _ hname

/-- Witness of C1: a stored credential "abc" replaces a stale Authorization header. -/
theorem C1_requestInterceptor_attaches_bearer_witness :
    (axiosInstance.requestInterceptor [("token", "abc")]
        ⟨"get", "/journal", JSValue.undefined, [("Authorization", "Bearer old")]⟩).headers.get
          "Authorization" = some ("Bearer " ++ "abc") :=
  (C1_requestInterceptor_attaches_bearer [("token", "abc")]
    ⟨"get", "/journal", JSValue.undefined, [("Authorization", "Bearer old")]⟩ "abc"
    (by decide) (by decide)).1

/-- C2: with no entry under "token" the request interceptor returns the
configuration as it received it, and a call through the instance puts exactly
that configuration on the wire. -/
theorem C2_requestInterceptor_without_token (st : Storage) (config : RequestConfig)
    (habsent : st.getItem "token" = none) :
    axiosInstance.requestInterceptor st config = config
      ∧ ∀ (backend : Backend) (w : World), w.storage = st →
          (axiosInstance.request backend w config).1.requests = w.requests ++ [config] := by
  have hrun : axiosInstance.requestInterceptor st config = config := by
    simp [axiosInstance.requestInterceptor, habsent]
  refine ⟨hrun, ?_⟩
  intro backend w hw
  subst hw
  unfold axiosInstance.request
  simp only [hrun]
  cases backend config with
  | ok response => rfl
  | error error =>
    simp only [axiosInstance.responseErrorHandler]
    cases error.response with
    | none => rfl
    | some response =>
      by_cases h401 : response.status = 401
      · simp [h401, World.removeItem, World.navigate]
      · simp [h401]

/-- Witness of C2: empty storage, a request with one custom header. -/
theorem C2_requestInterceptor_without_token_witness :
    axiosInstance.requestInterceptor [] ⟨"get", "/journal", JSValue.undefined, [("Accept", "x")]⟩
      = ⟨"get", "/journal", JSValue.undefined, [("Accept", "x")]⟩ :=
  (C2_requestInterceptor_without_token [] ⟨"get", "/journal", JSValue.undefined, [("Accept", "x")]⟩
    (by decide)).1

/-! The response error handler -/

/-- C3: for an error whose response has status 401, whatever the request and
whatever the storage and location before, after the response error handler has
run there is no entry under "token" and the location is "/login"; the same
holds for any call through the instance that the backend answers with such an
error. -/
theorem C3_unauthorized_clears_session (w : World) (error : AxiosError) (response : Response)
    (hresp : error.response = some response) (h401 : response.status = 401) :
    (axiosInstance.responseErrorHandler w error).1.storage.getItem "token" = none
      ∧ (axiosInstance.responseErrorHandler w error).1.location = "/login"
      ∧ ∀ (backend : Backend) (config : RequestConfig),
          backend (axiosInstance.requestInterceptor w.storage config) = Except.error error →
          (axiosInstance.request backend w config).1.storage.getItem "token" = none
            ∧ (axiosInstance.request backend w config).1.location = "/login" := by
  refine ⟨?_, ?_, ?_⟩
  · simp [axiosInstance.responseErrorHandler, hresp, h401, World.removeItem, World.navigate,
      Storage.getItem_removeItem_self]
  · simp [axiosInstance.responseErrorHandler, hresp, h401, World.removeItem, World.navigate]
  · intro backend config hback
    simp [axiosInstance.request, hback, axiosInstance.responseErrorHandler, hresp, h401,
      World.removeItem, World.navigate, Storage.getItem_removeItem_self]

/-- Witness of C3: a 401 on a session that holds a credential and sits on the dashboard. -/
theorem C3_unauthorized_clears_session_witness :
    (axiosInstance.responseErrorHandler ⟨[("token", "abc")], "/dashboard", [], []⟩
        ⟨"Request failed with status code 401", some ⟨401, JSValue.null⟩⟩).1.storage.getItem
          "token" = none
      ∧ (axiosInstance.responseErrorHandler ⟨[("token", "abc")], "/dashboard", [], []⟩
        ⟨"Request failed with status code 401", some ⟨401, JSValue.null⟩⟩).1.location
          = "/login" :=
  let h := C3_unauthorized_clears_session ⟨[("token", "abc")], "/dashboard", [], []⟩
    ⟨"Request failed with status code 401", some ⟨401, JSValue.null⟩⟩ ⟨401, JSValue.null⟩ rfl rfl
  ⟨h.1, h.2.1⟩

/-- C4: for an error with a 401 response the response error handler clears the
session and returns a rejection that carries the very error it received; its
result is never a fulfilled response. -/
theorem C4_unauthorized_rejects_with_error (w : World) (error : AxiosError)
    (response : Response) (hresp : error.response = some response)
    (h401 : response.status = 401) :
    (axiosInstance.responseErrorHandler w error).2 = Except.error error
      ∧ (∀ r : Response, (axiosInstance.responseErrorHandler w error).2 ≠ Except.ok r)
      ∧ (axiosInstance.responseErrorHandler w error).1
          = (w.removeItem "token").navigate "/login" := by
  refine ⟨rfl, ?_, ?_⟩
  · intro r hr
    simp [axiosInstance.responseErrorHandler] at hr
  · simp [axiosInstance.responseErrorHandler, hresp, h401]

/-- Witness of C4: the rejection of a 401 carries the error that came in. -/
theorem C4_unauthorized_rejects_with_error_witness :
    (axiosInstance.responseErrorHandler ⟨[("token", "abc")], "/dashboard", [], []⟩
        ⟨"Request failed with status code 401", some ⟨401, JSValue.null⟩⟩).2
      = Except.error ⟨"Request failed with status code 401", some ⟨401, JSValue.null⟩⟩ :=
  (C4_unauthorized_rejects_with_error ⟨[("token", "abc")], "/dashboard", [], []⟩
    ⟨"Request failed with status code 401", some ⟨401, JSValue.null⟩⟩ ⟨401, JSValue.null⟩
    rfl rfl).1

/-- C5: for an error that is not a 401 response (another status, or no response
at all) the response error handler rejects with the identical error and leaves
the whole browser state, stored credential and location included, as it was. -/
theorem C5_other_errors_pass_through (w : World) (error : AxiosError)
    (hother : ∀ response, error.response = some response → response.status ≠ 401) :
    axiosInstance.responseErrorHandler w error = (w, Except.error error) := by
  unfold axiosInstance.responseErrorHandler
  cases hresp : error.response with
  | none => rfl
  | some response =>
    have hne : response.status ≠ 401 := hother response hresp
    simp [hne]

/-- Witness of C5: a 500 response leaves the session alone. -/
theorem C5_other_errors_pass_through_witness :
    axiosInstance.responseErrorHandler ⟨[("token", "abc")], "/dashboard", [], []⟩
        ⟨"Request failed with status code 500", some ⟨500, JSValue.null⟩⟩
      = (⟨[("token", "abc")], "/dashboard", [], []⟩,
          Except.error ⟨"Request failed with status code 500", some ⟨500, JSValue.null⟩⟩) :=
  C5_other_errors_pass_through ⟨[("token", "abc")], "/dashboard", [], []⟩
    ⟨"Request failed with status code 500", some ⟨500, JSValue.null⟩⟩
    (by
      intro response hresp
      cases hresp
      decide)

/-! Logout -/

/-- C9: from any prior state the Logout action leaves no entry under "token"
and the location at "/login", and a second Logout changes nothing more. -/
theorem C9_logout_clears_and_is_idempotent (w : World) :
    (App.logout w).storage.getItem "token" = none
      ∧ (App.logout w).location = "/login"
      ∧ App.logout (App.logout w) = App.logout w := by
  refine ⟨?_, rfl, ?_⟩
  · simp [App.logout, World.removeItem, World.navigate, Storage.getItem_removeItem_self]
  · simp [App.logout, World.removeItem, World.navigate, Storage.removeItem_idem]

/-! The OAuth callback without a code -/

/-- C10: when the query string of the callback route has no `code` parameter,
or an empty one, the callback effect only shows the error notice
"Authorization code not found.": no request is issued, storage is untouched
and the location stays where it was. -/
theorem C10_callback_without_code (backend : Backend) (w : World) (search : String)
    (hcode : URLSearchParams.get (URLSearchParams.parse search) "code" = none
      ∨ URLSearchParams.get (URLSearchParams.parse search) "code" = some "") :
    (GoogleAuthCallback.effect backend w search).requests = w.requests
      ∧ (GoogleAuthCallback.effect backend w search).storage = w.storage
      ∧ (GoogleAuthCallback.effect backend w search).location = w.location
      ∧ (GoogleAuthCallback.effect backend w search).toasts
          = w.toasts ++ [⟨ToastKind.error, JSValue.string "Authorization code not found."⟩] := by
  have hrun : GoogleAuthCallback.effect backend w search
      = w.toastError (JSValue.string "Authorization code not found.") := by
    rcases hcode with h | h <;> simp [GoogleAuthCallback.effect, h]
  rw [hrun]
  exact ⟨rfl, rfl, rfl, rfl⟩

/-- Witness of C10: the identity provider came back with an error and no code. -/
theorem C10_callback_without_code_witness :
    (GoogleAuthCallback.effect (fun _ => Except.ok ⟨200, JSValue.null⟩)
        ⟨[], "/login/auth/google/callback", [], []⟩ "?error=access_denied").requests = []
      ∧ (GoogleAuthCallback.effect (fun _ => Except.ok ⟨200, JSValue.null⟩)
        ⟨[], "/login/auth/google/callback", [], []⟩ "?error=access_denied").toasts
          = [⟨ToastKind.error, JSValue.string "Authorization code not found."⟩] :=
  let h := C10_callback_without_code (fun _ => Except.ok ⟨200, JSValue.null⟩)
    ⟨[], "/login/auth/google/callback", [], []⟩ "?error=access_denied" (Or.inl (by decide))
  ⟨h.1, h.2.2.2⟩

/-! Calls through the instance -/

namespace axiosInstance

/-- The definition of `request` with its local names expanded. -/
theorem request_unfold (backend : Backend) (w : World) (config : RequestConfig) :
    request backend w config
      = match backend (requestInterceptor w.storage config) with
        | Except.ok response =>
          responseInterceptor
            { w with requests := w.requests ++ [requestInterceptor w.storage config] } response
        | Except.error error =>
          responseErrorHandler
            { w with requests := w.requests ++ [requestInterceptor w.storage config] } error :=
  rfl

/-- A fulfilled call has only logged the decorated request, and the backend
answered it with the response. -/
theorem request_ok {backend : Backend} {w : World} {config : RequestConfig} {response : Response}
    (h : (request backend w config).2 = Except.ok response) :
    (request backend w config).1
        = { w with requests := w.requests ++ [requestInterceptor w.storage config] }
      ∧ backend (requestInterceptor w.storage config) = Except.ok response := by
  rw [request_unfold] at h ⊢
  cases hb : backend (requestInterceptor w.storage config) with
  | ok r =>
    rw [hb] at h
    have hr : r = response := by simpa [responseInterceptor] using h
    subst hr
    exact ⟨rfl, rfl⟩
  | error e =>
    rw [hb] at h
    simp [responseErrorHandler] at h

/-- A call through the instance leaves storage alone or removes the credential. -/
theorem request_storage (backend : Backend) (w : World) (config : RequestConfig) :
    (request backend w config).1.storage = w.storage
      ∨ (request backend w config).1.storage = w.storage.removeItem "token" := by
  rw [request_unfold]
  cases backend (requestInterceptor w.storage config) with
  | ok r => exact Or.inl rfl
  | error e =>
    simp only [responseErrorHandler]
    cases e.response with
    | none => exact Or.inl rfl
    | some r =>
      by_cases h401 : r.status = 401
      · simp [h401, World.removeItem, World.navigate]
      · simp [h401]

/-- A call through the instance never creates the credential. -/
theorem request_token_absent (backend : Backend) {w : World} (config : RequestConfig)
    (h : w.storage.getItem "token" = none) :
    (request backend w config).1.storage.getItem "token" = none := by
  rcases request_storage backend w config with hs | hs
  · rw [hs]; exact h
  · rw [hs]; exact Storage.getItem_removeItem_self _ _

/-- Without a stored credential the request goes out as it was configured. -/
theorem request_eq_of_token_absent (backend : Backend) {w : World} (config : RequestConfig)
    (h : w.storage.getItem "token" = none) :
    request backend w config
      = match backend config with
        | Except.ok response =>
          responseInterceptor { w with requests := w.requests ++ [config] } response
        | Except.error error =>
          responseErrorHandler { w with requests := w.requests ++ [config] } error := by
  have hrun : requestInterceptor w.storage config = config := by
    simp [requestInterceptor, h]
  unfold request
  simp only [hrun]

end axiosInstance

/-! Login -/

/-- C8: when the login request does not fail, `handleLogin` stores a credential
exactly when the response body carries a (truthy) token: with a token it
stores the token under "token", shows the success notice and navigates to
"/dashboard" (for a string token `t` the stored value is `t` itself); without
one it leaves storage and location as they were and shows the notice "Invalid
credentials or token not generated.". -/
theorem C8_handleLogin_stores_iff_token (backend : Backend) (w : World) (s : LoginState)
    (response : Response)
    (hok : (axiosInstance.post backend w "/public/login" (Login.credentials s)).2
      = Except.ok response) :
    ((response.data.optProp "token").truthy = true →
        (Login.handleLogin backend w s).1.storage
            = w.storage.setItem "token" (response.data.optProp "token").toStr
          ∧ (Login.handleLogin backend w s).1.storage.getItem "token"
            = some (response.data.optProp "token").toStr
          ∧ (Login.handleLogin backend w s).1.location = "/dashboard"
          ∧ (Login.handleLogin backend w s).1.toasts
            = w.toasts ++ [⟨ToastKind.success, JSValue.string "Login successful!"⟩])
      ∧ (∀ t : String, response.data.optProp "token" = JSValue.string t → t ≠ "" →
          (Login.handleLogin backend w s).1.storage.getItem "token" = some t
            ∧ (Login.handleLogin backend w s).1.location = "/dashboard")
      ∧ ((response.data.optProp "token").truthy = false →
          (Login.handleLogin backend w s).1.storage = w.storage
            ∧ (Login.handleLogin backend w s).1.location = w.location
            ∧ (Login.handleLogin backend w s).1.toasts
              = w.toasts ++ [⟨ToastKind.error,
                  JSValue.string "Invalid credentials or token not generated."⟩]) := by
  unfold axiosInstance.post at hok
  obtain ⟨hw1, -⟩ := axiosInstance.request_ok hok
  have hpair : axiosInstance.post backend w "/public/login" (Login.credentials s)
      = ({ w with requests := w.requests ++ [axiosInstance.requestInterceptor w.storage
            ⟨"post", "/public/login", Login.credentials s, []⟩] }, Except.ok response) := by
    unfold axiosInstance.post
    exact Prod.ext hw1 hok
  have htruthy : (response.data.optProp "token").truthy = true →
      (Login.handleLogin backend w s).1.storage
          = w.storage.setItem "token" (response.data.optProp "token").toStr
        ∧ (Login.handleLogin backend w s).1.storage.getItem "token"
          = some (response.data.optProp "token").toStr
        ∧ (Login.handleLogin backend w s).1.location = "/dashboard"
        ∧ (Login.handleLogin backend w s).1.toasts
          = w.toasts ++ [⟨ToastKind.success, JSValue.string "Login successful!"⟩] := by
    intro ht
    simp [Login.handleLogin, hpair, ht, World.setItem, World.toastSuccess, World.navigate,
      Storage.getItem_setItem_self]
  refine ⟨htruthy, ?_, ?_⟩
  · intro t ht hne
    have htr : (response.data.optProp "token").truthy = true := by
      simp [ht, JSValue.truthy, hne]
    obtain ⟨-, hget, hloc, -⟩ := htruthy htr
    refine ⟨?_, hloc⟩
    rw [hget, ht]
    rfl
  · intro hf
    simp [Login.handleLogin, hpair, hf, World.toastError]

/-- Witness of C8: the backend answers the login with the token "jwt". -/
theorem C8_handleLogin_stores_iff_token_witness :
    (Login.handleLogin
        (fun _ => Except.ok ⟨200, JSValue.object 1 [("token", JSValue.string "jwt")]⟩)
        ⟨[], "/login", [], []⟩ ⟨"ann", "pw", false, true⟩).1.storage.getItem "token"
        = some "jwt"
      ∧ (Login.handleLogin
        (fun _ => Except.ok ⟨200, JSValue.object 1 [("token", JSValue.string "jwt")]⟩)
        ⟨[], "/login", [], []⟩ ⟨"ann", "pw", false, true⟩).1.location = "/dashboard" :=
  (C8_handleLogin_stores_iff_token
    (fun _ => Except.ok ⟨200, JSValue.object 1 [("token", JSValue.string "jwt")]⟩)
    ⟨[], "/login", [], []⟩ ⟨"ann", "pw", false, true⟩
    ⟨200, JSValue.object 1 [("token", JSValue.string "jwt")]⟩ rfl).2.1 "jwt" rfl (by decide)

/-! Signup -/

/-- C7, at the failing input: the sign-up request succeeds and the login that
follows is answered 200 with a body that has no `token` field. `handleSignup`
then stores the text "undefined" under "token" and navigates to "/dashboard",
where `handleLogin` on the same login response stores nothing. -/
theorem C7_handleSignup_stores_undefined :
    (Signup.handleSignup (fun _ => Except.ok ⟨200, JSValue.object 1 []⟩)
        ⟨[], "/signup", [], []⟩ ⟨"ann@example.org", "ann", "pw", false, true⟩).1.storage.getItem
          "token" = some "undefined"
      ∧ (Signup.handleSignup (fun _ => Except.ok ⟨200, JSValue.object 1 []⟩)
        ⟨[], "/signup", [], []⟩ ⟨"ann@example.org", "ann", "pw", false, true⟩).1.location
          = "/dashboard"
      ∧ (Login.handleLogin (fun _ => Except.ok ⟨200, JSValue.object 1 []⟩)
        ⟨[], "/login", [], []⟩ ⟨"ann", "pw", false, true⟩).1.storage.getItem "token" = none := by
  refine ⟨?_, ?_, ?_⟩ <;> rfl

/-! The credential is created only by login, signup and the OAuth exchange -/

namespace axiosInstance

theorem responseErrorHandler_token_absent {w : World} (error : AxiosError)
    (h : w.storage.getItem "token" = none) :
    (responseErrorHandler w error).1.storage.getItem "token" = none := by
  simp only [responseErrorHandler]
  cases error.response with
  | none => exact h
  | some r =>
    by_cases h401 : r.status = 401
    · simp [h401, World.removeItem, World.navigate, Storage.getItem_removeItem_self]
    · simp [h401, h]

theorem token_absent_of_get {backend : Backend} {w w1 : World} {url : String}
    {r : Except AxiosError Response} (h : w.storage.getItem "token" = none)
    (heq : get backend w url = (w1, r)) : w1.storage.getItem "token" = none := by
  have habs := request_token_absent backend ⟨"get", url, JSValue.undefined, []⟩ h
  unfold get at heq
  rw [heq] at habs
  exact habs

theorem token_absent_of_delete {backend : Backend} {w w1 : World} {url : String}
    {r : Except AxiosError Response} (h : w.storage.getItem "token" = none)
    (heq : delete backend w url = (w1, r)) : w1.storage.getItem "token" = none := by
  have habs := request_token_absent backend ⟨"delete", url, JSValue.undefined, []⟩ h
  unfold delete at heq
  rw [heq] at habs
  exact habs

theorem token_absent_of_post {backend : Backend} {w w1 : World} {url : String} {data : JSValue}
    {r : Except AxiosError Response} (h : w.storage.getItem "token" = none)
    (heq : post backend w url data = (w1, r)) : w1.storage.getItem "token" = none := by
  have habs := request_token_absent backend ⟨"post", url, data, []⟩ h
  unfold post at heq
  rw [heq] at habs
  exact habs

theorem token_absent_of_put {backend : Backend} {w w1 : World} {url : String} {data : JSValue}
    {r : Except AxiosError Response} (h : w.storage.getItem "token" = none)
    (heq : put backend w url data = (w1, r)) : w1.storage.getItem "token" = none := by
  have habs := request_token_absent backend ⟨"put", url, data, []⟩ h
  unfold put at heq
  rw [heq] at habs
  exact habs

/-- With no credential stored, a fulfilled `post` was answered by the backend
on the undecorated request. -/
theorem backend_ok_of_post {backend : Backend} {w w1 : World} {url : String} {data : JSValue}
    {response : Response} (h : w.storage.getItem "token" = none)
    (heq : post backend w url data = (w1, Except.ok response)) :
    backend ⟨"post", url, data, []⟩ = Except.ok response
      ∧ w1 = { w with requests := w.requests ++ [⟨"post", url, data, []⟩] } := by
  unfold post at heq
  have hsnd : (request backend w ⟨"post", url, data, []⟩).2 = Except.ok response := by
    rw [heq]
  obtain ⟨hw1, hb⟩ := request_ok hsnd
  have hrun : requestInterceptor w.storage ⟨"post", url, data, []⟩ = ⟨"post", url, data, []⟩ := by
    simp [requestInterceptor, h]
  rw [hrun] at hb hw1
  rw [heq] at hw1
  exact ⟨hb, hw1⟩

/-- With no credential stored, a fulfilled `get` was answered by the backend on
the undecorated request. -/
theorem backend_ok_of_get {backend : Backend} {w w1 : World} {url : String}
    {response : Response} (h : w.storage.getItem "token" = none)
    (heq : get backend w url = (w1, Except.ok response)) :
    backend ⟨"get", url, JSValue.undefined, []⟩ = Except.ok response := by
  unfold get at heq
  have hsnd : (request backend w ⟨"get", url, JSValue.undefined, []⟩).2 = Except.ok response := by
    rw [heq]
  obtain ⟨-, hb⟩ := request_ok hsnd
  have hrun : requestInterceptor w.storage ⟨"get", url, JSValue.undefined, []⟩
      = ⟨"get", url, JSValue.undefined, []⟩ := by
    simp [requestInterceptor, h]
  rw [hrun] at hb
  exact hb

end axiosInstance

theorem Login.handleLogin_token_absent (backend : Backend) {w : World} (s : LoginState)
    (h : w.storage.getItem "token" = none)
    (hfail : ∀ r, backend ⟨"post", "/public/login", Login.credentials s, []⟩ = Except.ok r →
      (r.data.optProp "token").truthy = false) :
    (Login.handleLogin backend w s).1.storage.getItem "token" = none := by
  unfold Login.handleLogin
  split
  next w1 response heq =>
    have hb := (axiosInstance.backend_ok_of_post h heq).1
    have h1 := axiosInstance.token_absent_of_post h heq
    simp [hfail response hb, World.toastError, h1]
  next w1 error heq =>
    have h1 := axiosInstance.token_absent_of_post h heq
    simp [World.toastError, h1]

theorem Signup.handleSignup_token_absent (backend : Backend) {w : World} (s : SignupState)
    (h : w.storage.getItem "token" = none)
    (hfail : (∃ e, backend ⟨"post", "/public/sign-up", Signup.account s, []⟩ = Except.error e)
      ∨ (∃ e, backend ⟨"post", "/public/login", Signup.credentials s, []⟩ = Except.error e)
      ∨ (∃ r, backend ⟨"post", "/public/login", Signup.credentials s, []⟩ = Except.ok r
          ∧ r.data.isNullish = true)) :
    (Signup.handleSignup backend w s).1.storage.getItem "token" = none := by
  unfold Signup.handleSignup
  split
  next w1 response heq =>
    have hb := (axiosInstance.backend_ok_of_post h heq).1
    have h1 := axiosInstance.token_absent_of_post h heq
    have h2 : (w1.toastSuccess (JSValue.string "Signup successful!")).storage.getItem "token"
        = none := h1
    dsimp only
    split
    next w3 loginResponse heq2 =>
      have hb2 := (axiosInstance.backend_ok_of_post h2 heq2).1
      have h3 := axiosInstance.token_absent_of_post h2 heq2
      rcases hfail with ⟨e, he⟩ | ⟨e, he⟩ | ⟨r, hr, hnull⟩
      · rw [he] at hb; cases hb
      · rw [he] at hb2; cases hb2
      · rw [hr] at hb2
        have hnull2 : loginResponse.data.isNullish = true := Except.ok.inj hb2 ▸ hnull
        have hprop : loginResponse.data.getProp "token" = none := by
          cases hd : loginResponse.data <;>
            simp [hd, JSValue.isNullish, JSValue.getProp] at hnull2 ⊢
        simp [hprop, Signup.handleSignupCatch, World.toastError, h3]
    next w3 error heq2 =>
      have h3 := axiosInstance.token_absent_of_post h2 heq2
      simp [Signup.handleSignupCatch, World.toastError, h3]
  next w1 error heq =>
    have h1 := axiosInstance.token_absent_of_post h heq
    simp [Signup.handleSignupCatch, World.toastError, h1]

theorem GoogleAuthCallback.effect_token_absent (backend : Backend) {w : World} (search : String)
    (h : w.storage.getItem "token" = none)
    (hfail : ∀ code r, URLSearchParams.get (URLSearchParams.parse search) "code" = some code →
      code ≠ "" →
      backend ⟨"get", "/auth/google/callback?code=" ++ code, JSValue.undefined, []⟩
        = Except.ok r →
      (r.data.optProp "token").truthy = false) :
    (GoogleAuthCallback.effect backend w search).storage.getItem "token" = none := by
  unfold GoogleAuthCallback.effect
  dsimp only
  split
  next code hcode =>
    split
    next hne =>
      split
      next w1 response heq =>
        have hb := axiosInstance.backend_ok_of_get h heq
        have h1 := axiosInstance.token_absent_of_get h heq
        simp [hfail code response hcode hne hb, World.toastSuccess, World.navigate, h1]
      next w1 error heq =>
        have h1 := axiosInstance.token_absent_of_get h heq
        simp [World.toastError, h1]
    next => simpa [World.toastError] using h
  next => simpa [World.toastError] using h

theorem ProtectedRoute_storage {α : Type} (w : World) (Component : α) :
    (ProtectedRoute w Component).1.storage = w.storage := by
  unfold ProtectedRoute
  dsimp only
  split <;> rfl

namespace Dashboard

theorem fetchUserDetails_token_absent (backend : Backend) {w : World} (s : DashboardState)
    (h : w.storage.getItem "token" = none) :
    (fetchUserDetails backend w s).1.storage.getItem "token" = none := by
  unfold fetchUserDetails
  split
  next w1 response heq =>
    have h1 := axiosInstance.token_absent_of_get h heq
    split <;> simpa [World.toastError] using h1
  next w1 error heq =>
    have h1 := axiosInstance.token_absent_of_get h heq
    simpa [World.toastError] using h1

theorem fetchEntries_token_absent (backend : Backend) {w : World} (s : DashboardState)
    (h : w.storage.getItem "token" = none) :
    (fetchEntries backend w s).1.storage.getItem "token" = none := by
  unfold fetchEntries
  split
  next w1 response heq => exact axiosInstance.token_absent_of_get h heq
  next w1 error heq =>
    have h1 := axiosInstance.token_absent_of_get h heq
    simpa [World.toastError] using h1

theorem handleDelete_token_absent (backend : Backend) {w : World} (s : DashboardState)
    (id : JSValue) (confirmed : Bool) (h : w.storage.getItem "token" = none) :
    (handleDelete backend w s id confirmed).1.storage.getItem "token" = none := by
  unfold handleDelete
  dsimp only
  split_ifs <;> first
    | exact h
    | (split <;> rename_i w1 _ heq <;>
        simpa [World.toastSuccess, handleDeleteCatch, World.toastError]
          using axiosInstance.token_absent_of_delete h heq)

theorem handleUpdate_token_absent (backend : Backend) {w : World} (s : DashboardState)
    (h : w.storage.getItem "token" = none) :
    (handleUpdate backend w s).1.storage.getItem "token" = none := by
  unfold handleUpdate
  split
  · simpa [World.toastError] using h
  · dsimp only
    split
    next => simpa [handleUpdateCatch, World.toastError] using h
    next entryId hid =>
      split
      next w1 response heq =>
        have h1 := axiosInstance.token_absent_of_put h heq
        simpa [World.toastSuccess] using h1
      next w1 error heq =>
        have h1 := axiosInstance.token_absent_of_put h heq
        simpa [handleUpdateCatch, World.toastError] using h1

end Dashboard

namespace JournalEntryForm

theorem fetchEntry_token_absent (backend : Backend) {w : World} (s : JournalEntryFormState)
    (id : Option String) (h : w.storage.getItem "token" = none) :
    (fetchEntry backend w s id).1.storage.getItem "token" = none := by
  unfold fetchEntry
  split
  · split
    next w1 response heq =>
      have h1 := axiosInstance.token_absent_of_get h heq
      split <;> simpa [World.toastError] using h1
    next w1 error heq =>
      have h1 := axiosInstance.token_absent_of_get h heq
      simpa [World.toastError] using h1
  · exact h

theorem handleSubmit_token_absent (backend : Backend) {w : World} (s : JournalEntryFormState)
    (id : Option String) (h : w.storage.getItem "token" = none) :
    (handleSubmit backend w s id).storage.getItem "token" = none := by
  unfold handleSubmit
  dsimp only
  split
  next w1 response heq =>
    have h1 : w1.storage.getItem "token" = none := by
      split at heq
      · exact axiosInstance.token_absent_of_put h heq
      · exact axiosInstance.token_absent_of_post h heq
    simpa [World.toastSuccess, World.navigate] using h1
  next w1 error heq =>
    have h1 : w1.storage.getItem "token" = none := by
      split at heq
      · exact axiosInstance.token_absent_of_put h heq
      · exact axiosInstance.token_absent_of_post h heq
    simpa [World.toastError] using h1

end JournalEntryForm

/-- From a storage state with no entry under "token", none of the
following creates one: a call through the instance (request interceptor, then
the response handlers on success or on any error), each interceptor handler on
its own, Logout, ProtectedRoute, a login that is rejected or answered without a
token, a signup whose sign-up request or login request is rejected or whose
login response has no body to read a token from, an OAuth callback without a code or whose exchange is rejected or answered without a
token, and the Dashboard and JournalEntryForm handlers that act on the browser
(`fetchUserDetails`, `fetchEntries`, `handleDelete`, `handleUpdate`, New Entry,
`fetchEntry`, `handleSubmit`). The remaining Dashboard handlers (`startEditing`,
`handleCancelEdit`, the edit fields) act on component state only. -/
theorem credential_absent_preserved (w : World)
    (habsent : w.storage.getItem "token" = none) :
    (∀ (backend : Backend) (config : RequestConfig),
        (axiosInstance.request backend w config).1.storage.getItem "token" = none)
      ∧ (∀ response : Response,
          (axiosInstance.responseInterceptor w response).1.storage.getItem "token" = none)
      ∧ (∀ error : AxiosError,
          (axiosInstance.responseErrorHandler w error).1.storage.getItem "token" = none)
      ∧ (∀ error : AxiosError,
          (axiosInstance.requestErrorHandler w error).1.storage.getItem "token" = none)
      ∧ (App.logout w).storage.getItem "token" = none
      ∧ (∀ (α : Type) (Component : α),
          (ProtectedRoute w Component).1.storage.getItem "token" = none)
      ∧ (∀ (backend : Backend) (s : LoginState),
          (∀ r, backend ⟨"post", "/public/login", Login.credentials s, []⟩ = Except.ok r →
            (r.data.optProp "token").truthy = false) →
          (Login.handleLogin backend w s).1.storage.getItem "token" = none)
      ∧ (∀ (backend : Backend) (s : SignupState),
          ((∃ e, backend ⟨"post", "/public/sign-up", Signup.account s, []⟩ = Except.error e)
            ∨ (∃ e, backend ⟨"post", "/public/login", Signup.credentials s, []⟩
                = Except.error e)
            ∨ (∃ r, backend ⟨"post", "/public/login", Signup.credentials s, []⟩ = Except.ok r
                ∧ r.data.isNullish = true)) →
          (Signup.handleSignup backend w s).1.storage.getItem "token" = none)
      ∧ (∀ (backend : Backend) (search : String),
          (∀ code r, URLSearchParams.get (URLSearchParams.parse search) "code" = some code →
            code ≠ "" →
            backend ⟨"get", "/auth/google/callback?code=" ++ code, JSValue.undefined, []⟩
              = Except.ok r →
            (r.data.optProp "token").truthy = false) →
          (GoogleAuthCallback.effect backend w search).storage.getItem "token" = none)
      ∧ (∀ (backend : Backend) (s : DashboardState),
          (Dashboard.fetchUserDetails backend w s).1.storage.getItem "token" = none
            ∧ (Dashboard.fetchEntries backend w s).1.storage.getItem "token" = none
            ∧ (∀ (id : JSValue) (confirmed : Bool),
                (Dashboard.handleDelete backend w s id confirmed).1.storage.getItem "token"
                  = none)
            ∧ (Dashboard.handleUpdate backend w s).1.storage.getItem "token" = none)
      ∧ (Dashboard.newEntry w).storage.getItem "token" = none
      ∧ (∀ (backend : Backend) (s : JournalEntryFormState) (id : Option String),
          (JournalEntryForm.fetchEntry backend w s id).1.storage.getItem "token" = none
            ∧ (JournalEntryForm.handleSubmit backend w s id).storage.getItem "token" = none) := by
  refine ⟨?_, ?_, ?_, ?_, ?_, ?_, ?_, ?_, ?_, ?_, ?_, ?_⟩
  · intro backend config
    exact axiosInstance.request_token_absent backend config habsent
  · intro response
    exact habsent
  · intro error
    exact axiosInstance.responseErrorHandler_token_absent error habsent
  · intro error
    exact habsent
  · exact Storage.getItem_removeItem_self _ _
  · intro α Component
    rw [ProtectedRoute_storage]
    exact habsent
  · intro backend s hfail
    exact Login.handleLogin_token_absent backend s habsent hfail
  · intro backend s hfail
    exact Signup.handleSignup_token_absent backend s habsent hfail
  · intro backend search hfail
    exact GoogleAuthCallback.effect_token_absent backend search habsent hfail
  · intro backend s
    exact ⟨Dashboard.fetchUserDetails_token_absent backend s habsent,
      Dashboard.fetchEntries_token_absent backend s habsent,
      fun id confirmed => Dashboard.handleDelete_token_absent backend s id confirmed habsent,
      Dashboard.handleUpdate_token_absent backend s habsent⟩
  · exact habsent
  · intro backend s id
    exact ⟨JournalEntryForm.fetchEntry_token_absent backend s id habsent,
      JournalEntryForm.handleSubmit_token_absent backend s id habsent⟩

/-- C6, at the failing input: the storage has no entry under "token", the
sign-up request succeeds and the login that follows is answered 200 with a
body that carries no token, so no token was issued and the signup has not
logged the user in. `handleSignup` nevertheless leaves an entry under "token":
the text "undefined" for a body without a `token` field, the text "null" for
a body whose `token` is `null`. Given the same answer, `handleLogin` and the
OAuth callback leave the entry absent. -/
theorem C6_signup_without_token_creates_credential :
    (⟨[("theme", "dark")], "/signup", [], []⟩ : World).storage.getItem "token" = none
      ∧ ((JSValue.object 1 []).optProp "token").truthy = false
      ∧ (Signup.handleSignup (fun _ => Except.ok ⟨200, JSValue.object 1 []⟩)
          ⟨[("theme", "dark")], "/signup", [], []⟩
          ⟨"ann@example.org", "ann", "pw", false, true⟩).1.storage.getItem "token"
        = some "undefined"
      ∧ ((JSValue.object 1 [("token", JSValue.null)]).optProp "token").truthy = false
      ∧ (Signup.handleSignup
          (fun _ => Except.ok ⟨200, JSValue.object 1 [("token", JSValue.null)]⟩)
          ⟨[("theme", "dark")], "/signup", [], []⟩
          ⟨"ann@example.org", "ann", "pw", false, true⟩).1.storage.getItem "token"
        = some "null"
      ∧ (Login.handleLogin (fun _ => Except.ok ⟨200, JSValue.object 1 []⟩)
          ⟨[("theme", "dark")], "/login", [], []⟩
          ⟨"ann", "pw", false, true⟩).1.storage.getItem "token" = none
      ∧ (GoogleAuthCallback.effect (fun _ => Except.ok ⟨200, JSValue.object 1 []⟩)
          ⟨[("theme", "dark")], "/auth/google/callback", [], []⟩
          "?code=abc").storage.getItem "token" = none := by
  refine ⟨?_, ?_, ?_, ?_, ?_, ?_, ?_⟩ <;> decide

/-! The OAuth exchange -/

namespace axiosInstance

/-- A call the backend answers with a response. -/
theorem request_of_ok {backend : Backend} {w : World} {config : RequestConfig}
    {response : Response}
    (h : backend (requestInterceptor w.storage config) = Except.ok response) :
    request backend w config
      = ({ w with requests := w.requests ++ [requestInterceptor w.storage config] },
          Except.ok response) := by
  rw [request_unfold, h]
  rfl

/-- A call the backend answers with an error. -/
theorem request_of_error {backend : Backend} {w : World} {config : RequestConfig}
    {error : AxiosError}
    (h : backend (requestInterceptor w.storage config) = Except.error error) :
    request backend w config
      = responseErrorHandler
          { w with requests := w.requests ++ [requestInterceptor w.storage config] } error := by
  rw [request_unfold, h]

/-- The response error handler leaves the world alone or tears the session down. -/
theorem responseErrorHandler_fst (w : World) (error : AxiosError) :
    (responseErrorHandler w error).1 = w
      ∨ (responseErrorHandler w error).1 = (w.removeItem "token").navigate "/login" := by
  simp only [responseErrorHandler]
  cases error.response with
  | none => exact Or.inl rfl
  | some r =>
    by_cases h401 : r.status = 401
    · simp [h401]
    · simp [h401]

theorem responseErrorHandler_snd (w : World) (error : AxiosError) :
    (responseErrorHandler w error).2 = Except.error error :=
  rfl

theorem responseErrorHandler_toasts (w : World) (error : AxiosError) :
    (responseErrorHandler w error).1.toasts = w.toasts := by
  rcases responseErrorHandler_fst w error with h | h
  · rw [h]
  · rw [h]
    rfl

theorem responseErrorHandler_requests (w : World) (error : AxiosError) :
    (responseErrorHandler w error).1.requests = w.requests := by
  rcases responseErrorHandler_fst w error with h | h
  · rw [h]
  · rw [h]
    rfl

theorem responseErrorHandler_storage (w : World) (error : AxiosError) :
    (responseErrorHandler w error).1.storage = w.storage
      ∨ (responseErrorHandler w error).1.storage = w.storage.removeItem "token" := by
  rcases responseErrorHandler_fst w error with h | h <;> rw [h]
  · exact Or.inl rfl
  · exact Or.inr rfl

theorem responseErrorHandler_location (w : World) (error : AxiosError) :
    (responseErrorHandler w error).1.location = w.location
      ∨ (responseErrorHandler w error).1.location = "/login" := by
  rcases responseErrorHandler_fst w error with h | h <;> rw [h]
  · exact Or.inl rfl
  · exact Or.inr rfl

theorem responseErrorHandler_eq (w : World) (error : AxiosError) :
    responseErrorHandler w error = ((responseErrorHandler w error).1, Except.error error) :=
  rfl

end axiosInstance

namespace GoogleAuthCallback

/-- The effect when the exchange is answered with a response. -/
theorem effect_of_ok {backend : Backend} {w : World} {search code : String}
    {response : Response}
    (hcode : URLSearchParams.get (URLSearchParams.parse search) "code" = some code)
    (hne : code ≠ "")
    (hb : backend (axiosInstance.requestInterceptor w.storage
      ⟨"get", "/auth/google/callback?code=" ++ code, JSValue.undefined, []⟩)
        = Except.ok response) :
    effect backend w search
      = (if (response.data.optProp "token").truthy then
            (World.toastSuccess
                { w with requests := w.requests ++ [axiosInstance.requestInterceptor w.storage
                    ⟨"get", "/auth/google/callback?code=" ++ code, JSValue.undefined, []⟩] }
                (JSValue.string "Google login successful!")).setItem "token"
              (response.data.optProp "token")
          else
            World.toastSuccess
              { w with requests := w.requests ++ [axiosInstance.requestInterceptor w.storage
                  ⟨"get", "/auth/google/callback?code=" ++ code, JSValue.undefined, []⟩] }
              (JSValue.string "Google login successful!")).navigate "/dashboard" := by
  simp only [effect, hcode, axiosInstance.get, axiosInstance.request_of_ok hb]
  simp [hne]

/-- The effect when the exchange is answered with an error. -/
theorem effect_of_error {backend : Backend} {w : World} {search code : String}
    {error : AxiosError}
    (hcode : URLSearchParams.get (URLSearchParams.parse search) "code" = some code)
    (hne : code ≠ "")
    (hb : backend (axiosInstance.requestInterceptor w.storage
      ⟨"get", "/auth/google/callback?code=" ++ code, JSValue.undefined, []⟩)
        = Except.error error) :
    effect backend w search
      = World.toastError
          (axiosInstance.responseErrorHandler
            { w with requests := w.requests ++ [axiosInstance.requestInterceptor w.storage
                ⟨"get", "/auth/google/callback?code=" ++ code, JSValue.undefined, []⟩] }
            error).1
          (JSValue.orElse (JSError.axios error).responseMessage
            (JSValue.string "Google login failed.")) := by
  simp only [effect, hcode, axiosInstance.get, axiosInstance.request_of_error hb]
  rw [axiosInstance.responseErrorHandler_eq]
  simp [hne]

end GoogleAuthCallback

/-- C11: with a non-empty `code` in the query string, one run of the callback
effect puts exactly one request on the wire, the exchange request
"/auth/google/callback?code=" followed by the code, whatever the backend
answers. When the backend answers with a response, the location afterwards is
"/dashboard"; a (truthy) token in the body is stored under "token" (a string
token `t` as `t` itself), and without one storage is unchanged. -/
theorem C11_callback_exchanges_code_once (backend : Backend) (w : World) (search code : String)
    (hcode : URLSearchParams.get (URLSearchParams.parse search) "code" = some code)
    (hne : code ≠ "") :
    (GoogleAuthCallback.effect backend w search).requests
        = w.requests ++ [axiosInstance.requestInterceptor w.storage
            ⟨"get", "/auth/google/callback?code=" ++ code, JSValue.undefined, []⟩]
      ∧ ∀ response : Response,
          backend (axiosInstance.requestInterceptor w.storage
            ⟨"get", "/auth/google/callback?code=" ++ code, JSValue.undefined, []⟩)
              = Except.ok response →
          (GoogleAuthCallback.effect backend w search).location = "/dashboard"
            ∧ ((response.data.optProp "token").truthy = true →
                (GoogleAuthCallback.effect backend w search).storage
                  = w.storage.setItem "token" (response.data.optProp "token").toStr)
            ∧ (∀ t : String, response.data.optProp "token" = JSValue.string t → t ≠ "" →
                (GoogleAuthCallback.effect backend w search).storage.getItem "token" = some t)
            ∧ ((response.data.optProp "token").truthy = false →
                (GoogleAuthCallback.effect backend w search).storage = w.storage) := by
  constructor
  · cases hb : backend (axiosInstance.requestInterceptor w.storage
        ⟨"get", "/auth/google/callback?code=" ++ code, JSValue.undefined, []⟩) with
    | ok response =>
      rw [GoogleAuthCallback.effect_of_ok hcode hne hb]
      split <;> rfl
    | error error =>
      rw [GoogleAuthCallback.effect_of_error hcode hne hb]
      simp only [World.toastError]
      exact axiosInstance.responseErrorHandler_requests _ _
  · intro response hb
    rw [GoogleAuthCallback.effect_of_ok hcode hne hb]
    have htruthy : (response.data.optProp "token").truthy = true →
        World.storage ((if (response.data.optProp "token").truthy then
            (World.toastSuccess
                { w with requests := w.requests ++ [axiosInstance.requestInterceptor w.storage
                    ⟨"get", "/auth/google/callback?code=" ++ code, JSValue.undefined, []⟩] }
                (JSValue.string "Google login successful!")).setItem "token"
              (response.data.optProp "token")
          else
            World.toastSuccess
              { w with requests := w.requests ++ [axiosInstance.requestInterceptor w.storage
                  ⟨"get", "/auth/google/callback?code=" ++ code, JSValue.undefined, []⟩] }
              (JSValue.string "Google login successful!")).navigate "/dashboard")
          = w.storage.setItem "token" (response.data.optProp "token").toStr := by
      intro ht
      simp [ht, World.setItem, World.toastSuccess, World.navigate]
    refine ⟨rfl, htruthy, ?_, ?_⟩
    · intro t ht hnet
      have htr : (response.data.optProp "token").truthy = true := by
        simp [ht, JSValue.truthy, hnet]
      rw [htruthy htr, Storage.getItem_setItem_self, ht]
      rfl
    · intro hf
      simp [hf, World.toastSuccess, World.navigate]

/-- Witness of C11: the callback arrives with the code "abc" and the backend
answers the exchange with the token "jwt". -/
theorem C11_callback_exchanges_code_once_witness :
    (GoogleAuthCallback.effect
        (fun _ => Except.ok ⟨200, JSValue.object 1 [("token", JSValue.string "jwt")]⟩)
        ⟨[], "/login/auth/google/callback", [], []⟩ "?code=abc").requests
      = [⟨"get", "/auth/google/callback?code=abc", JSValue.undefined, []⟩]
      ∧ (GoogleAuthCallback.effect
        (fun _ => Except.ok ⟨200, JSValue.object 1 [("token", JSValue.string "jwt")]⟩)
        ⟨[], "/login/auth/google/callback", [], []⟩ "?code=abc").storage.getItem "token"
          = some "jwt" :=
  let h := C11_callback_exchanges_code_once
    (fun _ => Except.ok ⟨200, JSValue.object 1 [("token", JSValue.string "jwt")]⟩)
    ⟨[], "/login/auth/google/callback", [], []⟩ "?code=abc" "abc" (by decide) (by decide)
  ⟨h.1, (h.2 ⟨200, JSValue.object 1 [("token", JSValue.string "jwt")]⟩ rfl).2.2.1 "jwt" rfl
    (by decide)⟩

/-- A removal never makes a key readable that was not. -/
theorem Storage.getItem_of_getItem_removeItem {st : Storage} {key other value : String}
    (h : (Storage.removeItem st key).getItem other = some value) :
    st.getItem other = some value := by
  by_cases hk : other = key
  · subst hk
    rw [Storage.getItem_removeItem_self] at h
    cases h
  · rwa [Storage.getItem_removeItem_of_ne st hk] at h

theorem JSError.responseMessage_of_response {error : AxiosError} {response : Response}
    (h : error.response = some response) :
    (JSError.axios error).responseMessage = response.data.optProp "message" := by
  simp [JSError.responseMessage, h]

theorem JSError.responseMessage_of_no_response {error : AxiosError}
    (h : error.response = none) :
    (JSError.axios error).responseMessage = JSValue.undefined := by
  simp [JSError.responseMessage, h]

/-- The notice `message || fallback` when the error carries no truthy message. -/
theorem JSError.orElse_fallback {error : AxiosError} (fallback : JSValue)
    (h : ∀ response, error.response = some response →
      (response.data.optProp "message").truthy = false) :
    JSValue.orElse (JSError.axios error).responseMessage fallback = fallback := by
  cases hr : error.response with
  | none => simp [JSError.responseMessage_of_no_response hr, JSValue.orElse, JSValue.truthy]
  | some response =>
    simp [JSError.responseMessage_of_response hr, JSValue.orElse, h response hr]

/-- The notice `message || fallback` when the error carries a truthy message. -/
theorem JSError.orElse_message {error : AxiosError} {response : Response} (fallback : JSValue)
    (hr : error.response = some response)
    (h : (response.data.optProp "message").truthy = true) :
    JSValue.orElse (JSError.axios error).responseMessage fallback
      = response.data.optProp "message" := by
  simp [JSError.responseMessage_of_response hr, JSValue.orElse, h]

/-- C12: when the exchange request is answered with an error, the callback
effect shows exactly one more notice, an error notice: the message of the
error response body when it carries a (truthy) one, "Google login failed."
when it carries none or there is no response. No credential is written
(storage is unchanged, or has lost "token" on a 401), and the location is what
it was or "/login", so the client is not sent to "/dashboard". -/
theorem C12_failed_exchange_is_surfaced (backend : Backend) (w : World) (search code : String)
    (error : AxiosError)
    (hcode : URLSearchParams.get (URLSearchParams.parse search) "code" = some code)
    (hne : code ≠ "")
    (hfail : backend (axiosInstance.requestInterceptor w.storage
      ⟨"get", "/auth/google/callback?code=" ++ code, JSValue.undefined, []⟩)
        = Except.error error) :
    (∀ response : Response, error.response = some response →
        (response.data.optProp "message").truthy = true →
        (GoogleAuthCallback.effect backend w search).toasts
          = w.toasts ++ [⟨ToastKind.error, response.data.optProp "message"⟩])
      ∧ ((∀ response : Response, error.response = some response →
            (response.data.optProp "message").truthy = false) →
          (GoogleAuthCallback.effect backend w search).toasts
            = w.toasts ++ [⟨ToastKind.error, JSValue.string "Google login failed."⟩])
      ∧ ((GoogleAuthCallback.effect backend w search).storage = w.storage
          ∨ (GoogleAuthCallback.effect backend w search).storage
            = w.storage.removeItem "token")
      ∧ (∀ key value : String,
          (GoogleAuthCallback.effect backend w search).storage.getItem key = some value →
          w.storage.getItem key = some value)
      ∧ ((GoogleAuthCallback.effect backend w search).location = w.location
          ∨ (GoogleAuthCallback.effect backend w search).location = "/login")
      ∧ (w.location ≠ "/dashboard" →
          (GoogleAuthCallback.effect backend w search).location ≠ "/dashboard") := by
  rw [GoogleAuthCallback.effect_of_error hcode hne hfail]
  have htoasts : ∀ m : JSValue, (World.toastError
      (axiosInstance.responseErrorHandler
        { w with requests := w.requests ++ [axiosInstance.requestInterceptor w.storage
            ⟨"get", "/auth/google/callback?code=" ++ code, JSValue.undefined, []⟩] }
        error).1 m).toasts = w.toasts ++ [⟨ToastKind.error, m⟩] := by
    intro m
    simp only [World.toastError]
    rw [axiosInstance.responseErrorHandler_toasts]
  have hstorage := axiosInstance.responseErrorHandler_storage
    { w with requests := w.requests ++ [axiosInstance.requestInterceptor w.storage
        ⟨"get", "/auth/google/callback?code=" ++ code, JSValue.undefined, []⟩] } error
  have hlocation := axiosInstance.responseErrorHandler_location
    { w with requests := w.requests ++ [axiosInstance.requestInterceptor w.storage
        ⟨"get", "/auth/google/callback?code=" ++ code, JSValue.undefined, []⟩] } error
  refine ⟨?_, ?_, hstorage, ?_, hlocation, ?_⟩
  · intro response hr hm
    rw [htoasts, JSError.orElse_message _ hr hm]
  · intro hnone
    rw [htoasts, JSError.orElse_fallback _ hnone]
  · intro key value hget
    rcases hstorage with hs | hs
    · simp only [World.toastError] at hget
      rw [hs] at hget
      exact hget
    · simp only [World.toastError] at hget
      rw [hs] at hget
      exact Storage.getItem_of_getItem_removeItem hget
  · intro hloc hdash
    rcases hlocation with hl | hl
    · simp only [World.toastError] at hdash
      rw [hl] at hdash
      exact hloc hdash
    · simp only [World.toastError] at hdash
      rw [hl] at hdash
      exact absurd hdash (by decide)

/-- Witness of C12: the backend rejects a stale code with status 400 and the
message "Code already used". -/
theorem C12_failed_exchange_is_surfaced_witness :
    (GoogleAuthCallback.effect
        (fun _ => Except.error ⟨"Request failed with status code 400",
          some ⟨400, JSValue.object 1 [("message", JSValue.string "Code already used")]⟩⟩)
        ⟨[], "/login/auth/google/callback", [], []⟩ "?code=stale").toasts
      = [] ++ [⟨ToastKind.error, JSValue.string "Code already used"⟩] :=
  (C12_failed_exchange_is_surfaced
    (fun _ => Except.error ⟨"Request failed with status code 400",
      some ⟨400, JSValue.object 1 [("message", JSValue.string "Code already used")]⟩⟩)
    ⟨[], "/login/auth/google/callback", [], []⟩ "?code=stale" "stale"
    ⟨"Request failed with status code 400",
      some ⟨400, JSValue.object 1 [("message", JSValue.string "Code already used")]⟩⟩
    (by decide) (by decide) rfl).1
    ⟨400, JSValue.object 1 [("message", JSValue.string "Code already used")]⟩ rfl rfl

/-! ProtectedRoute -/

/-- C13: `ProtectedRoute` renders the protected component exactly when a
credential, a non-empty string, is stored under "token" (an empty string
counts as none); then the browser state is untouched. Otherwise it returns
the `Navigate` to "/login" (with `replace`) and shows the notice "Please log
in to access this page.". It never issues a request nor touches storage or
location, and its result is the same in any two states that store the same
value under "token". In `App` the dashboard and both entry routes are wrapped
in it. -/
theorem C13_protectedRoute_decides_on_credential {α : Type} (w : World) (Component : α) :
    ((ProtectedRoute w Component).2 = Rendered.component Component
        ↔ ∃ t, w.storage.getItem "token" = some t ∧ t ≠ "")
      ∧ ((∃ t, w.storage.getItem "token" = some t ∧ t ≠ "") →
          ProtectedRoute w Component = (w, Rendered.component Component))
      ∧ ((¬ ∃ t, w.storage.getItem "token" = some t ∧ t ≠ "") →
          ProtectedRoute w Component
            = (w.toastError (JSValue.string "Please log in to access this page."),
                Rendered.navigateTo "/login" true))
      ∧ (ProtectedRoute w Component).1.requests = w.requests
      ∧ (ProtectedRoute w Component).1.storage = w.storage
      ∧ (ProtectedRoute w Component).1.location = w.location
      ∧ (∀ w2 : World, w2.storage.getItem "token" = w.storage.getItem "token" →
          (ProtectedRoute w2 Component).2 = (ProtectedRoute w Component).2)
      ∧ App.routeElement "/dashboard" = some (RouteElement.protectedPage Page.dashboard)
      ∧ App.routeElement "/entry/new" = some (RouteElement.protectedPage Page.journalEntryForm)
      ∧ App.routeElement "/entry/edit/:id"
          = some (RouteElement.protectedPage Page.journalEntryForm) := by
  have hyes : (∃ t, w.storage.getItem "token" = some t ∧ t ≠ "") →
      ProtectedRoute w Component = (w, Rendered.component Component) := by
    rintro ⟨t, ht, hne⟩
    simp [ProtectedRoute, ht, hne]
  have hno : (¬ ∃ t, w.storage.getItem "token" = some t ∧ t ≠ "") →
      ProtectedRoute w Component
        = (w.toastError (JSValue.string "Please log in to access this page."),
            Rendered.navigateTo "/login" true) := by
    intro h
    cases ht : w.storage.getItem "token" with
    | none => simp [ProtectedRoute, ht]
    | some t =>
      have hempty : t = "" := by
        by_contra hne
        exact h ⟨t, ht, hne⟩
      simp [ProtectedRoute, ht, hempty]
  have hdep : ∀ w2 : World, w2.storage.getItem "token" = w.storage.getItem "token" →
      (ProtectedRoute w2 Component).2 = (ProtectedRoute w Component).2 := by
    intro w2 h2
    unfold ProtectedRoute
    rw [h2]
    dsimp only
    split <;> rfl
  refine ⟨⟨?_, fun h => by rw [hyes h]⟩, hyes, hno, ?_, ?_, ?_, hdep, by decide, by decide,
    by decide⟩
  · intro hr
    by_contra h
    rw [hno h] at hr
    cases hr
  · by_cases h : ∃ t, w.storage.getItem "token" = some t ∧ t ≠ ""
    · rw [hyes h]
    · rw [hno h]
      rfl
  · exact ProtectedRoute_storage w Component
  · by_cases h : ∃ t, w.storage.getItem "token" = some t ∧ t ≠ ""
    · rw [hyes h]
    · rw [hno h]
      rfl

/-! Convergence of unauthorized handling -/

namespace axiosInstance

/-- On a 401 the response error handler tears the session down and rejects. -/
theorem responseErrorHandler_unauthorized (w : World) {error : AxiosError} {response : Response}
    (hresp : error.response = some response) (h401 : response.status = 401) :
    responseErrorHandler w error
      = ((w.removeItem "token").navigate "/login", Except.error error) := by
  simp [responseErrorHandler, hresp, h401]

end axiosInstance

/-- C14: for any state and any two errors with a 401 response, handling one
after the other, in either order, gives the same browser state as handling
one of them once: no entry under "token" and location "/login". -/
theorem C14_unauthorized_handling_converges (w : World) (e1 e2 : AxiosError)
    (r1 r2 : Response) (h1 : e1.response = some r1) (s1 : r1.status = 401)
    (h2 : e2.response = some r2) (s2 : r2.status = 401) :
    (axiosInstance.responseErrorHandler (axiosInstance.responseErrorHandler w e1).1 e2).1
        = (axiosInstance.responseErrorHandler w e1).1
      ∧ (axiosInstance.responseErrorHandler (axiosInstance.responseErrorHandler w e2).1 e1).1
        = (axiosInstance.responseErrorHandler w e1).1
      ∧ (axiosInstance.responseErrorHandler w e2).1 = (axiosInstance.responseErrorHandler w e1).1
      ∧ (axiosInstance.responseErrorHandler w e1).1.storage.getItem "token" = none
      ∧ (axiosInstance.responseErrorHandler w e1).1.location = "/login" := by
  simp only [axiosInstance.responseErrorHandler_unauthorized _ h1 s1,
    axiosInstance.responseErrorHandler_unauthorized _ h2 s2]
  refine ⟨?_, ?_, trivial, Storage.getItem_removeItem_self _ _, rfl⟩
  · simp [World.removeItem, World.navigate, Storage.removeItem_idem]
  · simp [World.removeItem, World.navigate, Storage.removeItem_idem]

/-- Witness of C14: two requests of a logged-in Dashboard both come back 401. -/
theorem C14_unauthorized_handling_converges_witness :
    (axiosInstance.responseErrorHandler
        (axiosInstance.responseErrorHandler ⟨[("token", "abc")], "/dashboard", [], []⟩
          ⟨"Request failed with status code 401", some ⟨401, JSValue.null⟩⟩).1
        ⟨"Request failed with status code 401",
          some ⟨401, JSValue.object 1 [("message", JSValue.string "expired")]⟩⟩).1
      = (axiosInstance.responseErrorHandler ⟨[("token", "abc")], "/dashboard", [], []⟩
          ⟨"Request failed with status code 401", some ⟨401, JSValue.null⟩⟩).1 :=
  (C14_unauthorized_handling_converges ⟨[("token", "abc")], "/dashboard", [], []⟩
    ⟨"Request failed with status code 401", some ⟨401, JSValue.null⟩⟩
    ⟨"Request failed with status code 401",
      some ⟨401, JSValue.object 1 [("message", JSValue.string "expired")]⟩⟩
    ⟨401, JSValue.null⟩ ⟨401, JSValue.object 1 [("message", JSValue.string "expired")]⟩
    rfl rfl rfl rfl).1

/-! Failure notices of login and signup -/

/-- The two cases of a notice `message || fallback` appended to a toast list. -/
theorem JSError.notice_cases {error : AxiosError} {fallback : JSValue} {toasts base : List Toast}
    (h : toasts
      = base ++ [⟨ToastKind.error, JSValue.orElse (JSError.axios error).responseMessage fallback⟩]) :
    (∀ response : Response, error.response = some response →
        (response.data.optProp "message").truthy = true →
        toasts = base ++ [⟨ToastKind.error, response.data.optProp "message"⟩])
      ∧ ((∀ response : Response, error.response = some response →
            (response.data.optProp "message").truthy = false) →
          toasts = base ++ [⟨ToastKind.error, fallback⟩]) := by
  constructor
  · intro response hr hm
    rw [h, JSError.orElse_message _ hr hm]
  · intro hnone
    rw [h, JSError.orElse_fallback _ hnone]

/-- The run of `handleLogin` when the login request is answered with an error. -/
theorem Login.handleLogin_of_error {backend : Backend} {w : World} {s : LoginState}
    {error : AxiosError}
    (hb : backend (axiosInstance.requestInterceptor w.storage
      ⟨"post", "/public/login", Login.credentials s, []⟩) = Except.error error) :
    Login.handleLogin backend w s
      = (World.toastError
          (axiosInstance.responseErrorHandler
            { w with requests := w.requests ++ [axiosInstance.requestInterceptor w.storage
                ⟨"post", "/public/login", Login.credentials s, []⟩] } error).1
          (JSValue.orElse (JSError.axios error).responseMessage (JSValue.string "Login failed.")),
        { s with isLoading := false }) := by
  simp only [Login.handleLogin, axiosInstance.post, axiosInstance.request_of_error hb]
  rw [axiosInstance.responseErrorHandler_eq]

/-- The run of `handleSignup` when the sign-up request is answered with an error. -/
theorem Signup.handleSignup_of_signup_error {backend : Backend} {w : World} {s : SignupState}
    {error : AxiosError}
    (hb : backend (axiosInstance.requestInterceptor w.storage
      ⟨"post", "/public/sign-up", Signup.account s, []⟩) = Except.error error) :
    Signup.handleSignup backend w s
      = (World.toastError
          (axiosInstance.responseErrorHandler
            { w with requests := w.requests ++ [axiosInstance.requestInterceptor w.storage
                ⟨"post", "/public/sign-up", Signup.account s, []⟩] } error).1
          (JSValue.orElse (JSError.axios error).responseMessage (JSValue.string "Signup failed.")),
        { s with isLoading := false }) := by
  simp only [Signup.handleSignup, axiosInstance.post, axiosInstance.request_of_error hb]
  rw [axiosInstance.responseErrorHandler_eq]
  rfl

/-- The run of `handleSignup` when the sign-up request is answered with a
response and the login request with an error. -/
theorem Signup.handleSignup_of_login_error {backend : Backend} {w : World} {s : SignupState}
    {signupResponse : Response} {error : AxiosError}
    (hb1 : backend (axiosInstance.requestInterceptor w.storage
      ⟨"post", "/public/sign-up", Signup.account s, []⟩) = Except.ok signupResponse)
    (hb2 : backend (axiosInstance.requestInterceptor w.storage
      ⟨"post", "/public/login", Signup.credentials s, []⟩) = Except.error error) :
    Signup.handleSignup backend w s
      = (World.toastError
          (axiosInstance.responseErrorHandler
            { w with
              toasts := w.toasts ++ [⟨ToastKind.success, JSValue.string "Signup successful!"⟩]
              requests := w.requests
                ++ [axiosInstance.requestInterceptor w.storage
                    ⟨"post", "/public/sign-up", Signup.account s, []⟩]
                ++ [axiosInstance.requestInterceptor w.storage
                    ⟨"post", "/public/login", Signup.credentials s, []⟩] } error).1
          (JSValue.orElse (JSError.axios error).responseMessage (JSValue.string "Signup failed.")),
        { s with isLoading := false }) := by
  have hb2' : backend (axiosInstance.requestInterceptor
      (World.toastSuccess
        { w with requests := w.requests ++ [axiosInstance.requestInterceptor w.storage
            ⟨"post", "/public/sign-up", Signup.account s, []⟩] }
        (JSValue.string "Signup successful!")).storage
      ⟨"post", "/public/login", Signup.credentials s, []⟩) = Except.error error := hb2
  simp only [Signup.handleSignup, axiosInstance.post, axiosInstance.request_of_ok hb1,
    axiosInstance.request_of_error hb2']
  rw [axiosInstance.responseErrorHandler_eq]
  rfl

/-- C15: when the login request of `handleLogin` is answered with an error,
the one notice shown is an error notice: the message of the error response body
when it carries a (truthy) one, "Login failed." when it carries none or there
is no response. The same holds for `handleSignup` with "Signup failed.",
both when its sign-up request fails and when its login request fails (then
after the notice "Signup successful!"). -/
theorem C15_login_signup_failure_notice (backend : Backend) (w : World) :
    (∀ (s : LoginState) (error : AxiosError),
        backend (axiosInstance.requestInterceptor w.storage
          ⟨"post", "/public/login", Login.credentials s, []⟩) = Except.error error →
        (∀ response : Response, error.response = some response →
            (response.data.optProp "message").truthy = true →
            (Login.handleLogin backend w s).1.toasts
              = w.toasts ++ [⟨ToastKind.error, response.data.optProp "message"⟩])
          ∧ ((∀ response : Response, error.response = some response →
                (response.data.optProp "message").truthy = false) →
              (Login.handleLogin backend w s).1.toasts
                = w.toasts ++ [⟨ToastKind.error, JSValue.string "Login failed."⟩]))
      ∧ (∀ (s : SignupState) (error : AxiosError),
          backend (axiosInstance.requestInterceptor w.storage
            ⟨"post", "/public/sign-up", Signup.account s, []⟩) = Except.error error →
          (∀ response : Response, error.response = some response →
              (response.data.optProp "message").truthy = true →
              (Signup.handleSignup backend w s).1.toasts
                = w.toasts ++ [⟨ToastKind.error, response.data.optProp "message"⟩])
            ∧ ((∀ response : Response, error.response = some response →
                  (response.data.optProp "message").truthy = false) →
                (Signup.handleSignup backend w s).1.toasts
                  = w.toasts ++ [⟨ToastKind.error, JSValue.string "Signup failed."⟩]))
      ∧ (∀ (s : SignupState) (signupResponse : Response) (error : AxiosError),
          backend (axiosInstance.requestInterceptor w.storage
            ⟨"post", "/public/sign-up", Signup.account s, []⟩) = Except.ok signupResponse →
          backend (axiosInstance.requestInterceptor w.storage
            ⟨"post", "/public/login", Signup.credentials s, []⟩) = Except.error error →
          (∀ response : Response, error.response = some response →
              (response.data.optProp "message").truthy = true →
              (Signup.handleSignup backend w s).1.toasts
                = (w.toasts ++ [⟨ToastKind.success, JSValue.string "Signup successful!"⟩])
                  ++ [⟨ToastKind.error, response.data.optProp "message"⟩])
            ∧ ((∀ response : Response, error.response = some response →
                  (response.data.optProp "message").truthy = false) →
                (Signup.handleSignup backend w s).1.toasts
                  = (w.toasts ++ [⟨ToastKind.success, JSValue.string "Signup successful!"⟩])
                    ++ [⟨ToastKind.error, JSValue.string "Signup failed."⟩])) := by
  refine ⟨?_, ?_, ?_⟩
  · intro s error hb
    apply JSError.notice_cases
    rw [Login.handleLogin_of_error hb]
    simp only [World.toastError]
    rw [axiosInstance.responseErrorHandler_toasts]
  · intro s error hb
    apply JSError.notice_cases
    rw [Signup.handleSignup_of_signup_error hb]
    simp only [World.toastError]
    rw [axiosInstance.responseErrorHandler_toasts]
  · intro s signupResponse error hb1 hb2
    apply JSError.notice_cases
    rw [Signup.handleSignup_of_login_error hb1 hb2]
    simp only [World.toastError]
    rw [axiosInstance.responseErrorHandler_toasts]

/-- Witness of C15: a login rejected with the message "Bad credentials", and a
signup that fails on the network. -/
theorem C15_login_signup_failure_notice_witness :
    (Login.handleLogin
        (fun _ => Except.error ⟨"Request failed with status code 403",
          some ⟨403, JSValue.object 1 [("message", JSValue.string "Bad credentials")]⟩⟩)
        ⟨[], "/login", [], []⟩ ⟨"ann", "wrong", false, true⟩).1.toasts
      = [] ++ [⟨ToastKind.error, JSValue.string "Bad credentials"⟩]
    ∧ (Signup.handleSignup (fun _ => Except.error ⟨"Network Error", none⟩)
        ⟨[], "/signup", [], []⟩ ⟨"ann@example.org", "ann", "pw", false, true⟩).1.toasts
      = [] ++ [⟨ToastKind.error, JSValue.string "Signup failed."⟩] :=
  ⟨((C15_login_signup_failure_notice
      (fun _ => Except.error ⟨"Request failed with status code 403",
        some ⟨403, JSValue.object 1 [("message", JSValue.string "Bad credentials")]⟩⟩)
      ⟨[], "/login", [], []⟩).1 ⟨"ann", "wrong", false, true⟩ _ rfl).1
      ⟨403, JSValue.object 1 [("message", JSValue.string "Bad credentials")]⟩ rfl rfl,
    ((C15_login_signup_failure_notice (fun _ => Except.error ⟨"Network Error", none⟩)
      ⟨[], "/signup", [], []⟩).2.1 ⟨"ann@example.org", "ann", "pw", false, true⟩ _ rfl).2
      (by intro response hr; cases hr)⟩

/-! Failures of the Dashboard requests -/

namespace Dashboard

/-- A declined confirmation: `handleDelete` does nothing. -/
theorem handleDelete_of_declined (backend : Backend) (w : World) (s : DashboardState)
    (id : JSValue) : handleDelete backend w s id false = (w, s) := by
  simp [handleDelete]

/-- The run of a confirmed `handleDelete` whose request is answered with an error. -/
theorem handleDelete_of_error {backend : Backend} {w : World} {s : DashboardState}
    {id : JSValue} {error : AxiosError}
    (hb : backend (axiosInstance.requestInterceptor w.storage (deleteRequest s id))
      = Except.error error) :
    handleDelete backend w s id true
      = (handleDeleteCatch
          (axiosInstance.responseErrorHandler
            { w with requests := w.requests
                ++ [axiosInstance.requestInterceptor w.storage (deleteRequest s id)] } error).1
          (JSError.axios error), s) := by
  have key : ∀ entryId : JSValue,
      backend (axiosInstance.requestInterceptor w.storage
          (if !(entryId.strictEq JSValue.undefined) then
            ⟨"delete", "/journal/" ++ s.username.toStr ++ "/" ++ entryId.toStr,
              JSValue.undefined, []⟩
          else ⟨"delete", "/journal/delete-all", JSValue.undefined, []⟩))
        = Except.error error →
      (if !(entryId.strictEq JSValue.undefined) then
          if true = true then
            match axiosInstance.delete backend w
                ("/journal/" ++ s.username.toStr ++ "/" ++ entryId.toStr) with
            | (w1, Except.ok _) =>
              (w1.toastSuccess (JSValue.string "Entry deleted successfully."),
                setEntriesWith s (filterEntries entryId))
            | (w1, Except.error error) => (handleDeleteCatch w1 (JSError.axios error), s)
          else (w, s)
        else
          if true = true then
            match axiosInstance.delete backend w "/journal/delete-all" with
            | (w1, Except.ok _) =>
              (w1.toastSuccess (JSValue.string "All entries deleted successfully."),
                { s with entries := JSValue.array 0 [] })
            | (w1, Except.error error) => (handleDeleteCatch w1 (JSError.axios error), s)
          else (w, s))
        = (handleDeleteCatch
            (axiosInstance.responseErrorHandler
              { w with requests := w.requests
                  ++ [axiosInstance.requestInterceptor w.storage
                    (if !(entryId.strictEq JSValue.undefined) then
                      ⟨"delete", "/journal/" ++ s.username.toStr ++ "/" ++ entryId.toStr,
                        JSValue.undefined, []⟩
                    else ⟨"delete", "/journal/delete-all", JSValue.undefined, []⟩)] } error).1
            (JSError.axios error), s) := by
    intro entryId hbe
    by_cases hsingle : (!(entryId.strictEq JSValue.undefined)) = true
    · rw [if_pos hsingle] at hbe
      simp only [if_pos hsingle, if_true, axiosInstance.delete,
        axiosInstance.request_of_error hbe]
      rw [axiosInstance.responseErrorHandler_eq]
    · rw [if_neg hsingle] at hbe
      simp only [if_neg hsingle, if_true, axiosInstance.delete,
        axiosInstance.request_of_error hbe]
      rw [axiosInstance.responseErrorHandler_eq]
  exact key (deleteEntryId id) hb

/-- The run of `handleUpdate` whose request is answered with an error. -/
theorem handleUpdate_of_error {backend : Backend} {w : World} {s : DashboardState}
    {entryId : String} {error : AxiosError}
    (hediting : s.editingEntryId.truthy = true) (hid : updateEntryId s = some entryId)
    (hb : backend (axiosInstance.requestInterceptor w.storage
      ⟨"put", "/journal/" ++ s.username.toStr ++ "/" ++ entryId, s.editingEntryData, []⟩)
        = Except.error error) :
    handleUpdate backend w s
      = (handleUpdateCatch
          (axiosInstance.responseErrorHandler
            { w with requests := w.requests ++ [axiosInstance.requestInterceptor w.storage
                ⟨"put", "/journal/" ++ s.username.toStr ++ "/" ++ entryId,
                  s.editingEntryData, []⟩] } error).1
          (JSError.axios error), s) := by
  unfold updateEntryId at hid
  unfold handleUpdate
  simp only [hediting, Bool.not_true, Bool.false_eq_true, if_false, hid, axiosInstance.put,
    axiosInstance.request_of_error hb]
  rw [axiosInstance.responseErrorHandler_eq]

/-- The notice of the `catch` clause of `handleDelete`. -/
theorem handleDeleteCatch_toasts (w : World) (error : AxiosError) :
    (handleDeleteCatch (axiosInstance.responseErrorHandler w error).1
        (JSError.axios error)).toasts
      = w.toasts ++ [⟨ToastKind.error, JSValue.string ("Error: "
          ++ (JSValue.orElse (JSError.axios error).responseMessage
              (JSValue.string "Failed to delete entries.")).toStr)⟩] := by
  simp only [handleDeleteCatch, World.toastError]
  rw [axiosInstance.responseErrorHandler_toasts]

/-- The notice of the `catch` clause of `handleUpdate`. -/
theorem handleUpdateCatch_toasts (w : World) (error : AxiosError) :
    (handleUpdateCatch (axiosInstance.responseErrorHandler w error).1
        (JSError.axios error)).toasts
      = w.toasts ++ [⟨ToastKind.error, JSValue.string ("Error: "
          ++ (JSValue.orElse (JSError.axios error).responseMessage
              (JSValue.string "Failed to update entry.")).toStr)⟩] := by
  simp only [handleUpdateCatch, World.toastError]
  rw [axiosInstance.responseErrorHandler_toasts]

end Dashboard

/-- The two cases of a Dashboard notice, the text "Error: " followed by
`message || fallback`. -/
theorem JSError.labelled_notice_cases {error : AxiosError} {fallback : String}
    {toasts base : List Toast}
    (h : toasts = base ++ [⟨ToastKind.error, JSValue.string ("Error: "
      ++ (JSValue.orElse (JSError.axios error).responseMessage
          (JSValue.string fallback)).toStr)⟩]) :
    (∀ (response : Response) (m : String), error.response = some response →
        response.data.optProp "message" = JSValue.string m → m ≠ "" →
        toasts = base ++ [⟨ToastKind.error, JSValue.string ("Error: " ++ m)⟩])
      ∧ ((∀ response : Response, error.response = some response →
            (response.data.optProp "message").truthy = false) →
          toasts = base ++ [⟨ToastKind.error, JSValue.string ("Error: " ++ fallback)⟩]) := by
  constructor
  · intro response m hr hm hne
    have htr : (response.data.optProp "message").truthy = true := by
      simp [hm, JSValue.truthy, hne]
    rw [h, JSError.orElse_message _ hr htr, hm]
    rfl
  · intro hnone
    rw [h, JSError.orElse_fallback _ hnone]
    rfl

/-- C16, as the claim states it, fails: a delete rejected with the message
"Entry not found" is shown as "Error: Entry not found", not as the message
alone. -/
theorem C16_dashboard_notice_not_verbatim :
    (Dashboard.handleDelete
        (fun _ => Except.error ⟨"Request failed with status code 404",
          some ⟨404, JSValue.object 1 [("message", JSValue.string "Entry not found")]⟩⟩)
        ⟨[("token", "abc")], "/dashboard", [], []⟩
        ⟨JSValue.array 2 [], JSValue.string "ann", JSValue.null, JSValue.object 0 [], false⟩
        (JSValue.string "e1") true).1.toasts
      = [⟨ToastKind.error, JSValue.string "Error: Entry not found"⟩]
    ∧ (Dashboard.handleDelete
        (fun _ => Except.error ⟨"Request failed with status code 404",
          some ⟨404, JSValue.object 1 [("message", JSValue.string "Entry not found")]⟩⟩)
        ⟨[("token", "abc")], "/dashboard", [], []⟩
        ⟨JSValue.array 2 [], JSValue.string "ann", JSValue.null, JSValue.object 0 [], false⟩
        (JSValue.string "e1") true).1.toasts
      ≠ [⟨ToastKind.error, JSValue.string "Entry not found"⟩] := by
  have hrun : (Dashboard.handleDelete
        (fun _ => Except.error ⟨"Request failed with status code 404",
          some ⟨404, JSValue.object 1 [("message", JSValue.string "Entry not found")]⟩⟩)
        ⟨[("token", "abc")], "/dashboard", [], []⟩
        ⟨JSValue.array 2 [], JSValue.string "ann", JSValue.null, JSValue.object 0 [], false⟩
        (JSValue.string "e1") true).1.toasts
      = [⟨ToastKind.error, JSValue.string "Error: Entry not found"⟩] := rfl
  refine ⟨hrun, ?_⟩
  rw [hrun]
  intro h
  injection h with h1 _
  injection h1 with _ h2
  injection h2 with h3
  exact absurd h3 (by decide)

/-- C16, amended: when a confirmed delete of `handleDelete` or the update
request of `handleUpdate` is answered with an error, the one notice shown is an
error notice whose text is "Error: " followed by the message of the error
response body when it carries one, and "Error: " followed by the fallback
("Failed to delete entries.", "Failed to update entry.") when it carries none
or there is no response. -/
theorem C16_dashboard_failure_notice_labelled (backend : Backend) (w : World)
    (s : DashboardState) :
    (∀ (id : JSValue) (error : AxiosError),
        backend (axiosInstance.requestInterceptor w.storage (Dashboard.deleteRequest s id))
          = Except.error error →
        (∀ (response : Response) (m : String), error.response = some response →
            response.data.optProp "message" = JSValue.string m → m ≠ "" →
            (Dashboard.handleDelete backend w s id true).1.toasts
              = w.toasts ++ [⟨ToastKind.error, JSValue.string ("Error: " ++ m)⟩])
          ∧ ((∀ response : Response, error.response = some response →
                (response.data.optProp "message").truthy = false) →
              (Dashboard.handleDelete backend w s id true).1.toasts
                = w.toasts ++ [⟨ToastKind.error,
                    JSValue.string ("Error: " ++ "Failed to delete entries.")⟩]))
      ∧ (∀ (entryId : String) (error : AxiosError),
          s.editingEntryId.truthy = true → Dashboard.updateEntryId s = some entryId →
          backend (axiosInstance.requestInterceptor w.storage
            ⟨"put", "/journal/" ++ s.username.toStr ++ "/" ++ entryId, s.editingEntryData, []⟩)
              = Except.error error →
          (∀ (response : Response) (m : String), error.response = some response →
              response.data.optProp "message" = JSValue.string m → m ≠ "" →
              (Dashboard.handleUpdate backend w s).1.toasts
                = w.toasts ++ [⟨ToastKind.error, JSValue.string ("Error: " ++ m)⟩])
            ∧ ((∀ response : Response, error.response = some response →
                  (response.data.optProp "message").truthy = false) →
                (Dashboard.handleUpdate backend w s).1.toasts
                  = w.toasts ++ [⟨ToastKind.error,
                      JSValue.string ("Error: " ++ "Failed to update entry.")⟩])) := by
  constructor
  · intro id error hb
    apply JSError.labelled_notice_cases
    rw [Dashboard.handleDelete_of_error hb]
    simp only [Dashboard.handleDeleteCatch, World.toastError]
    rw [axiosInstance.responseErrorHandler_toasts]
  · intro entryId error hediting hid hb
    apply JSError.labelled_notice_cases
    rw [Dashboard.handleUpdate_of_error hediting hid hb]
    simp only [Dashboard.handleUpdateCatch, World.toastError]
    rw [axiosInstance.responseErrorHandler_toasts]

/-- Witness of C16 (amended): an update rejected with the message "Title is required". -/
theorem C16_dashboard_failure_notice_labelled_witness :
    (Dashboard.handleUpdate
        (fun _ => Except.error ⟨"Request failed with status code 400",
          some ⟨400, JSValue.object 1 [("message", JSValue.string "Title is required")]⟩⟩)
        ⟨[("token", "abc")], "/dashboard", [], []⟩
        ⟨JSValue.array 2 [], JSValue.string "ann", JSValue.string "e1",
          JSValue.object 0 [("title", JSValue.string "")], false⟩).1.toasts
      = [] ++ [⟨ToastKind.error, JSValue.string ("Error: " ++ "Title is required")⟩] :=
  ((C16_dashboard_failure_notice_labelled
      (fun _ => Except.error ⟨"Request failed with status code 400",
        some ⟨400, JSValue.object 1 [("message", JSValue.string "Title is required")]⟩⟩)
      ⟨[("token", "abc")], "/dashboard", [], []⟩
      ⟨JSValue.array 2 [], JSValue.string "ann", JSValue.string "e1",
        JSValue.object 0 [("title", JSValue.string "")], false⟩).2 "e1" _ rfl rfl rfl).1
    ⟨400, JSValue.object 1 [("message", JSValue.string "Title is required")]⟩
    "Title is required" rfl rfl (by decide)

/-- C17: when the request of a confirmed `handleDelete` (the delete of one
entry, or the bulk delete of a call without id) is answered with an error, the
Dashboard state (entries, editing entry id, editing data) is what it was and
one error notice is shown; the same for the request of `handleUpdate`. When the
user declines the confirmation, `handleDelete` changes neither the Dashboard
state nor the browser state: no request is issued, and nothing is shown. -/
theorem C17_dashboard_state_kept_on_failure (backend : Backend) (w : World)
    (s : DashboardState) :
    (∀ (id : JSValue) (error : AxiosError),
        backend (axiosInstance.requestInterceptor w.storage (Dashboard.deleteRequest s id))
          = Except.error error →
        (Dashboard.handleDelete backend w s id true).2 = s
          ∧ (Dashboard.handleDelete backend w s id true).1.toasts
            = w.toasts ++ [⟨ToastKind.error, JSValue.string ("Error: "
                ++ (JSValue.orElse (JSError.axios error).responseMessage
                    (JSValue.string "Failed to delete entries.")).toStr)⟩])
      ∧ Dashboard.deleteRequest s JSValue.undefined
          = ⟨"delete", "/journal/delete-all", JSValue.undefined, []⟩
      ∧ (∀ id : JSValue, Dashboard.handleDelete backend w s id false = (w, s))
      ∧ (∀ (entryId : String) (error : AxiosError),
          s.editingEntryId.truthy = true → Dashboard.updateEntryId s = some entryId →
          backend (axiosInstance.requestInterceptor w.storage
            ⟨"put", "/journal/" ++ s.username.toStr ++ "/" ++ entryId, s.editingEntryData, []⟩)
              = Except.error error →
          (Dashboard.handleUpdate backend w s).2 = s
            ∧ (Dashboard.handleUpdate backend w s).1.toasts
              = w.toasts ++ [⟨ToastKind.error, JSValue.string ("Error: "
                  ++ (JSValue.orElse (JSError.axios error).responseMessage
                      (JSValue.string "Failed to update entry.")).toStr)⟩]) := by
  refine ⟨?_, rfl, ?_, ?_⟩
  · intro id error hb
    rw [Dashboard.handleDelete_of_error hb]
    exact ⟨rfl, Dashboard.handleDeleteCatch_toasts _ _⟩
  · intro id
    exact Dashboard.handleDelete_of_declined backend w s id
  · intro entryId error hediting hid hb
    rw [Dashboard.handleUpdate_of_error hediting hid hb]
    exact ⟨rfl, Dashboard.handleUpdateCatch_toasts _ _⟩

/-- Witness of C17: a bulk delete that fails on the network leaves two entries
in place. -/
theorem C17_dashboard_state_kept_on_failure_witness :
    (Dashboard.handleDelete (fun _ => Except.error ⟨"Network Error", none⟩)
        ⟨[("token", "abc")], "/dashboard", [], []⟩
        ⟨JSValue.array 2 [JSValue.object 3 [("_id", JSValue.string "e1")],
            JSValue.object 4 [("_id", JSValue.string "e2")]],
          JSValue.string "ann", JSValue.null, JSValue.object 0 [], false⟩
        JSValue.undefined true).2
      = ⟨JSValue.array 2 [JSValue.object 3 [("_id", JSValue.string "e1")],
            JSValue.object 4 [("_id", JSValue.string "e2")]],
          JSValue.string "ann", JSValue.null, JSValue.object 0 [], false⟩ :=
  ((C17_dashboard_state_kept_on_failure (fun _ => Except.error ⟨"Network Error", none⟩)
    ⟨[("token", "abc")], "/dashboard", [], []⟩
    ⟨JSValue.array 2 [JSValue.object 3 [("_id", JSValue.string "e1")],
        JSValue.object 4 [("_id", JSValue.string "e2")]],
      JSValue.string "ann", JSValue.null, JSValue.object 0 [], false⟩).1
    JSValue.undefined _ rfl).1

/-! Signup: the order of its two requests -/

/-- The run of `handleSignup` when both requests are answered with a response. -/
theorem Signup.handleSignup_of_ok {backend : Backend} {w : World} {s : SignupState}
    {signupResponse loginResponse : Response}
    (hb1 : backend (axiosInstance.requestInterceptor w.storage
      ⟨"post", "/public/sign-up", Signup.account s, []⟩) = Except.ok signupResponse)
    (hb2 : backend (axiosInstance.requestInterceptor w.storage
      ⟨"post", "/public/login", Signup.credentials s, []⟩) = Except.ok loginResponse) :
    (Signup.handleSignup backend w s).1.requests
      = w.requests
        ++ [axiosInstance.requestInterceptor w.storage
            ⟨"post", "/public/sign-up", Signup.account s, []⟩]
        ++ [axiosInstance.requestInterceptor w.storage
            ⟨"post", "/public/login", Signup.credentials s, []⟩] := by
  have hb2' : backend (axiosInstance.requestInterceptor
      (World.toastSuccess
        { w with requests := w.requests ++ [axiosInstance.requestInterceptor w.storage
            ⟨"post", "/public/sign-up", Signup.account s, []⟩] }
        (JSValue.string "Signup successful!")).storage
      ⟨"post", "/public/login", Signup.credentials s, []⟩) = Except.ok loginResponse := hb2
  simp only [Signup.handleSignup, axiosInstance.post, axiosInstance.request_of_ok hb1,
    axiosInstance.request_of_ok hb2']
  cases loginResponse.data.getProp "token" <;> rfl

/-- C18: when the sign-up request of `handleSignup` is answered with an error,
the sign-up request is the only request issued (no login request), nothing is
written to storage (it is unchanged, or has lost "token" on a 401) and the
location is what it was or "/login". Whenever `handleSignup` leaves a value
under "token" that was not there before, the backend answered both the
sign-up request and the login request with a response. -/
theorem C18_signup_stores_only_after_both_requests (backend : Backend) (w : World)
    (s : SignupState) :
    (∀ error : AxiosError,
        backend (axiosInstance.requestInterceptor w.storage
          ⟨"post", "/public/sign-up", Signup.account s, []⟩) = Except.error error →
        (Signup.handleSignup backend w s).1.requests
            = w.requests ++ [axiosInstance.requestInterceptor w.storage
                ⟨"post", "/public/sign-up", Signup.account s, []⟩]
          ∧ ((Signup.handleSignup backend w s).1.storage = w.storage
              ∨ (Signup.handleSignup backend w s).1.storage = w.storage.removeItem "token")
          ∧ ((Signup.handleSignup backend w s).1.location = w.location
              ∨ (Signup.handleSignup backend w s).1.location = "/login")
          ∧ (w.location ≠ "/dashboard" →
              (Signup.handleSignup backend w s).1.location ≠ "/dashboard"))
      ∧ (∀ value : String,
          (Signup.handleSignup backend w s).1.storage.getItem "token" = some value →
          w.storage.getItem "token" ≠ some value →
          ∃ signupResponse loginResponse : Response,
            backend (axiosInstance.requestInterceptor w.storage
              ⟨"post", "/public/sign-up", Signup.account s, []⟩) = Except.ok signupResponse
            ∧ backend (axiosInstance.requestInterceptor w.storage
              ⟨"post", "/public/login", Signup.credentials s, []⟩) = Except.ok loginResponse
            ∧ (Signup.handleSignup backend w s).1.requests
              = w.requests
                ++ [axiosInstance.requestInterceptor w.storage
                    ⟨"post", "/public/sign-up", Signup.account s, []⟩]
                ++ [axiosInstance.requestInterceptor w.storage
                    ⟨"post", "/public/login", Signup.credentials s, []⟩]) := by
  have hkept : ∀ (w0 : World) (error : AxiosError) (m : JSValue) (value : String),
      w0.storage = w.storage →
      (World.toastError (axiosInstance.responseErrorHandler w0 error).1 m).storage.getItem
        "token" = some value →
      w.storage.getItem "token" = some value := by
    intro w0 error m value hw0 hget
    simp only [World.toastError] at hget
    rcases axiosInstance.responseErrorHandler_storage w0 error with hs | hs
    · rw [hs, hw0] at hget
      exact hget
    · rw [hs, Storage.getItem_removeItem_self] at hget
      cases hget
  constructor
  · intro error hb
    rw [Signup.handleSignup_of_signup_error hb]
    simp only [World.toastError]
    refine ⟨axiosInstance.responseErrorHandler_requests _ _,
      axiosInstance.responseErrorHandler_storage _ _,
      axiosInstance.responseErrorHandler_location _ _, ?_⟩
    intro hloc hdash
    rcases axiosInstance.responseErrorHandler_location
      { w with requests := w.requests ++ [axiosInstance.requestInterceptor w.storage
          ⟨"post", "/public/sign-up", Signup.account s, []⟩] } error with hl | hl
    · rw [hl] at hdash
      exact hloc hdash
    · rw [hl] at hdash
      exact absurd hdash (by decide)
  · intro value hget hnew
    cases hb1 : backend (axiosInstance.requestInterceptor w.storage
        ⟨"post", "/public/sign-up", Signup.account s, []⟩) with
    | error error =>
      rw [Signup.handleSignup_of_signup_error hb1] at hget
      exact absurd (hkept _ error _ value (by rfl) hget) hnew
    | ok signupResponse =>
      cases hb2 : backend (axiosInstance.requestInterceptor w.storage
          ⟨"post", "/public/login", Signup.credentials s, []⟩) with
      | error error =>
        rw [Signup.handleSignup_of_login_error hb1 hb2] at hget
        exact absurd (hkept _ error _ value (by rfl) hget) hnew
      | ok loginResponse =>
        exact ⟨signupResponse, loginResponse, rfl, rfl, Signup.handleSignup_of_ok hb1 hb2⟩

/-- Witness of C18: the sign-up is rejected because the username is taken. -/
theorem C18_signup_stores_only_after_both_requests_witness :
    (Signup.handleSignup
        (fun _ => Except.error ⟨"Request failed with status code 409",
          some ⟨409, JSValue.object 1 [("message", JSValue.string "Username taken")]⟩⟩)
        ⟨[], "/signup", [], []⟩ ⟨"ann@example.org", "ann", "pw", false, true⟩).1.requests
      = [] ++ [axiosInstance.requestInterceptor []
          ⟨"post", "/public/sign-up",
            Signup.account ⟨"ann@example.org", "ann", "pw", false, true⟩, []⟩] :=
  ((C18_signup_stores_only_after_both_requests
    (fun _ => Except.error ⟨"Request failed with status code 409",
      some ⟨409, JSValue.object 1 [("message", JSValue.string "Username taken")]⟩⟩)
    ⟨[], "/signup", [], []⟩ ⟨"ann@example.org", "ann", "pw", false, true⟩).1 _ rfl).1

/-! The OAuth initiation -/

/-- C19: for every client identifier `c`, `initiateGoogleOAuth` sets the page
location to the authorization URL of the identity provider with `client_id`
equal to `c` and `redirect_uri` equal to the percent-encoding, by
`encodeURIComponent`, of "http://localhost:5173/login/auth/google/callback"
(which decodes back to that address), and changes nothing else. The Login
page and the Signup page do the same for every value of the identifier, and
the path of the callback address is the route `App` registers for
`GoogleAuthCallback`. -/
theorem C19_initiateGoogleOAuth_url (w : World) (c : String) :
    (Login.initiateGoogleOAuth w (JSValue.string c)).location
        = "https://accounts.google.com/o/oauth2/v2/auth?client_id=" ++ c
          ++ "&redirect_uri="
          ++ "http%3A%2F%2Flocalhost%3A5173%2Flogin%2Fauth%2Fgoogle%2Fcallback"
          ++ "&response_type=code&scope=email%20profile&access_type=offline&prompt=consent"
      ∧ URI.encodeURIComponent "http://localhost:5173/login/auth/google/callback"
        = "http%3A%2F%2Flocalhost%3A5173%2Flogin%2Fauth%2Fgoogle%2Fcallback"
      ∧ URLSearchParams.decodeComponent (URLSearchParams.utf8Encode
          "http%3A%2F%2Flocalhost%3A5173%2Flogin%2Fauth%2Fgoogle%2Fcallback".toList)
        = "http://localhost:5173/login/auth/google/callback"
      ∧ (Login.initiateGoogleOAuth w (JSValue.string c)).storage = w.storage
      ∧ (Login.initiateGoogleOAuth w (JSValue.string c)).requests = w.requests
      ∧ (Login.initiateGoogleOAuth w (JSValue.string c)).toasts = w.toasts
      ∧ (∀ clientId : JSValue,
          Signup.initiateGoogleOAuth w clientId = Login.initiateGoogleOAuth w clientId)
      ∧ Login.redirectUri = "http://localhost:5173/login/auth/google/callback"
      ∧ Signup.redirectUri = "http://localhost:5173/login/auth/google/callback"
      ∧ URI.pathname "http://localhost:5173/login/auth/google/callback"
        = some "/login/auth/google/callback"
      ∧ App.routeElement "/login/auth/google/callback"
        = some (RouteElement.page Page.googleAuthCallback) := by
  have henc : URI.encodeURIComponent Login.redirectUri
      = "http%3A%2F%2Flocalhost%3A5173%2Flogin%2Fauth%2Fgoogle%2Fcallback" := by decide
  refine ⟨?_, by decide, by decide, rfl, rfl, rfl, fun _ => rfl, rfl, rfl, by decide,
    by decide⟩
  simp only [Login.initiateGoogleOAuth, World.navigate, henc]
  rfl

/-! Storage is touched under "token" only -/

namespace axiosInstance

theorem responseErrorHandler_getItem_of_ne (w : World) (error : AxiosError) {key : String}
    (hkey : key ≠ "token") :
    (responseErrorHandler w error).1.storage.getItem key = w.storage.getItem key := by
  rcases responseErrorHandler_storage w error with hs | hs
  · rw [hs]
  · rw [hs, Storage.getItem_removeItem_of_ne _ hkey]

theorem request_getItem_of_ne (backend : Backend) (w : World) (config : RequestConfig)
    {key : String} (hkey : key ≠ "token") :
    (request backend w config).1.storage.getItem key = w.storage.getItem key := by
  rcases request_storage backend w config with hs | hs
  · rw [hs]
  · rw [hs, Storage.getItem_removeItem_of_ne _ hkey]

theorem getItem_of_get {backend : Backend} {w w1 : World} {url key : String}
    {r : Except AxiosError Response} (hkey : key ≠ "token")
    (heq : get backend w url = (w1, r)) : w1.storage.getItem key = w.storage.getItem key := by
  have hframe := request_getItem_of_ne backend w ⟨"get", url, JSValue.undefined, []⟩ hkey
  unfold get at heq
  rw [heq] at hframe
  exact hframe

theorem getItem_of_delete {backend : Backend} {w w1 : World} {url key : String}
    {r : Except AxiosError Response} (hkey : key ≠ "token")
    (heq : delete backend w url = (w1, r)) : w1.storage.getItem key = w.storage.getItem key := by
  have hframe := request_getItem_of_ne backend w ⟨"delete", url, JSValue.undefined, []⟩ hkey
  unfold delete at heq
  rw [heq] at hframe
  exact hframe

theorem getItem_of_post {backend : Backend} {w w1 : World} {url key : String} {data : JSValue}
    {r : Except AxiosError Response} (hkey : key ≠ "token")
    (heq : post backend w url data = (w1, r)) :
    w1.storage.getItem key = w.storage.getItem key := by
  have hframe := request_getItem_of_ne backend w ⟨"post", url, data, []⟩ hkey
  unfold post at heq
  rw [heq] at hframe
  exact hframe

theorem getItem_of_put {backend : Backend} {w w1 : World} {url key : String} {data : JSValue}
    {r : Except AxiosError Response} (hkey : key ≠ "token")
    (heq : put backend w url data = (w1, r)) :
    w1.storage.getItem key = w.storage.getItem key := by
  have hframe := request_getItem_of_ne backend w ⟨"put", url, data, []⟩ hkey
  unfold put at heq
  rw [heq] at hframe
  exact hframe

end axiosInstance

theorem Login.handleLogin_getItem_of_ne (backend : Backend) (w : World) (s : LoginState)
    {key : String} (hkey : key ≠ "token") :
    (Login.handleLogin backend w s).1.storage.getItem key = w.storage.getItem key := by
  unfold Login.handleLogin
  split
  next w1 response heq =>
    have h1 := axiosInstance.getItem_of_post hkey heq
    dsimp only
    split
    · simpa [World.toastError] using h1
    · simpa [World.setItem, World.toastSuccess, World.navigate,
        Storage.getItem_setItem_of_ne _ _ hkey] using h1
  next w1 error heq =>
    have h1 := axiosInstance.getItem_of_post hkey heq
    simpa [World.toastError] using h1

theorem Signup.handleSignup_getItem_of_ne (backend : Backend) (w : World) (s : SignupState)
    {key : String} (hkey : key ≠ "token") :
    (Signup.handleSignup backend w s).1.storage.getItem key = w.storage.getItem key := by
  unfold Signup.handleSignup
  split
  next w1 response heq =>
    have h1 := axiosInstance.getItem_of_post hkey heq
    dsimp only
    split
    next w3 loginResponse heq2 =>
      have h3 := axiosInstance.getItem_of_post hkey heq2
      have h3' : w3.storage.getItem key = w.storage.getItem key := by
        rw [h3]
        exact h1
      split
      · simpa [World.setItem, World.navigate, Storage.getItem_setItem_of_ne _ _ hkey]
          using h3'
      · simpa [Signup.handleSignupCatch, World.toastError] using h3'
    next w3 error heq2 =>
      have h3 := axiosInstance.getItem_of_post hkey heq2
      have h3' : w3.storage.getItem key = w.storage.getItem key := by
        rw [h3]
        exact h1
      simpa [Signup.handleSignupCatch, World.toastError] using h3'
  next w1 error heq =>
    have h1 := axiosInstance.getItem_of_post hkey heq
    simpa [Signup.handleSignupCatch, World.toastError] using h1

theorem GoogleAuthCallback.effect_getItem_of_ne (backend : Backend) (w : World)
    (search : String) {key : String} (hkey : key ≠ "token") :
    (GoogleAuthCallback.effect backend w search).storage.getItem key
      = w.storage.getItem key := by
  unfold GoogleAuthCallback.effect
  dsimp only
  split
  next code hcode =>
    split
    next hne =>
      split
      next w1 response heq =>
        have h1 := axiosInstance.getItem_of_get hkey heq
        split
        · simpa [World.setItem, World.toastSuccess, World.navigate,
            Storage.getItem_setItem_of_ne _ _ hkey] using h1
        · simpa [World.toastSuccess, World.navigate] using h1
      next w1 error heq =>
        have h1 := axiosInstance.getItem_of_get hkey heq
        simpa [World.toastError] using h1
    next => rfl
  next => rfl

namespace Dashboard

theorem fetchUserDetails_getItem_of_ne (backend : Backend) (w : World) (s : DashboardState)
    {key : String} (hkey : key ≠ "token") :
    (fetchUserDetails backend w s).1.storage.getItem key = w.storage.getItem key := by
  unfold fetchUserDetails
  split
  next w1 response heq =>
    have h1 := axiosInstance.getItem_of_get hkey heq
    split <;> simpa [World.toastError] using h1
  next w1 error heq =>
    have h1 := axiosInstance.getItem_of_get hkey heq
    simpa [World.toastError] using h1

theorem fetchEntries_getItem_of_ne (backend : Backend) (w : World) (s : DashboardState)
    {key : String} (hkey : key ≠ "token") :
    (fetchEntries backend w s).1.storage.getItem key = w.storage.getItem key := by
  unfold fetchEntries
  split
  next w1 response heq => exact axiosInstance.getItem_of_get hkey heq
  next w1 error heq =>
    have h1 := axiosInstance.getItem_of_get hkey heq
    simpa [World.toastError] using h1

theorem handleDelete_getItem_of_ne (backend : Backend) (w : World) (s : DashboardState)
    (id : JSValue) (confirmed : Bool) {key : String} (hkey : key ≠ "token") :
    (handleDelete backend w s id confirmed).1.storage.getItem key = w.storage.getItem key := by
  unfold handleDelete
  dsimp only
  split_ifs <;> first
    | rfl
    | (split <;> rename_i w1 _ heq <;>
        simpa [World.toastSuccess, handleDeleteCatch, World.toastError]
          using axiosInstance.getItem_of_delete hkey heq)

theorem handleUpdate_getItem_of_ne (backend : Backend) (w : World) (s : DashboardState)
    {key : String} (hkey : key ≠ "token") :
    (handleUpdate backend w s).1.storage.getItem key = w.storage.getItem key := by
  unfold handleUpdate
  split
  · rfl
  · dsimp only
    split
    next => rfl
    next entryId hid =>
      split
      next w1 response heq =>
        have h1 := axiosInstance.getItem_of_put hkey heq
        simpa [World.toastSuccess] using h1
      next w1 error heq =>
        have h1 := axiosInstance.getItem_of_put hkey heq
        simpa [handleUpdateCatch, World.toastError] using h1

end Dashboard

namespace JournalEntryForm

theorem fetchEntry_getItem_of_ne (backend : Backend) (w : World) (s : JournalEntryFormState)
    (id : Option String) {key : String} (hkey : key ≠ "token") :
    (fetchEntry backend w s id).1.storage.getItem key = w.storage.getItem key := by
  unfold fetchEntry
  split
  · split
    next w1 response heq =>
      have h1 := axiosInstance.getItem_of_get hkey heq
      split <;> simpa [World.toastError] using h1
    next w1 error heq =>
      have h1 := axiosInstance.getItem_of_get hkey heq
      simpa [World.toastError] using h1
  · rfl

theorem handleSubmit_getItem_of_ne (backend : Backend) (w : World) (s : JournalEntryFormState)
    (id : Option String) {key : String} (hkey : key ≠ "token") :
    (handleSubmit backend w s id).storage.getItem key = w.storage.getItem key := by
  unfold handleSubmit
  dsimp only
  split
  next w1 response heq =>
    have h1 : w1.storage.getItem key = w.storage.getItem key := by
      split at heq
      · exact axiosInstance.getItem_of_put hkey heq
      · exact axiosInstance.getItem_of_post hkey heq
    simpa [World.toastSuccess, World.navigate] using h1
  next w1 error heq =>
    have h1 : w1.storage.getItem key = w.storage.getItem key := by
      split at heq
      · exact axiosInstance.getItem_of_put hkey heq
      · exact axiosInstance.getItem_of_post hkey heq
    simpa [World.toastError] using h1

end JournalEntryForm

/-- C20: whatever the backend answers, every operation of the client leaves
the value stored under every key other than "token" as it was: a call
through the instance and each of its interceptor handlers (the unauthorized
handler included), Logout, ProtectedRoute, `handleLogin`, `handleSignup`, the
OAuth callback effect, `initiateGoogleOAuth`, and the Dashboard and
JournalEntryForm handlers that act on the browser. The writes and removals the
client makes are `setItem("token", ...)` and `removeItem("token")`. -/
theorem C20_storage_touched_under_token_only (w : World) (key : String)
    (hkey : key ≠ "token") :
    (∀ (backend : Backend) (config : RequestConfig),
        (axiosInstance.request backend w config).1.storage.getItem key = w.storage.getItem key)
      ∧ (∀ error : AxiosError,
          (axiosInstance.responseErrorHandler w error).1.storage.getItem key
            = w.storage.getItem key)
      ∧ (∀ response : Response,
          (axiosInstance.responseInterceptor w response).1.storage = w.storage)
      ∧ (∀ error : AxiosError,
          (axiosInstance.requestErrorHandler w error).1.storage = w.storage)
      ∧ (App.logout w).storage = w.storage.removeItem "token"
      ∧ (App.logout w).storage.getItem key = w.storage.getItem key
      ∧ (∀ (α : Type) (Component : α), (ProtectedRoute w Component).1.storage = w.storage)
      ∧ (∀ (backend : Backend) (s : LoginState),
          (Login.handleLogin backend w s).1.storage.getItem key = w.storage.getItem key)
      ∧ (∀ (backend : Backend) (s : SignupState),
          (Signup.handleSignup backend w s).1.storage.getItem key = w.storage.getItem key)
      ∧ (∀ (backend : Backend) (search : String),
          (GoogleAuthCallback.effect backend w search).storage.getItem key
            = w.storage.getItem key)
      ∧ (∀ clientId : JSValue,
          (Login.initiateGoogleOAuth w clientId).storage = w.storage
            ∧ (Signup.initiateGoogleOAuth w clientId).storage = w.storage)
      ∧ (∀ (backend : Backend) (s : DashboardState),
          (Dashboard.fetchUserDetails backend w s).1.storage.getItem key
              = w.storage.getItem key
            ∧ (Dashboard.fetchEntries backend w s).1.storage.getItem key
              = w.storage.getItem key
            ∧ (∀ (id : JSValue) (confirmed : Bool),
                (Dashboard.handleDelete backend w s id confirmed).1.storage.getItem key
                  = w.storage.getItem key)
            ∧ (Dashboard.handleUpdate backend w s).1.storage.getItem key
              = w.storage.getItem key)
      ∧ (Dashboard.newEntry w).storage = w.storage
      ∧ (∀ (backend : Backend) (s : JournalEntryFormState) (id : Option String),
          (JournalEntryForm.fetchEntry backend w s id).1.storage.getItem key
              = w.storage.getItem key
            ∧ (JournalEntryForm.handleSubmit backend w s id).storage.getItem key
              = w.storage.getItem key) := by
  refine ⟨?_, ?_, fun _ => rfl, fun _ => rfl, rfl, ?_, ?_, ?_, ?_, ?_, fun _ => ⟨rfl, rfl⟩,
    ?_, rfl, ?_⟩
  · intro backend config
    exact axiosInstance.request_getItem_of_ne backend w config hkey
  · intro error
    exact axiosInstance.responseErrorHandler_getItem_of_ne w error hkey
  · exact Storage.getItem_removeItem_of_ne _ hkey
  · intro α Component
    exact ProtectedRoute_storage w Component
  · intro backend s
    exact Login.handleLogin_getItem_of_ne backend w s hkey
  · intro backend s
    exact Signup.handleSignup_getItem_of_ne backend w s hkey
  · intro backend search
    exact GoogleAuthCallback.effect_getItem_of_ne backend w search hkey
  · intro backend s
    exact ⟨Dashboard.fetchUserDetails_getItem_of_ne backend w s hkey,
      Dashboard.fetchEntries_getItem_of_ne backend w s hkey,
      fun id confirmed => Dashboard.handleDelete_getItem_of_ne backend w s id confirmed hkey,
      Dashboard.handleUpdate_getItem_of_ne backend w s hkey⟩
  · intro backend s id
    exact ⟨JournalEntryForm.fetchEntry_getItem_of_ne backend w s id hkey,
      JournalEntryForm.handleSubmit_getItem_of_ne backend w s id hkey⟩

/-- Witness of C20: a login that stores a token, and a 401 on the Dashboard,
both leave the entry under "theme" alone. -/
theorem C20_storage_touched_under_token_only_witness :
    (Login.handleLogin
        (fun _ => Except.ok ⟨200, JSValue.object 1 [("token", JSValue.string "jwt")]⟩)
        ⟨[("theme", "dark")], "/login", [], []⟩
        ⟨"ann", "pw", false, true⟩).1.storage.getItem "theme"
      = Storage.getItem [("theme", "dark")] "theme"
    ∧ (Dashboard.fetchEntries
        (fun _ => Except.error ⟨"Request failed with status code 401", some ⟨401, JSValue.null⟩⟩)
        ⟨[("theme", "dark")], "/login", [], []⟩
        ⟨JSValue.array 0 [], JSValue.string "", JSValue.null, JSValue.object 0 [],
          false⟩).1.storage.getItem "theme"
      = Storage.getItem [("theme", "dark")] "theme" :=
  let h := C20_storage_touched_under_token_only ⟨[("theme", "dark")], "/login", [], []⟩
    "theme" (by decide)
  ⟨h.2.2.2.2.2.2.2.1 _ _, (h.2.2.2.2.2.2.2.2.2.2.2.1 _ _).2.1⟩

/-! No request is issued twice -/

namespace GoogleAuthCallback

/-- The effect without a usable code. -/
theorem effect_of_no_code {backend : Backend} {w : World} {search : String}
    (hcode : URLSearchParams.get (URLSearchParams.parse search) "code" = none
      ∨ URLSearchParams.get (URLSearchParams.parse search) "code" = some "") :
    effect backend w search = w.toastError (JSValue.string "Authorization code not found.") := by
  rcases hcode with h | h <;> simp [effect, h]

/-- The requests of the effect with a usable code. -/
theorem effect_requests_of_code (backend : Backend) (w : World) {search code : String}
    (hcode : URLSearchParams.get (URLSearchParams.parse search) "code" = some code)
    (hne : code ≠ "") :
    (effect backend w search).requests
      = w.requests ++ [axiosInstance.requestInterceptor w.storage
          ⟨"get", "/auth/google/callback?code=" ++ code, JSValue.undefined, []⟩] := by
  cases hb : backend (axiosInstance.requestInterceptor w.storage
      ⟨"get", "/auth/google/callback?code=" ++ code, JSValue.undefined, []⟩) with
  | ok response =>
    rw [effect_of_ok hcode hne hb]
    split <;> rfl
  | error error =>
    rw [effect_of_error hcode hne hb]
    simp only [World.toastError]
    exact axiosInstance.responseErrorHandler_requests _ _

end GoogleAuthCallback

/-- The requests of `handleLogin`. -/
theorem Login.handleLogin_requests (backend : Backend) (w : World) (s : LoginState) :
    (Login.handleLogin backend w s).1.requests
      = w.requests ++ [axiosInstance.requestInterceptor w.storage
          ⟨"post", "/public/login", Login.credentials s, []⟩] := by
  cases hb : backend (axiosInstance.requestInterceptor w.storage
      ⟨"post", "/public/login", Login.credentials s, []⟩) with
  | ok response =>
    simp only [Login.handleLogin, axiosInstance.post, axiosInstance.request_of_ok hb]
    split <;> rfl
  | error error =>
    rw [Login.handleLogin_of_error hb]
    simp only [World.toastError]
    exact axiosInstance.responseErrorHandler_requests _ _

/-- The requests of `handleSignup`: the sign-up request, then the login
request when the sign-up was answered with a response. -/
theorem Signup.handleSignup_requests (backend : Backend) (w : World) (s : SignupState) :
    ((∃ error, backend (axiosInstance.requestInterceptor w.storage
          ⟨"post", "/public/sign-up", Signup.account s, []⟩) = Except.error error)
        ∧ (Signup.handleSignup backend w s).1.requests
          = w.requests ++ [axiosInstance.requestInterceptor w.storage
              ⟨"post", "/public/sign-up", Signup.account s, []⟩])
      ∨ ((∃ response, backend (axiosInstance.requestInterceptor w.storage
            ⟨"post", "/public/sign-up", Signup.account s, []⟩) = Except.ok response)
        ∧ (Signup.handleSignup backend w s).1.requests
          = w.requests
            ++ [axiosInstance.requestInterceptor w.storage
                ⟨"post", "/public/sign-up", Signup.account s, []⟩]
            ++ [axiosInstance.requestInterceptor w.storage
                ⟨"post", "/public/login", Signup.credentials s, []⟩]) := by
  cases hb1 : backend (axiosInstance.requestInterceptor w.storage
      ⟨"post", "/public/sign-up", Signup.account s, []⟩) with
  | error error =>
    refine Or.inl ⟨⟨error, rfl⟩, ?_⟩
    rw [Signup.handleSignup_of_signup_error hb1]
    simp only [World.toastError]
    exact axiosInstance.responseErrorHandler_requests _ _
  | ok signupResponse =>
    refine Or.inr ⟨⟨signupResponse, rfl⟩, ?_⟩
    cases hb2 : backend (axiosInstance.requestInterceptor w.storage
        ⟨"post", "/public/login", Signup.credentials s, []⟩) with
    | error error =>
      rw [Signup.handleSignup_of_login_error hb1 hb2]
      simp only [World.toastError]
      exact axiosInstance.responseErrorHandler_requests _ _
    | ok loginResponse => exact Signup.handleSignup_of_ok hb1 hb2

/-- C21: whatever the backend answers (a response, an error with any status,
no response at all), one run of `handleLogin` puts exactly one request on the
wire, the login request; one run of `handleSignup` puts the sign-up request on
the wire once and, only when that was answered with a response, the login
request once after it; one run of the OAuth callback effect puts nothing, or
the exchange request once; and the response error handler puts nothing. -/
theorem C21_no_request_is_reissued (backend : Backend) (w : World) :
    (∀ s : LoginState,
        (Login.handleLogin backend w s).1.requests
          = w.requests ++ [axiosInstance.requestInterceptor w.storage
              ⟨"post", "/public/login", Login.credentials s, []⟩])
      ∧ (∀ s : SignupState,
          ((∃ error, backend (axiosInstance.requestInterceptor w.storage
                ⟨"post", "/public/sign-up", Signup.account s, []⟩) = Except.error error)
              ∧ (Signup.handleSignup backend w s).1.requests
                = w.requests ++ [axiosInstance.requestInterceptor w.storage
                    ⟨"post", "/public/sign-up", Signup.account s, []⟩])
            ∨ ((∃ response, backend (axiosInstance.requestInterceptor w.storage
                  ⟨"post", "/public/sign-up", Signup.account s, []⟩) = Except.ok response)
              ∧ (Signup.handleSignup backend w s).1.requests
                = w.requests
                  ++ [axiosInstance.requestInterceptor w.storage
                      ⟨"post", "/public/sign-up", Signup.account s, []⟩]
                  ++ [axiosInstance.requestInterceptor w.storage
                      ⟨"post", "/public/login", Signup.credentials s, []⟩]))
      ∧ (∀ search : String,
          (GoogleAuthCallback.effect backend w search).requests = w.requests
            ∨ ∃ code, URLSearchParams.get (URLSearchParams.parse search) "code" = some code
                ∧ (GoogleAuthCallback.effect backend w search).requests
                  = w.requests ++ [axiosInstance.requestInterceptor w.storage
                      ⟨"get", "/auth/google/callback?code=" ++ code, JSValue.undefined, []⟩])
      ∧ (∀ error : AxiosError,
          (axiosInstance.responseErrorHandler w error).1.requests = w.requests) := by
  refine ⟨Login.handleLogin_requests backend w, Signup.handleSignup_requests backend w, ?_,
    axiosInstance.responseErrorHandler_requests w⟩
  intro search
  cases hcode : URLSearchParams.get (URLSearchParams.parse search) "code" with
  | none =>
    left
    rw [GoogleAuthCallback.effect_of_no_code (Or.inl hcode)]
    rfl
  | some code =>
    by_cases hne : code = ""
    · left
      rw [GoogleAuthCallback.effect_of_no_code (Or.inr (by rw [hcode, hne]))]
      rfl
    · right
      exact ⟨code, rfl, GoogleAuthCallback.effect_requests_of_code backend w hcode hne⟩

/-! The code in the exchange URL -/

/-- C22, at failing inputs: the callback route is loaded with the query
"?code=a%26b", from which the page extracts the code "a&b". The exchange
request goes to "/auth/google/callback?code=a&b", and the query of that URL
parses to the code "a": the code is cut at the "&". Likewise the code "a+b"
arrives as "a b", "a%41" as "aA", and "a#b" as "a". The code is put into the
URL as it is, where `initiateGoogleOAuth` passes its parameter through
`encodeURIComponent`; with that the code would come back unaltered. -/
theorem C22_code_is_altered_in_exchange_url :
    URLSearchParams.get (URLSearchParams.parse "?code=a%26b") "code" = some "a&b"
      ∧ (GoogleAuthCallback.effect (fun _ => Except.ok ⟨200, JSValue.null⟩)
          ⟨[], "/login/auth/google/callback", [], []⟩ "?code=a%26b").requests
        = [⟨"get", "/auth/google/callback?code=a&b", JSValue.undefined, []⟩]
      ∧ URLSearchParams.get
          (URLSearchParams.parse (URI.query "/auth/google/callback?code=a&b")) "code"
        = some "a"
      ∧ URLSearchParams.get (URLSearchParams.parse "?code=a%2Bb") "code" = some "a+b"
      ∧ URLSearchParams.get
          (URLSearchParams.parse (URI.query ("/auth/google/callback?code=" ++ "a+b"))) "code"
        = some "a b"
      ∧ URLSearchParams.get (URLSearchParams.parse "?code=a%2541") "code" = some "a%41"
      ∧ URLSearchParams.get
          (URLSearchParams.parse (URI.query ("/auth/google/callback?code=" ++ "a%41"))) "code"
        = some "aA"
      ∧ URLSearchParams.get (URLSearchParams.parse "?code=a%23b") "code" = some "a#b"
      ∧ URLSearchParams.get
          (URLSearchParams.parse (URI.query ("/auth/google/callback?code=" ++ "a#b"))) "code"
        = some "a"
      ∧ URLSearchParams.get
          (URLSearchParams.parse
            (URI.query ("/auth/google/callback?code=" ++ URI.encodeURIComponent "a&b")))
          "code"
        = some "a&b" := by
  refine ⟨by decide, rfl, by decide, by decide, by decide, by decide, by decide, by decide,
    by decide, by decide⟩

/-! One notion of being logged in -/

/-- C23: for every value stored under "token" the three tests agree.
`ProtectedRoute` renders the component exactly when the navigation bar of `App`
shows the Logout control, and exactly when the request interceptor puts an
Authorization header on a request that had none. With no entry and with the
empty string all three say no; with a non-empty string `t` all three say yes,
and the header is "Bearer " followed by `t`. -/
theorem C23_logged_in_tests_agree {α : Type} (w : World) (Component : α)
    (config : RequestConfig) (hplain : config.headers.get "Authorization" = none) :
    ((ProtectedRoute w Component).2 = Rendered.component Component
        ↔ App.navControls w.storage = NavControls.logoutButton)
      ∧ (App.navControls w.storage = NavControls.logoutButton
        ↔ (axiosInstance.requestInterceptor w.storage config).headers.get "Authorization"
            ≠ none)
      ∧ (w.storage.getItem "token" = none ∨ w.storage.getItem "token" = some "" →
          (ProtectedRoute w Component).2 = Rendered.navigateTo "/login" true
            ∧ App.navControls w.storage = NavControls.authButtons
            ∧ axiosInstance.requestInterceptor w.storage config = config)
      ∧ (∀ t : String, w.storage.getItem "token" = some t → t ≠ "" →
          (ProtectedRoute w Component).2 = Rendered.component Component
            ∧ App.navControls w.storage = NavControls.logoutButton
            ∧ (axiosInstance.requestInterceptor w.storage config).headers.get "Authorization"
              = some ("Bearer " ++ t)) := by
  have hno : w.storage.getItem "token" = none ∨ w.storage.getItem "token" = some "" →
      (ProtectedRoute w Component).2 = Rendered.navigateTo "/login" true
        ∧ App.navControls w.storage = NavControls.authButtons
        ∧ axiosInstance.requestInterceptor w.storage config = config := by
    intro h
    rcases h with h | h <;>
      simp [ProtectedRoute, App.navControls, axiosInstance.requestInterceptor, h]
  have hyes : ∀ t : String, w.storage.getItem "token" = some t → t ≠ "" →
      (ProtectedRoute w Component).2 = Rendered.component Component
        ∧ App.navControls w.storage = NavControls.logoutButton
        ∧ (axiosInstance.requestInterceptor w.storage config).headers.get "Authorization"
          = some ("Bearer " ++ t) := by
    intro t h hne
    refine ⟨?_, ?_, ?_⟩
    · simp [ProtectedRoute, h, hne]
    · simp [App.navControls, h, hne]
    · simp [axiosInstance.requestInterceptor, h, hne, Headers.get_set_self]
  refine ⟨?_, ?_, hno, hyes⟩
  · cases ht : w.storage.getItem "token" with
    | none =>
      obtain ⟨h1, h2, -⟩ := hno (Or.inl ht)
      rw [h1, h2]
      constructor <;> intro h <;> cases h
    | some t =>
      by_cases hne : t = ""
      · obtain ⟨h1, h2, -⟩ := hno (Or.inr (by rw [ht, hne]))
        rw [h1, h2]
        constructor <;> intro h <;> cases h
      · obtain ⟨h1, h2, -⟩ := hyes t ht hne
        rw [h1, h2]
        exact ⟨fun _ => rfl, fun _ => rfl⟩
  · cases ht : w.storage.getItem "token" with
    | none =>
      obtain ⟨-, h2, h3⟩ := hno (Or.inl ht)
      rw [h2, h3, hplain]
      constructor
      · intro h; cases h
      · intro h; exact absurd rfl h
    | some t =>
      by_cases hne : t = ""
      · obtain ⟨-, h2, h3⟩ := hno (Or.inr (by rw [ht, hne]))
        rw [h2, h3, hplain]
        constructor
        · intro h; cases h
        · intro h; exact absurd rfl h
      · obtain ⟨-, h2, h3⟩ := hyes t ht hne
        rw [h2, h3]
        exact ⟨fun _ => by simp, fun _ => rfl⟩

/-- Witness of C23: the token "abc" is stored, and a plain GET is sent. -/
theorem C23_logged_in_tests_agree_witness :
    (ProtectedRoute ⟨[("token", "abc")], "/dashboard", [], []⟩ Page.dashboard).2
        = Rendered.component Page.dashboard
      ∧ App.navControls [("token", "abc")] = NavControls.logoutButton
      ∧ (axiosInstance.requestInterceptor [("token", "abc")]
          ⟨"get", "/journal", JSValue.undefined, []⟩).headers.get "Authorization"
        = some ("Bearer " ++ "abc") :=
  (C23_logged_in_tests_agree ⟨[("token", "abc")], "/dashboard", [], []⟩ Page.dashboard
    ⟨"get", "/journal", JSValue.undefined, []⟩ rfl).2.2.2 "abc" rfl (by decide)

/-! Single and bulk delete -/

/-- C24, at failing inputs. An entry in the list has no `_id` field (the
backend names it `id`): its delete button calls `handleDelete(entry._id)`,
that is `handleDelete(undefined)`, and once confirmed the request issued is
the bulk delete "/journal/delete-all" and the whole list is emptied. The same
happens for an id that is an object with neither `_id` nor `id`. -/
theorem C24_single_delete_issues_bulk_delete :
    (Dashboard.deleteButton (fun _ => Except.ok ⟨200, JSValue.null⟩)
        ⟨[], "/dashboard", [], []⟩
        ⟨JSValue.array 1
            [JSValue.object 2 [("id", JSValue.string "e1"), ("title", JSValue.string "Monday")],
              JSValue.object 3 [("id", JSValue.string "e2"), ("title", JSValue.string "Tuesday")]],
          JSValue.string "ann", JSValue.null, JSValue.object 0 [], false⟩
        (JSValue.object 2 [("id", JSValue.string "e1"), ("title", JSValue.string "Monday")])
        true).1.requests
      = [⟨"delete", "/journal/delete-all", JSValue.undefined, []⟩]
    ∧ (Dashboard.deleteButton (fun _ => Except.ok ⟨200, JSValue.null⟩)
        ⟨[], "/dashboard", [], []⟩
        ⟨JSValue.array 1
            [JSValue.object 2 [("id", JSValue.string "e1"), ("title", JSValue.string "Monday")],
              JSValue.object 3 [("id", JSValue.string "e2"), ("title", JSValue.string "Tuesday")]],
          JSValue.string "ann", JSValue.null, JSValue.object 0 [], false⟩
        (JSValue.object 2 [("id", JSValue.string "e1"), ("title", JSValue.string "Monday")])
        true).2.entries
      = JSValue.array 0 []
    ∧ (Dashboard.handleDelete (fun _ => Except.ok ⟨200, JSValue.null⟩)
        ⟨[], "/dashboard", [], []⟩
        ⟨JSValue.array 1
            [JSValue.object 2
              [("_id", JSValue.object 4 [("timestamp", JSValue.number 1700000000)]),
                ("title", JSValue.string "Monday")]],
          JSValue.string "ann", JSValue.null, JSValue.object 0 [], false⟩
        (JSValue.object 4 [("timestamp", JSValue.number 1700000000)])
        true).1.requests
      = [⟨"delete", "/journal/delete-all", JSValue.undefined, []⟩] := by
  refine ⟨rfl, rfl, rfl⟩

/-- Every non-nullish value can be read a property from. -/
theorem JSValue.getProp_of_not_nullish {v : JSValue} (key : String)
    (h : v.isNullish = false) : v.getProp key = some (v.optProp key) := by
  cases v <;> simp [JSValue.isNullish] at h <;> rfl

namespace Dashboard

/-- The filter of `handleDelete` over items none of which is nullish. -/
theorem filterItems_eq_filter (entryId : JSValue) (items : List JSValue)
    (hitems : ∀ x ∈ items, x.isNullish = false) :
    filterItems entryId items
      = some (items.filter fun entry => !((entry.optProp "_id").strictEq entryId)) := by
  induction items with
  | nil => rfl
  | cons entry rest ih =>
    have hentry : entry.isNullish = false := hitems entry (List.mem_cons_self _ _)
    have hrest : ∀ x ∈ rest, x.isNullish = false :=
      fun x hx => hitems x (List.mem_cons_of_mem _ hx)
    simp only [filterItems, JSValue.getProp_of_not_nullish "_id" hentry, ih hrest,
      List.filter_cons]

/-- The run of a confirmed `handleDelete` whose request is answered with a response. -/
theorem handleDelete_of_ok {backend : Backend} {w : World} {s : DashboardState}
    {id : JSValue} {response : Response}
    (hb : backend (axiosInstance.requestInterceptor w.storage (deleteRequest s id))
      = Except.ok response) :
    handleDelete backend w s id true
      = (if !((deleteEntryId id).strictEq JSValue.undefined) then
          (World.toastSuccess
              { w with requests := w.requests
                  ++ [axiosInstance.requestInterceptor w.storage (deleteRequest s id)] }
              (JSValue.string "Entry deleted successfully."),
            setEntriesWith s (filterEntries (deleteEntryId id)))
        else
          (World.toastSuccess
              { w with requests := w.requests
                  ++ [axiosInstance.requestInterceptor w.storage (deleteRequest s id)] }
              (JSValue.string "All entries deleted successfully."),
            { s with entries := JSValue.array 0 [] })) := by
  have key : ∀ entryId : JSValue,
      backend (axiosInstance.requestInterceptor w.storage
          (if !(entryId.strictEq JSValue.undefined) then
            ⟨"delete", "/journal/" ++ s.username.toStr ++ "/" ++ entryId.toStr,
              JSValue.undefined, []⟩
          else ⟨"delete", "/journal/delete-all", JSValue.undefined, []⟩))
        = Except.ok response →
      (if !(entryId.strictEq JSValue.undefined) then
          if true = true then
            match axiosInstance.delete backend w
                ("/journal/" ++ s.username.toStr ++ "/" ++ entryId.toStr) with
            | (w1, Except.ok _) =>
              (w1.toastSuccess (JSValue.string "Entry deleted successfully."),
                setEntriesWith s (filterEntries entryId))
            | (w1, Except.error error) => (handleDeleteCatch w1 (JSError.axios error), s)
          else (w, s)
        else
          if true = true then
            match axiosInstance.delete backend w "/journal/delete-all" with
            | (w1, Except.ok _) =>
              (w1.toastSuccess (JSValue.string "All entries deleted successfully."),
                { s with entries := JSValue.array 0 [] })
            | (w1, Except.error error) => (handleDeleteCatch w1 (JSError.axios error), s)
          else (w, s))
        = (if !(entryId.strictEq JSValue.undefined) then
            (World.toastSuccess
                { w with requests := w.requests
                    ++ [axiosInstance.requestInterceptor w.storage
                      (if !(entryId.strictEq JSValue.undefined) then
                        ⟨"delete", "/journal/" ++ s.username.toStr ++ "/" ++ entryId.toStr,
                          JSValue.undefined, []⟩
                      else ⟨"delete", "/journal/delete-all", JSValue.undefined, []⟩)] }
                (JSValue.string "Entry deleted successfully."),
              setEntriesWith s (filterEntries entryId))
          else
            (World.toastSuccess
                { w with requests := w.requests
                    ++ [axiosInstance.requestInterceptor w.storage
                      (if !(entryId.strictEq JSValue.undefined) then
                        ⟨"delete", "/journal/" ++ s.username.toStr ++ "/" ++ entryId.toStr,
                          JSValue.undefined, []⟩
                      else ⟨"delete", "/journal/delete-all", JSValue.undefined, []⟩)] }
                (JSValue.string "All entries deleted successfully."),
              { s with entries := JSValue.array 0 [] })) := by
    intro entryId hbe
    by_cases hsingle : (!(entryId.strictEq JSValue.undefined)) = true
    · rw [if_pos hsingle] at hbe
      simp only [if_pos hsingle, if_true, axiosInstance.delete,
        axiosInstance.request_of_ok hbe]
    · rw [if_neg hsingle] at hbe
      simp only [if_neg hsingle, if_true, axiosInstance.delete,
        axiosInstance.request_of_ok hbe]
  exact key (deleteEntryId id) hb

end Dashboard

/-- C25: when a confirmed `handleDelete` for the entry id `e` (the constant
`entryId` of the handler, which is the argument itself for an id that is not an
object) is answered with a response, the entries list becomes the previous
list without the entries whose `_id` is strictly equal to `e`, the others in
their order, and the rest of the Dashboard state is as before; when the
confirmed bulk delete is answered with a response, the list becomes empty. The
entries list is an array without `null` or `undefined` items. -/
theorem C25_delete_removes_matching_entries (backend : Backend) (w : World)
    (s : DashboardState) (id : JSValue) (response : Response)
    (hok : backend (axiosInstance.requestInterceptor w.storage (Dashboard.deleteRequest s id))
      = Except.ok response) :
    (∀ (ref : Nat) (items : List JSValue), s.entries = JSValue.array ref items →
        (∀ x ∈ items, x.isNullish = false) →
        (Dashboard.deleteEntryId id).strictEq JSValue.undefined = false →
        (Dashboard.handleDelete backend w s id true).2
          = { s with entries := JSValue.array 0 (items.filter fun entry =>
                !((entry.optProp "_id").strictEq (Dashboard.deleteEntryId id))) })
      ∧ ((Dashboard.deleteEntryId id).strictEq JSValue.undefined = true →
          (Dashboard.handleDelete backend w s id true).2
            = { s with entries := JSValue.array 0 [] })
      ∧ (∀ e : String, Dashboard.deleteEntryId (JSValue.string e) = JSValue.string e)
      ∧ (∀ n : Int, Dashboard.deleteEntryId (JSValue.number n) = JSValue.number n)
      ∧ Dashboard.deleteEntryId JSValue.undefined = JSValue.undefined := by
  refine ⟨?_, ?_, fun _ => rfl, fun _ => rfl, rfl⟩
  · intro ref items hentries hitems hsingle
    rw [Dashboard.handleDelete_of_ok hok]
    simp only [hsingle, Bool.not_false, if_true, Dashboard.setEntriesWith, hentries,
      Dashboard.filterEntries, Dashboard.filterItems_eq_filter _ items hitems, Option.map_some']
  · intro hbulk
    rw [Dashboard.handleDelete_of_ok hok]
    simp [hbulk]

/-- Witness of C25: the second of three entries is deleted. -/
theorem C25_delete_removes_matching_entries_witness :
    (Dashboard.handleDelete (fun _ => Except.ok ⟨200, JSValue.null⟩)
        ⟨[("token", "abc")], "/dashboard", [], []⟩
        ⟨JSValue.array 1 [JSValue.object 2 [("_id", JSValue.string "e1")],
            JSValue.object 3 [("_id", JSValue.string "e2")],
            JSValue.object 4 [("_id", JSValue.string "e3")]],
          JSValue.string "ann", JSValue.null, JSValue.object 0 [], false⟩
        (JSValue.string "e2") true).2
      = ⟨JSValue.array 0 [JSValue.object 2 [("_id", JSValue.string "e1")],
            JSValue.object 4 [("_id", JSValue.string "e3")]],
          JSValue.string "ann", JSValue.null, JSValue.object 0 [], false⟩ :=
  (C25_delete_removes_matching_entries (fun _ => Except.ok ⟨200, JSValue.null⟩)
    ⟨[("token", "abc")], "/dashboard", [], []⟩
    ⟨JSValue.array 1 [JSValue.object 2 [("_id", JSValue.string "e1")],
        JSValue.object 3 [("_id", JSValue.string "e2")],
        JSValue.object 4 [("_id", JSValue.string "e3")]],
      JSValue.string "ann", JSValue.null, JSValue.object 0 [], false⟩
    (JSValue.string "e2") ⟨200, JSValue.null⟩ rfl).1 1 _ rfl
    (by
      intro x hx
      simp only [List.mem_cons, List.mem_singleton, List.not_mem_nil, or_false] at hx
      rcases hx with h | h | h <;> rw [h] <;> rfl)
    rfl

/-! The update of an entry -/

namespace Dashboard

theorem lookup_setField_self (fields : List (String × JSValue)) (key : String)
    (value : JSValue) : JSValue.lookup key (setField fields key value) = value := by
  induction fields with
  | nil => simp [setField, JSValue.lookup]
  | cons kv rest ih =>
    obtain ⟨k, v⟩ := kv
    by_cases hk : k = key
    · simp [setField, JSValue.lookup, hk]
    · simp [setField, JSValue.lookup, hk, ih]

theorem lookup_setField_of_ne (fields : List (String × JSValue)) (value : JSValue)
    {key other : String} (hne : other ≠ key) :
    JSValue.lookup other (setField fields key value) = JSValue.lookup other fields := by
  have hk : key ≠ other := fun hc => hne hc.symm
  induction fields with
  | nil => simp [setField, JSValue.lookup, hk]
  | cons kv rest ih =>
    obtain ⟨k, v⟩ := kv
    by_cases hkk : k = key
    · subst hkk
      simp [setField, JSValue.lookup, hk]
    · by_cases ho : k = other
      · subst ho
        simp [setField, JSValue.lookup, hkk]
      · simp [setField, JSValue.lookup, hkk, ho, ih]

/-- A key the spread-in object does not have keeps its value. -/
theorem lookup_foldl_setField_of_not_mem (data acc : List (String × JSValue)) (key : String)
    (h : ∀ kv ∈ data, kv.1 ≠ key) :
    JSValue.lookup key (data.foldl (fun acc kv => setField acc kv.1 kv.2) acc)
      = JSValue.lookup key acc := by
  induction data generalizing acc with
  | nil => rfl
  | cons kv rest ih =>
    have hkv : key ≠ kv.1 := fun hc => h kv (List.mem_cons_self _ _) hc.symm
    have hrest : ∀ x ∈ rest, x.1 ≠ key := fun x hx => h x (List.mem_cons_of_mem _ hx)
    simp only [List.foldl_cons]
    rw [ih _ hrest, lookup_setField_of_ne _ _ hkv]

/-- A key the spread-in object has takes its value from it. -/
theorem lookup_foldl_setField_of_mem (data acc : List (String × JSValue)) (key : String)
    (value : JSValue) (hnodup : (data.map Prod.fst).Nodup) (hmem : (key, value) ∈ data) :
    JSValue.lookup key (data.foldl (fun acc kv => setField acc kv.1 kv.2) acc) = value := by
  induction data generalizing acc with
  | nil => cases hmem
  | cons kv rest ih =>
    simp only [List.map_cons, List.nodup_cons] at hnodup
    obtain ⟨hfresh, hrestnodup⟩ := hnodup
    simp only [List.foldl_cons]
    rcases List.mem_cons.mp hmem with hhead | htail
    · subst hhead
      have hrest : ∀ x ∈ rest, x.1 ≠ key := by
        intro x hx hc
        exact hfresh (List.mem_map.mpr ⟨x, hx, hc⟩)
      rw [lookup_foldl_setField_of_not_mem rest _ key hrest, lookup_setField_self]
    · exact ih _ hrestnodup htail

/-- The map of `handleUpdate` over items each of which has an `_id`. -/
theorem mapItems_eq_map (entryId : String) (data : JSValue) (items : List JSValue)
    (hitems : ∀ x ∈ items, x.isNullish = false ∧ (x.optProp "_id").isNullish = false) :
    mapItems entryId data items
      = some (items.map fun entry =>
          if (entry.optProp "_id").toStr = entryId then spread entry data else entry) := by
  induction items with
  | nil => rfl
  | cons entry rest ih =>
    obtain ⟨hentry, hid⟩ := hitems entry (List.mem_cons_self _ _)
    have hrest : ∀ x ∈ rest, x.isNullish = false ∧ (x.optProp "_id").isNullish = false :=
      fun x hx => hitems x (List.mem_cons_of_mem _ hx)
    simp only [mapItems, JSValue.getProp_of_not_nullish "_id" hentry, JSValue.toStringCall,
      hid, ih hrest, List.map_cons]
    rfl

/-- The run of `handleUpdate` without an editing entry id. -/
theorem handleUpdate_of_no_id (backend : Backend) (w : World) {s : DashboardState}
    (h : s.editingEntryId.truthy = false) :
    handleUpdate backend w s
      = (w.toastError (JSValue.string "Entry ID is undefined, cannot update."), s) := by
  simp [handleUpdate, h]

/-- The run of `handleUpdate` whose request is answered with a response. -/
theorem handleUpdate_of_ok {backend : Backend} {w : World} {s : DashboardState}
    {entryId : String} {response : Response}
    (hediting : s.editingEntryId.truthy = true) (hid : updateEntryId s = some entryId)
    (hb : backend (axiosInstance.requestInterceptor w.storage
      ⟨"put", "/journal/" ++ s.username.toStr ++ "/" ++ entryId, s.editingEntryData, []⟩)
        = Except.ok response) :
    handleUpdate backend w s
      = (World.toastSuccess
          { w with requests := w.requests ++ [axiosInstance.requestInterceptor w.storage
              ⟨"put", "/journal/" ++ s.username.toStr ++ "/" ++ entryId,
                s.editingEntryData, []⟩] }
          (JSValue.string "Entry updated successfully."),
        { setEntriesWith s (mapEntries entryId s.editingEntryData) with
          editingEntryId := JSValue.null
          editingEntryData := JSValue.object 0 [] }) := by
  unfold updateEntryId at hid
  unfold handleUpdate
  simp only [hediting, Bool.not_true, Bool.false_eq_true, if_false, hid, axiosInstance.put,
    axiosInstance.request_of_ok hb]

end Dashboard

/-- When `handleUpdate` runs with an editing entry id whose text is `e`
(for a string id, the string itself) and its request is answered with a
response, the entries list becomes the previous list mapped in place: same
length and order, each entry whose `_id` as text equals `e` replaced by the
object `{ ...entry, ...editingEntryData }`, every other entry as it was; the
editing entry id becomes `null` and the editing data the empty object. In the
replaced entry a property of the editing data has the value of the editing
data, and every other property the value it had in the entry. The entries
list is an array of entries each of which has an `_id`. When no editing entry
id is set, `handleUpdate` issues no request and leaves the Dashboard state
as it is; it shows the notice "Entry ID is undefined, cannot update.". -/
theorem update_maps_entries_with_ids (backend : Backend) (w : World)
    (s : DashboardState) :
    (∀ (entryId : String) (response : Response) (ref : Nat) (items : List JSValue),
        s.editingEntryId.truthy = true → Dashboard.updateEntryId s = some entryId →
        backend (axiosInstance.requestInterceptor w.storage
          ⟨"put", "/journal/" ++ s.username.toStr ++ "/" ++ entryId, s.editingEntryData, []⟩)
            = Except.ok response →
        s.entries = JSValue.array ref items →
        (∀ x ∈ items, x.isNullish = false ∧ (x.optProp "_id").isNullish = false) →
        (Dashboard.handleUpdate backend w s).2
            = { entries := JSValue.array 0 (items.map fun entry =>
                  if (entry.optProp "_id").toStr = entryId then
                    Dashboard.spread entry s.editingEntryData
                  else entry)
                username := s.username
                editingEntryId := JSValue.null
                editingEntryData := JSValue.object 0 []
                renderError := s.renderError }
          ∧ (items.map fun entry =>
                if (entry.optProp "_id").toStr = entryId then
                  Dashboard.spread entry s.editingEntryData
                else entry).length = items.length)
      ∧ (∀ (entry : JSValue) (key : String),
          (∀ kv ∈ Dashboard.ownProps s.editingEntryData, kv.1 ≠ key) →
          (Dashboard.spread entry s.editingEntryData).optProp key = entry.optProp key)
      ∧ (∀ (entry : JSValue) (key : String) (value : JSValue),
          ((Dashboard.ownProps s.editingEntryData).map Prod.fst).Nodup →
          (key, value) ∈ Dashboard.ownProps s.editingEntryData →
          (Dashboard.spread entry s.editingEntryData).optProp key = value)
      ∧ (∀ e : String, s.editingEntryId = JSValue.string e → e ≠ "" →
          s.editingEntryId.truthy = true ∧ Dashboard.updateEntryId s = some e)
      ∧ (s.editingEntryId.truthy = false →
          Dashboard.handleUpdate backend w s
            = (w.toastError (JSValue.string "Entry ID is undefined, cannot update."), s)
          ∧ (Dashboard.handleUpdate backend w s).1.requests = w.requests) := by
  refine ⟨?_, ?_, ?_, ?_, ?_⟩
  · intro entryId response ref items hediting hid hb hentries hitems
    rw [Dashboard.handleUpdate_of_ok hediting hid hb]
    refine ⟨?_, List.length_map _ _⟩
    simp only [Dashboard.setEntriesWith, hentries, Dashboard.mapEntries,
      Dashboard.mapItems_eq_map _ _ items hitems, Option.map_some']
  · intro entry key hkey
    have hentry : JSValue.lookup key (Dashboard.ownProps entry) = entry.optProp key := by
      cases entry <;> rfl
    have hspread : (Dashboard.spread entry s.editingEntryData).optProp key
        = JSValue.lookup key ((Dashboard.ownProps s.editingEntryData).foldl
            (fun acc kv => Dashboard.setField acc kv.1 kv.2) (Dashboard.ownProps entry)) := rfl
    rw [hspread, Dashboard.lookup_foldl_setField_of_not_mem _ _ key hkey, hentry]
  · intro entry key value hnodup hmem
    have hspread : (Dashboard.spread entry s.editingEntryData).optProp key
        = JSValue.lookup key ((Dashboard.ownProps s.editingEntryData).foldl
            (fun acc kv => Dashboard.setField acc kv.1 kv.2) (Dashboard.ownProps entry)) := rfl
    rw [hspread]
    exact Dashboard.lookup_foldl_setField_of_mem _ _ key value hnodup hmem
  · intro e he hne
    constructor
    · simp [he, JSValue.truthy, hne]
    · simp [Dashboard.updateEntryId, he, JSValue.typeofObject, JSValue.toStringCall,
        JSValue.isNullish, JSValue.toStr]
  · intro hnone
    rw [Dashboard.handleUpdate_of_no_id backend w hnone]
    exact ⟨rfl, rfl⟩

/-- C26, at the failing input: the entries list holds an entry without an
`_id` (it carries `id`) and the entry "e2", which is being edited. The update
request is issued and answered with a response, and the success notice is
shown; the updater of `setEntries` then throws on `entry._id.toString()` of
the first entry, so the list is not mapped: the entry "e2" keeps its old
title and the component fails to render. The order of the two entries makes
no difference. `handleDelete` filters the same list without throwing. -/
theorem C26_update_throws_on_entry_without_id :
    Dashboard.mapEntries "e2" (JSValue.object 0 [("title", JSValue.string "Tuesday")])
        (JSValue.array 1
          [JSValue.object 2 [("id", JSValue.string "e1"), ("title", JSValue.string "Mon")],
            JSValue.object 3 [("_id", JSValue.string "e2"), ("title", JSValue.string "Tue")]])
        = none
      ∧ (Dashboard.handleUpdate (fun _ => Except.ok ⟨200, JSValue.null⟩)
          ⟨[("token", "abc")], "/dashboard", [], []⟩
          ⟨JSValue.array 1
              [JSValue.object 2 [("id", JSValue.string "e1"), ("title", JSValue.string "Mon")],
                JSValue.object 3
                  [("_id", JSValue.string "e2"), ("title", JSValue.string "Tue")]],
            JSValue.string "ann", JSValue.string "e2",
            JSValue.object 0 [("title", JSValue.string "Tuesday")], false⟩)
        = (⟨[("token", "abc")], "/dashboard",
              [⟨ToastKind.success, JSValue.string "Entry updated successfully."⟩],
              [⟨"put", "/journal/ann/e2",
                  JSValue.object 0 [("title", JSValue.string "Tuesday")],
                  [("Authorization", "Bearer abc")]⟩]⟩,
            ⟨JSValue.array 1
                [JSValue.object 2 [("id", JSValue.string "e1"), ("title", JSValue.string "Mon")],
                  JSValue.object 3
                    [("_id", JSValue.string "e2"), ("title", JSValue.string "Tue")]],
              JSValue.string "ann", JSValue.null, JSValue.object 0 [], true⟩)
      ∧ (Dashboard.handleUpdate (fun _ => Except.ok ⟨200, JSValue.null⟩)
          ⟨[("token", "abc")], "/dashboard", [], []⟩
          ⟨JSValue.array 1
              [JSValue.object 3 [("_id", JSValue.string "e2"), ("title", JSValue.string "Tue")],
                JSValue.object 2
                  [("id", JSValue.string "e1"), ("title", JSValue.string "Mon")]],
            JSValue.string "ann", JSValue.string "e2",
            JSValue.object 0 [("title", JSValue.string "Tuesday")], false⟩).2
        = ⟨JSValue.array 1
              [JSValue.object 3 [("_id", JSValue.string "e2"), ("title", JSValue.string "Tue")],
                JSValue.object 2
                  [("id", JSValue.string "e1"), ("title", JSValue.string "Mon")]],
            JSValue.string "ann", JSValue.null, JSValue.object 0 [], true⟩
      ∧ (Dashboard.handleDelete (fun _ => Except.ok ⟨200, JSValue.null⟩)
          ⟨[("token", "abc")], "/dashboard", [], []⟩
          ⟨JSValue.array 1
              [JSValue.object 2 [("id", JSValue.string "e1"), ("title", JSValue.string "Mon")],
                JSValue.object 3
                  [("_id", JSValue.string "e2"), ("title", JSValue.string "Tue")]],
            JSValue.string "ann", JSValue.null, JSValue.object 0 [], false⟩
          (JSValue.string "e2") true).2
        = ⟨JSValue.array 0
              [JSValue.object 2 [("id", JSValue.string "e1"), ("title", JSValue.string "Mon")]],
            JSValue.string "ann", JSValue.null, JSValue.object 0 [], false⟩ := by
  refine ⟨?_, ?_, ?_, ?_⟩ <;> rfl

/-! The submit of the entry form -/

namespace JournalEntryForm

/-- The run of `handleSubmit` whose request is answered with a response. -/
theorem handleSubmit_of_ok {backend : Backend} {w : World} {s : JournalEntryFormState}
    {id : Option String} {response : Response}
    (hb : backend (axiosInstance.requestInterceptor w.storage (submitRequest s id))
      = Except.ok response) :
    handleSubmit backend w s id
      = World.navigate
          (World.toastSuccess
            { w with requests := w.requests
                ++ [axiosInstance.requestInterceptor w.storage (submitRequest s id)] }
            (JSValue.string
              (if hasId id then "Entry updated successfully."
                else "Entry created successfully.")))
          "/dashboard" := by
  unfold submitRequest payload at hb
  unfold handleSubmit submitRequest payload
  by_cases hid : hasId id = true
  · rw [if_pos hid] at hb
    simp only [if_pos hid, axiosInstance.put, axiosInstance.request_of_ok hb]
  · rw [if_neg hid] at hb
    simp only [if_neg hid, axiosInstance.post, axiosInstance.request_of_ok hb]

/-- The run of `handleSubmit` whose request is answered with an error. -/
theorem handleSubmit_of_error {backend : Backend} {w : World} {s : JournalEntryFormState}
    {id : Option String} {error : AxiosError}
    (hb : backend (axiosInstance.requestInterceptor w.storage (submitRequest s id))
      = Except.error error) :
    handleSubmit backend w s id
      = World.toastError
          (axiosInstance.responseErrorHandler
            { w with requests := w.requests
                ++ [axiosInstance.requestInterceptor w.storage (submitRequest s id)] } error).1
          (JSValue.string "Failed to save entry.") := by
  unfold submitRequest payload at hb
  unfold handleSubmit submitRequest payload
  by_cases hid : hasId id = true
  · rw [if_pos hid] at hb
    simp only [if_pos hid, axiosInstance.put, axiosInstance.request_of_error hb]
    rw [axiosInstance.responseErrorHandler_eq]
  · rw [if_neg hid] at hb
    simp only [if_neg hid, axiosInstance.post, axiosInstance.request_of_error hb]
    rw [axiosInstance.responseErrorHandler_eq]

end JournalEntryForm

/-- C27, as the claim states it, fails: a create that the backend answers with
401 shows "Failed to save entry." but does not stay on the form; the response
error handler has removed the credential and set the location to "/login". -/
theorem C27_failed_submit_can_leave_the_form :
    (JournalEntryForm.handleSubmit
        (fun _ => Except.error ⟨"Request failed with status code 401", some ⟨401, JSValue.null⟩⟩)
        ⟨[("token", "abc")], "/entry/new", [], []⟩
        ⟨JSValue.string "Monday", JSValue.string "Rain.", JSValue.string "HAPPY",
          "vintage", "Caveat", "classic", false⟩
        none).location = "/login"
    ∧ (JournalEntryForm.handleSubmit
        (fun _ => Except.error ⟨"Request failed with status code 401", some ⟨401, JSValue.null⟩⟩)
        ⟨[("token", "abc")], "/entry/new", [], []⟩
        ⟨JSValue.string "Monday", JSValue.string "Rain.", JSValue.string "HAPPY",
          "vintage", "Caveat", "classic", false⟩
        none).location ≠ "/entry/new"
    ∧ (JournalEntryForm.handleSubmit
        (fun _ => Except.error ⟨"Request failed with status code 401", some ⟨401, JSValue.null⟩⟩)
        ⟨[("token", "abc")], "/entry/new", [], []⟩
        ⟨JSValue.string "Monday", JSValue.string "Rain.", JSValue.string "HAPPY",
          "vintage", "Caveat", "classic", false⟩
        none).toasts = [⟨ToastKind.error, JSValue.string "Failed to save entry."⟩] := by
  have hloc : (JournalEntryForm.handleSubmit
        (fun _ => Except.error ⟨"Request failed with status code 401", some ⟨401, JSValue.null⟩⟩)
        ⟨[("token", "abc")], "/entry/new", [], []⟩
        ⟨JSValue.string "Monday", JSValue.string "Rain.", JSValue.string "HAPPY",
          "vintage", "Caveat", "classic", false⟩
        none).location = "/login" := rfl
  refine ⟨hloc, ?_, rfl⟩
  rw [hloc]
  decide

/-- C27, amended: `handleSubmit` puts exactly one request on the wire, with
the payload `{ title, content, sentiment }`: a PUT to "/journal/" followed
by the id when the route has one, a POST to "/journal" when it has none. When
the request is answered with a response, the success notice is shown and the
location becomes "/dashboard". When it is answered with an error, the notice
"Failed to save entry." is shown and the location is not set to
"/dashboard": it stays what it was, except for a 401 response, where the
response error handler has removed the credential and set it to "/login". -/
theorem C27_submit_issues_one_request (backend : Backend) (w : World)
    (s : JournalEntryFormState) (id : Option String) :
    (JournalEntryForm.handleSubmit backend w s id).requests
        = w.requests
          ++ [axiosInstance.requestInterceptor w.storage (JournalEntryForm.submitRequest s id)]
      ∧ (∀ text : String, id = some text → text ≠ "" →
          JournalEntryForm.submitRequest s id
            = ⟨"put", "/journal/" ++ text,
                JSValue.object 0
                  [("title", s.title), ("content", s.content), ("sentiment", s.sentiment)],
                []⟩)
      ∧ (id = none →
          JournalEntryForm.submitRequest s id
            = ⟨"post", "/journal",
                JSValue.object 0
                  [("title", s.title), ("content", s.content), ("sentiment", s.sentiment)],
                []⟩)
      ∧ (∀ response : Response,
          backend (axiosInstance.requestInterceptor w.storage
            (JournalEntryForm.submitRequest s id)) = Except.ok response →
          (JournalEntryForm.handleSubmit backend w s id).location = "/dashboard"
            ∧ (JournalEntryForm.handleSubmit backend w s id).storage = w.storage
            ∧ (JournalEntryForm.handleSubmit backend w s id).toasts
              = w.toasts ++ [⟨ToastKind.success, JSValue.string
                  (if JournalEntryForm.hasId id then "Entry updated successfully."
                    else "Entry created successfully.")⟩])
      ∧ (∀ error : AxiosError,
          backend (axiosInstance.requestInterceptor w.storage
            (JournalEntryForm.submitRequest s id)) = Except.error error →
          (JournalEntryForm.handleSubmit backend w s id).toasts
              = w.toasts ++ [⟨ToastKind.error, JSValue.string "Failed to save entry."⟩]
            ∧ ((∀ response, error.response = some response → response.status ≠ 401) →
                (JournalEntryForm.handleSubmit backend w s id).location = w.location
                  ∧ (JournalEntryForm.handleSubmit backend w s id).storage = w.storage)
            ∧ (∀ response, error.response = some response → response.status = 401 →
                (JournalEntryForm.handleSubmit backend w s id).location = "/login"
                  ∧ (JournalEntryForm.handleSubmit backend w s id).storage
                    = w.storage.removeItem "token")
            ∧ (w.location ≠ "/dashboard" →
                (JournalEntryForm.handleSubmit backend w s id).location ≠ "/dashboard")) := by
  refine ⟨?_, ?_, ?_, ?_, ?_⟩
  · cases hb : backend (axiosInstance.requestInterceptor w.storage
        (JournalEntryForm.submitRequest s id)) with
    | ok response =>
      rw [JournalEntryForm.handleSubmit_of_ok hb]
      rfl
    | error error =>
      rw [JournalEntryForm.handleSubmit_of_error hb]
      simp only [World.toastError]
      exact axiosInstance.responseErrorHandler_requests _ _
  · intro text hid hne
    simp [JournalEntryForm.submitRequest, JournalEntryForm.hasId, JournalEntryForm.entryUrl,
      JournalEntryForm.payload, hid, hne]
  · intro hid
    simp [JournalEntryForm.submitRequest, JournalEntryForm.hasId, JournalEntryForm.payload, hid]
  · intro response hb
    rw [JournalEntryForm.handleSubmit_of_ok hb]
    exact ⟨rfl, rfl, rfl⟩
  · intro error hb
    rw [JournalEntryForm.handleSubmit_of_error hb]
    refine ⟨?_, ?_, ?_, ?_⟩
    · simp only [World.toastError]
      rw [axiosInstance.responseErrorHandler_toasts]
    · intro hother
      have hrun : axiosInstance.responseErrorHandler
          { w with requests := w.requests ++ [axiosInstance.requestInterceptor w.storage
              (JournalEntryForm.submitRequest s id)] } error
          = ({ w with requests := w.requests ++ [axiosInstance.requestInterceptor w.storage
              (JournalEntryForm.submitRequest s id)] }, Except.error error) := by
        unfold axiosInstance.responseErrorHandler
        cases hresp : error.response with
        | none => rfl
        | some response =>
          have hne : response.status ≠ 401 := hother response hresp
          simp [hne]
      rw [hrun]
      exact ⟨rfl, rfl⟩
    · intro response hresp h401
      rw [axiosInstance.responseErrorHandler_unauthorized _ hresp h401]
      exact ⟨rfl, rfl⟩
    · intro hloc hdash
      simp only [World.toastError] at hdash
      rcases axiosInstance.responseErrorHandler_location
        { w with requests := w.requests ++ [axiosInstance.requestInterceptor w.storage
            (JournalEntryForm.submitRequest s id)] } error with hl | hl
      · rw [hl] at hdash
        exact hloc hdash
      · rw [hl] at hdash
        exact absurd hdash (by decide)

/-- Witness of C27 (amended): an update that fails with status 500 stays on
the form and shows the notice. -/
theorem C27_submit_issues_one_request_witness :
    (JournalEntryForm.handleSubmit
        (fun _ => Except.error ⟨"Request failed with status code 500", some ⟨500, JSValue.null⟩⟩)
        ⟨[("token", "abc")], "/entry/edit/e1", [], []⟩
        ⟨JSValue.string "Monday", JSValue.string "Rain.", JSValue.string "HAPPY",
          "vintage", "Caveat", "classic", false⟩
        (some "e1")).location = "/entry/edit/e1"
    ∧ (JournalEntryForm.handleSubmit
        (fun _ => Except.error ⟨"Request failed with status code 500", some ⟨500, JSValue.null⟩⟩)
        ⟨[("token", "abc")], "/entry/edit/e1", [], []⟩
        ⟨JSValue.string "Monday", JSValue.string "Rain.", JSValue.string "HAPPY",
          "vintage", "Caveat", "classic", false⟩
        (some "e1")).toasts
      = [] ++ [⟨ToastKind.error, JSValue.string "Failed to save entry."⟩] :=
  let h := (C27_submit_issues_one_request
    (fun _ => Except.error ⟨"Request failed with status code 500", some ⟨500, JSValue.null⟩⟩)
    ⟨[("token", "abc")], "/entry/edit/e1", [], []⟩
    ⟨JSValue.string "Monday", JSValue.string "Rain.", JSValue.string "HAPPY",
      "vintage", "Caveat", "classic", false⟩
    (some "e1")).2.2.2.2 _ rfl
  ⟨(h.2.1 (by
      intro response hresp
      cases hresp
      decide)).1, h.1⟩

/-! Themes -/

namespace App

/-- A click on a `ThemeSelector` button keeps the theme among the keys. -/
theorem selectTheme_mem (theme : String) (button : Nat) (h : theme ∈ themeKeys) :
    selectTheme theme button ∈ themeKeys := by
  unfold selectTheme
  cases hget : themeKeys.get? button with
  | none => exact h
  | some themeKey => exact List.get?_mem hget

theorem foldl_selectTheme_mem (clicks : List Nat) (theme : String) (h : theme ∈ themeKeys) :
    clicks.foldl selectTheme theme ∈ themeKeys := by
  induction clicks generalizing theme with
  | nil => exact h
  | cons button rest ih => exact ih _ (selectTheme_mem theme button h)

/-- The theme state is always a key of `themeStyles`. -/
theorem themeAfter_mem (clicks : List Nat) : themeAfter clicks ∈ themeKeys :=
  foldl_selectTheme_mem clicks initialTheme (by decide)

end App

/-- C28: the keys of `App`'s `themeStyles` are serene, sunrise, royal, botanical
and midnight; after any sequence of clicks on the `ThemeSelector` the theme
state of `App` is one of them, so `themeStyles[theme]` is defined, with every
property `App` reads. `App` passes `theme` to `ProtectedRoute`, which hands no
props to the component, so for every theme of `App` the Dashboard behind a
protected route uses its default "vintage", a key of the Dashboard's own
`themeStyles` with every property the Dashboard reads; no theme key of `App`
is a key of the Dashboard's table. Every route of `App` that renders the
Dashboard does so through `ProtectedRoute`. -/
theorem C28_theme_lookups_are_defined :
    App.themeKeys = ["serene", "sunrise", "royal", "botanical", "midnight"]
      ∧ (∀ clicks : List Nat,
          App.themeAfter clicks ∈ App.themeKeys
            ∧ (App.themeStyle (App.themeAfter clicks)).isSome = true
            ∧ ∀ property ∈ App.usedProperties,
                (((App.themeStyle (App.themeAfter clicks)).getD []).lookup property).isSome
                  = true)
      ∧ (∀ (page : Page) (theme : String),
          Dashboard.themeOf (ProtectedRoute.componentProps (App.protectedRouteProps page theme))
            = JSValue.string "vintage")
      ∧ (Dashboard.themeStyle (JSValue.string "vintage")).isSome = true
      ∧ (∀ property ∈ Dashboard.usedProperties,
          (((Dashboard.themeStyle (JSValue.string "vintage")).getD []).lookup property).isSome
            = true)
      ∧ (∀ theme ∈ App.themeKeys, Dashboard.themeStyle (JSValue.string theme) = none)
      ∧ (∀ route ∈ App.routes,
          route.2 = RouteElement.page Page.dashboard
            ∨ route.2 = RouteElement.protectedPage Page.dashboard →
          route = ("/dashboard", RouteElement.protectedPage Page.dashboard)) := by
  have hkeys : ∀ theme ∈ App.themeKeys,
      (App.themeStyle theme).isSome = true
        ∧ ∀ property ∈ App.usedProperties,
            (((App.themeStyle theme).getD []).lookup property).isSome = true := by decide
  refine ⟨by decide, ?_, fun _ _ => rfl, by decide, by decide, by decide, by decide⟩
  intro clicks
  exact ⟨App.themeAfter_mem clicks, hkeys _ (App.themeAfter_mem clicks)⟩

end DairyApp
